import Mathlib

/-!
# LLGL: command replay (Null backend) and D3D12 pipeline-state serialization

A shallow embedding of the parts of LLGL that the verified properties are
about, followed by the theorems.

* `sources/Renderer/Null/Command/NullCommandExecutor.cpp`
* `sources/Renderer/Direct3D12/RenderState/D3D12GraphicsPSO.cpp`
* `sources/Renderer/Direct3D12/D3D12RenderSystem.cpp`
* `sources/Renderer/ResourceUtils.h`
* `sources/JIT/Platform/Win32/Win32JITProgram.cpp`
* `sources/Renderer/OpenGL/Command/GLCommandOpcode.h`
* `sources/Renderer/OpenGL/Command/GLCommandBuffer.cpp`, `GLCommandBuffer.h`
* `sources/Core/Types.cpp`
* `sources/Renderer/Direct3D11/Buffer/D3D11StagingBuffer.cpp`

Memory is a list of bytes (natural numbers), a pointer into a chunk is an
offset into that list, and multi-byte objects are little-endian (the x86/x64
targets of the renderer).
-/

namespace LLGL

/-! ## Bytes -/

/-- Value of a little-endian byte sequence. -/
def leValue : List Nat → Nat
  | [] => 0
  | b :: bs => b + 256 * leValue bs

/-- The `w` little-endian bytes of the object representation of `v`. -/
def leBytes : Nat → Nat → List Nat
  | 0, _ => []
  | w + 1, v => (v % 256) :: leBytes w (v / 256)

/-- Ways in which a replay of the model can go wrong: a read outside the chunk
(undefined behaviour in the source) or an exhausted iteration budget. -/
inductive Fault
  | OutOfBounds
  | OutOfFuel
  deriving DecidableEq, Repr

/-- Reads `n` bytes at offset `addr`; reading past the end of the region is a fault. -/
def readBytes (mem : List Nat) (addr n : Nat) : Except Fault (List Nat) :=
  if addr + n ≤ mem.length then .ok ((mem.drop addr).take n) else .error Fault.OutOfBounds

/-- A member of a command structure: byte offset inside the structure and size in bytes. -/
structure Field where
  off : Nat
  width : Nat
  deriving DecidableEq, Repr

/-- Reads the member `f` of the structure that starts at offset `base` (`cmd->f`). -/
def readField (mem : List Nat) (base : Nat) (f : Field) : Except Fault Nat :=
  (readBytes mem (base + f.off) f.width).map leValue

/-! ## Null backend: opcode table and command structures

`NullCommandOpcode.h` and `NullCommand.h` are not part of the sources at hand, so
the enumerator values, the structure sizes and the member offsets that
`NullCommandExecutor.cpp` refers to are parameters of the model. -/

/-- Enumerator values of `NullOpcode`, `sizeof` of the types and the members of the
`NullCmd...` structures that `ExecuteNullCommand` reads. -/
structure NullLayout where
  sizeofOpcode : Nat
  sizeofSizeT : Nat
  sizeofPtr : Nat
  NullOpcodeBufferWrite : Nat
  NullOpcodeCopySubresource : Nat
  NullOpcodeGenerateMips : Nat
  NullOpcodeDraw : Nat
  NullOpcodeDrawIndexed : Nat
  NullOpcodePushDebugGroup : Nat
  NullOpcodePopDebugGroup : Nat
  sizeofCmdBufferWrite : Nat
  BufferWrite_buffer : Field
  BufferWrite_offset : Field
  BufferWrite_size : Field
  sizeofCmdCopySubresource : Nat
  sizeofCmdGenerateMips : Nat
  GenerateMips_texture : Field
  GenerateMips_baseArrayLayer : Field
  GenerateMips_numArrayLayers : Field
  GenerateMips_baseMipLevel : Field
  GenerateMips_numMipLevels : Field
  sizeofCmdDraw : Nat
  Draw_numVertexBuffers : Field
  sizeofCmdDrawIndexed : Nat
  DrawIndexed_numVertexBuffers : Field
  sizeofCmdPushDebugGroup : Nat
  PushDebugGroup_length : Field

/-- Number of values of `std::size_t`. -/
def NullLayout.sizeMod (L : NullLayout) : Nat := 256 ^ L.sizeofSizeT

/-- Addition of `std::size_t` values. -/
def NullLayout.szAdd (L : NullLayout) (a b : Nat) : Nat := (a + b) % L.sizeMod

/-- Multiplication of `std::size_t` values. -/
def NullLayout.szMul (L : NullLayout) (a b : Nat) : Nat := (a * b) % L.sizeMod

/-- Backend operations that the Null executor performs. -/
inductive NullOp
  /-- Call `buffer->Write(offset, data, size)` with `size = data.length`. -/
  | BufferWrite (buffer offset : Nat) (data : List Nat)
  /-- Call `texture->GenerateMips(&subresource)`. -/
  | GenerateMips (texture baseArrayLayer numArrayLayers baseMipLevel numMipLevels : Nat)
  deriving DecidableEq, Repr

/-- Function `ExecuteNullCommand(opcode, pc)`: performs the command whose structure starts at
`pc` and returns the operations performed together with the reported size. -/
def ExecuteNullCommand (L : NullLayout) (mem : List Nat) (opcode pc : Nat) :
    Except Fault (List NullOp × Nat) :=
  if opcode = L.NullOpcodeBufferWrite then do
    let buffer ← readField mem pc L.BufferWrite_buffer
    let offset ← readField mem pc L.BufferWrite_offset
    let size ← readField mem pc L.BufferWrite_size
    let data ← readBytes mem (pc + L.sizeofCmdBufferWrite) size
    pure ([NullOp.BufferWrite buffer offset data], L.szAdd L.sizeofCmdBufferWrite size)
  else if opcode = L.NullOpcodeCopySubresource then
    pure ([], L.sizeofCmdCopySubresource)
  else if opcode = L.NullOpcodeGenerateMips then do
    let texture ← readField mem pc L.GenerateMips_texture
    let baseArrayLayer ← readField mem pc L.GenerateMips_baseArrayLayer
    let numArrayLayers ← readField mem pc L.GenerateMips_numArrayLayers
    let baseMipLevel ← readField mem pc L.GenerateMips_baseMipLevel
    let numMipLevels ← readField mem pc L.GenerateMips_numMipLevels
    pure ([NullOp.GenerateMips texture baseArrayLayer numArrayLayers baseMipLevel numMipLevels],
      L.sizeofCmdGenerateMips)
  else if opcode = L.NullOpcodeDraw then do
    let numVertexBuffers ← readField mem pc L.Draw_numVertexBuffers
    pure ([], L.szAdd L.sizeofCmdDraw (L.szMul numVertexBuffers L.sizeofPtr))
  else if opcode = L.NullOpcodeDrawIndexed then do
    let numVertexBuffers ← readField mem pc L.DrawIndexed_numVertexBuffers
    pure ([], L.szAdd L.sizeofCmdDrawIndexed (L.szMul numVertexBuffers L.sizeofPtr))
  else if opcode = L.NullOpcodePushDebugGroup then do
    let length ← readField mem pc L.PushDebugGroup_length
    pure ([], L.szAdd (L.szAdd L.sizeofCmdPushDebugGroup length) 1)
  else if opcode = L.NullOpcodePopDebugGroup then
    pure ([], 0)
  else
    pure ([], 0)

/-- What a replay of one chunk did: the backend operations in order, and the value of
the program counter at every evaluation of the loop condition `pc < pcEnd` in order
(the last entry is the value at which the loop was left). -/
structure Replay where
  ops : List NullOp
  pcs : List Nat
  deriving DecidableEq, Repr

/-- The `while (pc < pcEnd)` loop of `ExecuteNullVirtualCommandBuffer` on one chunk,
with an iteration budget. The program counter is the offset from `chunk.data` as a
natural number and is not reduced modulo the size of a pointer;
`ExecuteNullChunkLoopAt` is the loop with the pointer arithmetic of the machine, and
the two agree as long as the program counter stays inside the address space. -/
def ExecuteNullChunkLoop (L : NullLayout) (mem : List Nat) : Nat → Nat → Except Fault Replay
  | 0, pc => if pc < mem.length then .error Fault.OutOfFuel else .ok ⟨[], [pc]⟩
  | fuel + 1, pc =>
    if pc < mem.length then do
      let opcode ← readField mem pc ⟨0, L.sizeofOpcode⟩
      let pc1 := pc + L.sizeofOpcode
      let (ops, size) ← ExecuteNullCommand L mem opcode pc1
      let rest ← ExecuteNullChunkLoop L mem fuel (pc1 + size)
      pure ⟨ops ++ rest.ops, pc :: rest.pcs⟩
    else .ok ⟨[], [pc]⟩

/-- Body of the `for` loop of `ExecuteNullVirtualCommandBuffer` for one chunk
(`pc = chunk.data`, `pcEnd = chunk.data + chunk.size`). -/
def ExecuteNullChunk (L : NullLayout) (chunk : List Nat) : Except Fault Replay :=
  ExecuteNullChunkLoop L chunk chunk.length 0

/-- Function `ExecuteNullVirtualCommandBuffer(virtualCmdBuffer)`: the chunks are replayed in
order; the result lists the operations of the whole buffer and the program-counter
trace of every chunk. -/
def ExecuteNullVirtualCommandBuffer (L : NullLayout) :
    List (List Nat) → Except Fault (List NullOp × List (List Nat))
  | [] => .ok ([], [])
  | chunk :: chunks => do
    let r ← ExecuteNullChunk L chunk
    let (ops, pcss) ← ExecuteNullVirtualCommandBuffer L chunks
    pure (r.ops ++ ops, r.pcs :: pcss)

/-! ## Null backend: the records of a chunk -/

/-- Content of the member `f` in the image `hdr` of a command structure. -/
def headerField (hdr : List Nat) (f : Field) : Nat :=
  leValue ((hdr.drop f.off).take f.width)

/-- Stores `v` in the member `f` of the image `hdr` of a command structure. -/
def writeField (hdr : List Nat) (f : Field) (v : Nat) : List Nat :=
  hdr.take f.off ++ leBytes f.width v ++ hdr.drop (f.off + f.width)

/-- Modelled from the spec: the command records the Null recorder writes
(`NullCommandBuffer.cpp` and `NullCommand.h` are not part of the sources at hand).
A record is an opcode tag, a fixed header and a trailing payload; `hdr` is the image
of the header structure, whose count member is set from the payload when the record
is encoded: `size` bytes of data for a buffer write, `numVertexBuffers` buffer
pointers for a draw, the `length` characters of the name and a null terminator for a
debug group. `PopDebugGroup` has no header. -/
inductive NullCmd
  | BufferWrite (hdr data : List Nat)
  | CopySubresource (hdr : List Nat)
  | GenerateMips (hdr : List Nat)
  | Draw (hdr vertexBuffers : List Nat)
  | DrawIndexed (hdr vertexBuffers : List Nat)
  | PushDebugGroup (hdr name : List Nat)
  | PopDebugGroup
  deriving DecidableEq, Repr

/-- Opcode of a record. -/
def NullCmd.opcode (L : NullLayout) : NullCmd → Nat
  | .BufferWrite _ _ => L.NullOpcodeBufferWrite
  | .CopySubresource _ => L.NullOpcodeCopySubresource
  | .GenerateMips _ => L.NullOpcodeGenerateMips
  | .Draw _ _ => L.NullOpcodeDraw
  | .DrawIndexed _ _ => L.NullOpcodeDrawIndexed
  | .PushDebugGroup _ _ => L.NullOpcodePushDebugGroup
  | .PopDebugGroup => L.NullOpcodePopDebugGroup

/-- Fixed header of a record, with the count member filled in. -/
def NullCmd.header (L : NullLayout) : NullCmd → List Nat
  | .BufferWrite hdr data => writeField hdr L.BufferWrite_size data.length
  | .CopySubresource hdr => hdr
  | .GenerateMips hdr => hdr
  | .Draw hdr vertexBuffers => writeField hdr L.Draw_numVertexBuffers vertexBuffers.length
  | .DrawIndexed hdr vertexBuffers =>
    writeField hdr L.DrawIndexed_numVertexBuffers vertexBuffers.length
  | .PushDebugGroup hdr name => writeField hdr L.PushDebugGroup_length name.length
  | .PopDebugGroup => []

/-- Trailing payload of a record. -/
def NullCmd.payload (L : NullLayout) : NullCmd → List Nat
  | .BufferWrite _ data => data
  | .CopySubresource _ => []
  | .GenerateMips _ => []
  | .Draw _ vertexBuffers => vertexBuffers.flatMap (leBytes L.sizeofPtr)
  | .DrawIndexed _ vertexBuffers => vertexBuffers.flatMap (leBytes L.sizeofPtr)
  | .PushDebugGroup _ name => name ++ [0]
  | .PopDebugGroup => []

/-- Bytes of a record: opcode tag, fixed header, trailing payload. -/
def NullCmd.encode (L : NullLayout) (r : NullCmd) : List Nat :=
  leBytes L.sizeofOpcode (r.opcode L) ++ (r.header L ++ r.payload L)

/-- Bytes of a chunk that holds the records `rs` back to back. -/
def encodeChunk (L : NullLayout) (rs : List NullCmd) : List Nat :=
  rs.flatMap (NullCmd.encode L)

/-- Offsets of the first byte of every record of a chunk that starts at offset `pos`,
followed by the offset of the end of the chunk. -/
def recordStarts (L : NullLayout) : Nat → List NullCmd → List Nat
  | pos, [] => [pos]
  | pos, r :: rs => pos :: recordStarts L (pos + (r.encode L).length) rs

/-- Backend operations that a record stands for. -/
def NullCmd.ops (L : NullLayout) (r : NullCmd) : List NullOp :=
  match r with
  | .BufferWrite _ data =>
    [NullOp.BufferWrite (headerField (r.header L) L.BufferWrite_buffer)
      (headerField (r.header L) L.BufferWrite_offset) data]
  | .GenerateMips hdr =>
    [NullOp.GenerateMips (headerField hdr L.GenerateMips_texture)
      (headerField hdr L.GenerateMips_baseArrayLayer)
      (headerField hdr L.GenerateMips_numArrayLayers)
      (headerField hdr L.GenerateMips_baseMipLevel)
      (headerField hdr L.GenerateMips_numMipLevels)]
  | _ => []

/-- The member `f` lies inside a structure of `size` bytes. -/
def Field.Inside (f : Field) (size : Nat) : Prop := f.off + f.width ≤ size

instance (f : Field) (size : Nat) : Decidable (f.Inside size) := by
  unfold Field.Inside; infer_instance

/-- The opcodes the executor has a handler for. -/
def NullLayout.opcodes (L : NullLayout) : List Nat :=
  [L.NullOpcodeBufferWrite, L.NullOpcodeCopySubresource, L.NullOpcodeGenerateMips,
    L.NullOpcodeDraw, L.NullOpcodeDrawIndexed, L.NullOpcodePushDebugGroup,
    L.NullOpcodePopDebugGroup]

/-- Consistency of the declarations a layout stands for: the enumerators are pairwise
distinct and fit the opcode type, and every member lies inside its structure. -/
def NullLayout.Valid (L : NullLayout) : Prop :=
  L.opcodes.Nodup ∧ (∀ op ∈ L.opcodes, op < 256 ^ L.sizeofOpcode) ∧
  L.BufferWrite_buffer.Inside L.sizeofCmdBufferWrite ∧
  L.BufferWrite_offset.Inside L.sizeofCmdBufferWrite ∧
  L.BufferWrite_size.Inside L.sizeofCmdBufferWrite ∧
  L.GenerateMips_texture.Inside L.sizeofCmdGenerateMips ∧
  L.GenerateMips_baseArrayLayer.Inside L.sizeofCmdGenerateMips ∧
  L.GenerateMips_numArrayLayers.Inside L.sizeofCmdGenerateMips ∧
  L.GenerateMips_baseMipLevel.Inside L.sizeofCmdGenerateMips ∧
  L.GenerateMips_numMipLevels.Inside L.sizeofCmdGenerateMips ∧
  L.Draw_numVertexBuffers.Inside L.sizeofCmdDraw ∧
  L.DrawIndexed_numVertexBuffers.Inside L.sizeofCmdDrawIndexed ∧
  L.PushDebugGroup_length.Inside L.sizeofCmdPushDebugGroup

instance (L : NullLayout) : Decidable L.Valid := by
  unfold NullLayout.Valid; infer_instance

/-- A record is well formed: the header image has the size of its structure, the
count fits its member, and the size of the record is a `std::size_t` value. -/
def NullCmd.WellFormed (L : NullLayout) : NullCmd → Prop
  | .BufferWrite hdr data =>
    hdr.length = L.sizeofCmdBufferWrite ∧ data.length < 256 ^ L.BufferWrite_size.width ∧
    L.sizeofCmdBufferWrite + data.length < L.sizeMod
  | .CopySubresource hdr => hdr.length = L.sizeofCmdCopySubresource
  | .GenerateMips hdr => hdr.length = L.sizeofCmdGenerateMips
  | .Draw hdr vertexBuffers =>
    hdr.length = L.sizeofCmdDraw ∧
    vertexBuffers.length < 256 ^ L.Draw_numVertexBuffers.width ∧
    L.sizeofCmdDraw + vertexBuffers.length * L.sizeofPtr < L.sizeMod
  | .DrawIndexed hdr vertexBuffers =>
    hdr.length = L.sizeofCmdDrawIndexed ∧
    vertexBuffers.length < 256 ^ L.DrawIndexed_numVertexBuffers.width ∧
    L.sizeofCmdDrawIndexed + vertexBuffers.length * L.sizeofPtr < L.sizeMod
  | .PushDebugGroup hdr name =>
    hdr.length = L.sizeofCmdPushDebugGroup ∧
    name.length < 256 ^ L.PushDebugGroup_length.width ∧
    L.sizeofCmdPushDebugGroup + name.length + 1 < L.sizeMod
  | .PopDebugGroup => True

instance (L : NullLayout) (r : NullCmd) : Decidable (r.WellFormed L) := by
  cases r <;> unfold NullCmd.WellFormed <;> infer_instance

/-- Example layout, used in the examples below: a 64-bit target with one-byte opcodes
numbered from 1 in the order of the handlers, eight-byte pointers and `std::size_t`. -/
def layout64 : NullLayout where
  sizeofOpcode := 1
  sizeofSizeT := 8
  sizeofPtr := 8
  NullOpcodeBufferWrite := 1
  NullOpcodeCopySubresource := 2
  NullOpcodeGenerateMips := 3
  NullOpcodeDraw := 4
  NullOpcodeDrawIndexed := 5
  NullOpcodePushDebugGroup := 6
  NullOpcodePopDebugGroup := 7
  sizeofCmdBufferWrite := 24
  BufferWrite_buffer := ⟨0, 8⟩
  BufferWrite_offset := ⟨8, 8⟩
  BufferWrite_size := ⟨16, 8⟩
  sizeofCmdCopySubresource := 16
  sizeofCmdGenerateMips := 24
  GenerateMips_texture := ⟨0, 8⟩
  GenerateMips_baseArrayLayer := ⟨8, 4⟩
  GenerateMips_numArrayLayers := ⟨12, 4⟩
  GenerateMips_baseMipLevel := ⟨16, 4⟩
  GenerateMips_numMipLevels := ⟨20, 4⟩
  sizeofCmdDraw := 24
  Draw_numVertexBuffers := ⟨16, 8⟩
  sizeofCmdDrawIndexed := 32
  DrawIndexed_numVertexBuffers := ⟨24, 8⟩
  sizeofCmdPushDebugGroup := 8
  PushDebugGroup_length := ⟨0, 8⟩

/-! ## Direct3D 12: descriptors and native structures

The public descriptor types (`PipelineStateFlags.h`), the conversion tables
(`D3D12Types`, `DXTypes`, `PipelineStateUtils`) and the shader, render-pass and
pipeline-layout classes are not part of the sources at hand. Enumerations are carried
as their integer codes, `float` values as their 32-bit patterns, and the conversion
functions are parameters (`D3D12Types`). Members of the native descriptor that no
property below depends on (rasterizer and depth-stencil state, strip-cut value,
topology type) are left out. -/

/-- Constant `LLGL_MAX_NUM_COLOR_ATTACHMENTS`, the length of the `RenderTarget` and `RTVFormats`
arrays of the native descriptor. -/
def LLGL_MAX_NUM_COLOR_ATTACHMENTS : Nat := 8

def D3D12_VIEWPORT_AND_SCISSORRECT_OBJECT_COUNT_PER_PIPELINE : Nat := 16

def DXGI_FORMAT_UNKNOWN : Nat := 0
def DXGI_FORMAT_R8G8B8A8_UINT : Nat := 30
def DXGI_FORMAT_D24_UNORM_S8_UINT : Nat := 45
def DXGI_FORMAT_B8G8R8A8_UNORM : Nat := 87

def D3D12_BLEND_ZERO : Nat := 1
def D3D12_BLEND_ONE : Nat := 2
def D3D12_BLEND_OP_ADD : Nat := 1
def D3D12_LOGIC_OP_NOOP : Nat := 4
def D3D12_COLOR_WRITE_ENABLE_RED : Nat := 1
def D3D12_COLOR_WRITE_ENABLE_GREEN : Nat := 2
def D3D12_COLOR_WRITE_ENABLE_BLUE : Nat := 4
def D3D12_COLOR_WRITE_ENABLE_ALPHA : Nat := 8
def D3D12_COLOR_WRITE_ENABLE_ALL : Nat := 15

/-- Number of values of `UINT`. -/
def UINT_SIZE : Nat := 2 ^ 32

/-- Value of `sizeof(D3D12_VIEWPORT)`: six `FLOAT` members. -/
def sizeofD3D12_VIEWPORT : Nat := 24

/-- Value of `sizeof(D3D12_RECT)`: four `LONG` members. -/
def sizeofD3D12_RECT : Nat := 16

/-- Enumeration `LogicOp`: `Disabled`, or one of the logic operations. -/
inductive LogicOp
  | Disabled
  | Op (code : Nat)
  deriving DecidableEq, Repr

structure Viewport where
  x : Nat
  y : Nat
  width : Nat
  height : Nat
  minDepth : Nat
  maxDepth : Nat
  deriving DecidableEq, Repr

structure Scissor where
  x : Int
  y : Int
  width : Int
  height : Int
  deriving DecidableEq, Repr

structure BlendTargetDescriptor where
  blendEnabled : Bool
  srcColor : Nat
  dstColor : Nat
  colorArithmetic : Nat
  srcAlpha : Nat
  dstAlpha : Nat
  alphaArithmetic : Nat
  colorMask : Nat
  deriving DecidableEq, Repr

structure BlendDescriptor where
  alphaToCoverageEnabled : Bool
  independentBlendEnabled : Bool
  sampleMask : Nat
  logicOp : LogicOp
  blendFactor : Fin 4 → Nat
  blendFactorDynamic : Bool
  targets : Fin 8 → BlendTargetDescriptor

structure StencilFaceDescriptor where
  stencilFailOp : Nat
  depthFailOp : Nat
  depthPassOp : Nat
  compareOp : Nat
  readMask : Nat
  writeMask : Nat
  reference : Nat
  deriving DecidableEq, Repr

structure StencilDescriptor where
  testEnabled : Bool
  referenceDynamic : Bool
  front : StencilFaceDescriptor
  back : StencilFaceDescriptor
  deriving DecidableEq, Repr

structure D3D12_INPUT_ELEMENT_DESC where
  SemanticName : List Nat
  SemanticIndex : Nat
  Format : Nat
  InputSlot : Nat
  AlignedByteOffset : Nat
  InputSlotClass : Nat
  InstanceDataStepRate : Nat
  deriving DecidableEq, Repr

structure D3D12_SO_DECLARATION_ENTRY where
  Stream : Nat
  SemanticName : List Nat
  SemanticIndex : Nat
  StartComponent : Nat
  ComponentCount : Nat
  OutputSlot : Nat
  deriving DecidableEq, Repr

/-- Structure `D3D12_INPUT_LAYOUT_DESC`: the array `pInputElementDescs` points to, and the count. -/
structure D3D12_INPUT_LAYOUT_DESC where
  pInputElementDescs : List D3D12_INPUT_ELEMENT_DESC := []
  NumElements : Nat := 0
  deriving DecidableEq, Repr

/-- Structure `D3D12_STREAM_OUTPUT_DESC`: the arrays the two pointers point to, and the counts. -/
structure D3D12_STREAM_OUTPUT_DESC where
  pSODeclaration : List D3D12_SO_DECLARATION_ENTRY := []
  NumEntries : Nat := 0
  pBufferStrides : List Nat := []
  NumStrides : Nat := 0
  RasterizedStream : Nat := 0
  deriving DecidableEq, Repr

/-- What the graphics PSO uses of a `D3D12Shader`: its byte code and the input-layout
and stream-output declarations it reports. -/
structure Shader where
  byteCode : List Nat
  inputLayout : D3D12_INPUT_LAYOUT_DESC
  streamOutput : D3D12_STREAM_OUTPUT_DESC
  deriving DecidableEq, Repr

/-- What the graphics PSO uses of a `D3D12RenderPass`. -/
structure D3D12RenderPass where
  numColorAttachments : Nat
  rtvFormats : Fin 8 → Nat
  dsvFormat : Nat
  sampleCount : Nat

/-- What the graphics PSO uses of a `D3D12PipelineLayout`: the root signature and the
serialized root-signature blob (null when absent). -/
structure D3D12PipelineLayout where
  rootSignature : Nat
  serializedBlob : Option (List Nat)
  deriving DecidableEq, Repr

structure RasterizerDescriptor where
  scissorTestEnabled : Bool
  deriving DecidableEq, Repr

structure GraphicsPipelineDescriptor where
  pipelineLayout : Option D3D12PipelineLayout
  renderPass : Option D3D12RenderPass
  vertexShader : Option Shader
  tessControlShader : Option Shader
  tessEvaluationShader : Option Shader
  geometryShader : Option Shader
  fragmentShader : Option Shader
  primitiveTopology : Nat
  viewports : List Viewport
  scissors : List Scissor
  stencil : StencilDescriptor
  rasterizer : RasterizerDescriptor
  blend : BlendDescriptor

/-- Conversion functions and flag values the graphics PSO takes from `DXTypes`,
`D3D12Types`, `PipelineStateUtils` and `PipelineStateFlags.h`. -/
structure D3D12Types where
  ToD3DPrimitiveTopology : Nat → Nat
  ToDXGIFormatUInt : Nat → Nat
  MapBlendOp : Nat → Nat
  MapBlendArithmetic : Nat → Nat
  MapLogicOp : LogicOp → Nat
  IsStaticStencilRefEnabled : StencilDescriptor → Bool
  IsStaticBlendFactorEnabled : BlendDescriptor → Bool
  ColorMaskFlagsR : Nat
  ColorMaskFlagsG : Nat
  ColorMaskFlagsB : Nat
  ColorMaskFlagsA : Nat

structure D3D12_RENDER_TARGET_BLEND_DESC where
  BlendEnable : Bool
  LogicOpEnable : Bool
  SrcBlend : Nat
  DestBlend : Nat
  BlendOp : Nat
  SrcBlendAlpha : Nat
  DestBlendAlpha : Nat
  BlendOpAlpha : Nat
  LogicOp : Nat
  RenderTargetWriteMask : Nat
  deriving DecidableEq, Repr

structure D3D12_BLEND_DESC where
  AlphaToCoverageEnable : Bool
  IndependentBlendEnable : Bool
  RenderTarget : Fin 8 → D3D12_RENDER_TARGET_BLEND_DESC

def GetColorWriteMask (T : D3D12Types) (colorMask : Nat) : Nat :=
  let mask := 0
  let mask := if colorMask &&& T.ColorMaskFlagsR ≠ 0 then
    mask ||| D3D12_COLOR_WRITE_ENABLE_RED else mask
  let mask := if colorMask &&& T.ColorMaskFlagsG ≠ 0 then
    mask ||| D3D12_COLOR_WRITE_ENABLE_GREEN else mask
  let mask := if colorMask &&& T.ColorMaskFlagsB ≠ 0 then
    mask ||| D3D12_COLOR_WRITE_ENABLE_BLUE else mask
  let mask := if colorMask &&& T.ColorMaskFlagsA ≠ 0 then
    mask ||| D3D12_COLOR_WRITE_ENABLE_ALPHA else mask
  mask

def ConvertTargetBlendDesc (T : D3D12Types) (src : BlendTargetDescriptor) :
    D3D12_RENDER_TARGET_BLEND_DESC where
  BlendEnable := src.blendEnabled
  LogicOpEnable := false
  SrcBlend := T.MapBlendOp src.srcColor
  DestBlend := T.MapBlendOp src.dstColor
  BlendOp := T.MapBlendArithmetic src.colorArithmetic
  SrcBlendAlpha := T.MapBlendOp src.srcAlpha
  DestBlendAlpha := T.MapBlendOp src.dstAlpha
  BlendOpAlpha := T.MapBlendArithmetic src.alphaArithmetic
  LogicOp := D3D12_LOGIC_OP_NOOP
  RenderTargetWriteMask := GetColorWriteMask T src.colorMask

def SetBlendDescToDefault : D3D12_RENDER_TARGET_BLEND_DESC where
  BlendEnable := false
  LogicOpEnable := false
  SrcBlend := D3D12_BLEND_ONE
  DestBlend := D3D12_BLEND_ZERO
  BlendOp := D3D12_BLEND_OP_ADD
  SrcBlendAlpha := D3D12_BLEND_ONE
  DestBlendAlpha := D3D12_BLEND_ZERO
  BlendOpAlpha := D3D12_BLEND_OP_ADD
  LogicOp := D3D12_LOGIC_OP_NOOP
  RenderTargetWriteMask := D3D12_COLOR_WRITE_ENABLE_ALL

def SetBlendDescToLogicOp (logicOp : Nat) : D3D12_RENDER_TARGET_BLEND_DESC where
  BlendEnable := false
  LogicOpEnable := true
  SrcBlend := D3D12_BLEND_ONE
  DestBlend := D3D12_BLEND_ZERO
  BlendOp := D3D12_BLEND_OP_ADD
  SrcBlendAlpha := D3D12_BLEND_ONE
  DestBlendAlpha := D3D12_BLEND_ZERO
  BlendOpAlpha := D3D12_BLEND_OP_ADD
  LogicOp := logicOp
  RenderTargetWriteMask := D3D12_COLOR_WRITE_ENABLE_ALL

/-- Overload `ConvertBlendDesc(dst, dstColorFormats, src, numAttachments)`: returns the
blend state and the color formats it stores in `dst` and `dstColorFormats`. -/
def ConvertBlendDesc (T : D3D12Types) (src : BlendDescriptor) (numAttachments : Nat) :
    D3D12_BLEND_DESC × (Fin 8 → Nat) :=
  if src.logicOp = LogicOp.Disabled then
    ({ AlphaToCoverageEnable := src.alphaToCoverageEnabled
       IndependentBlendEnable := src.independentBlendEnabled
       RenderTarget := fun i =>
        if i.val < numAttachments then ConvertTargetBlendDesc T (src.targets i)
        else SetBlendDescToDefault },
     fun i => if i.val < numAttachments then DXGI_FORMAT_B8G8R8A8_UNORM else DXGI_FORMAT_UNKNOWN)
  else
    ({ AlphaToCoverageEnable := src.alphaToCoverageEnabled
       IndependentBlendEnable := false
       RenderTarget := fun i =>
        if i.val = 0 then SetBlendDescToLogicOp (T.MapLogicOp src.logicOp)
        else SetBlendDescToDefault },
     fun i => if i.val = 0 then DXGI_FORMAT_R8G8B8A8_UINT else DXGI_FORMAT_UNKNOWN)

/-- Overload `ConvertBlendDesc(dst, dstColorFormats, src, renderPass)`. -/
def ConvertBlendDescRenderPass (T : D3D12Types) (src : BlendDescriptor)
    (renderPass : D3D12RenderPass) : D3D12_BLEND_DESC × (Fin 8 → Nat) :=
  if src.logicOp = LogicOp.Disabled then
    ({ AlphaToCoverageEnable := src.alphaToCoverageEnabled
       IndependentBlendEnable := src.independentBlendEnabled
       RenderTarget := fun i =>
        if i.val < renderPass.numColorAttachments then ConvertTargetBlendDesc T (src.targets i)
        else SetBlendDescToDefault },
     fun i =>
      if i.val < renderPass.numColorAttachments then renderPass.rtvFormats i
      else DXGI_FORMAT_UNKNOWN)
  else
    ({ AlphaToCoverageEnable := src.alphaToCoverageEnabled
       IndependentBlendEnable := false
       RenderTarget := fun i =>
        if i.val = 0 then SetBlendDescToLogicOp (T.MapLogicOp src.logicOp)
        else SetBlendDescToDefault },
     fun i =>
      if i.val = 0 then
        (if renderPass.numColorAttachments > 0 then T.ToDXGIFormatUInt (renderPass.rtvFormats 0)
         else DXGI_FORMAT_UNKNOWN)
      else DXGI_FORMAT_UNKNOWN)

/-- Native pipeline descriptor `D3D12_GRAPHICS_PIPELINE_STATE_DESC`. A shader byte code
is the list of bytes `pShaderBytecode` points to (`BytecodeLength` is its length), the
cached PSO likewise. -/
structure D3D12_GRAPHICS_PIPELINE_STATE_DESC where
  pRootSignature : Nat := 0
  VS : List Nat := []
  PS : List Nat := []
  DS : List Nat := []
  HS : List Nat := []
  GS : List Nat := []
  StreamOutput : D3D12_STREAM_OUTPUT_DESC := {}
  BlendState : D3D12_BLEND_DESC :=
    { AlphaToCoverageEnable := false, IndependentBlendEnable := false,
      RenderTarget := fun _ => ⟨false, false, 0, 0, 0, 0, 0, 0, 0, 0⟩ }
  SampleMask : Nat := 0
  InputLayout : D3D12_INPUT_LAYOUT_DESC := {}
  NumRenderTargets : Nat := 0
  RTVFormats : Fin 8 → Nat := fun _ => 0
  DSVFormat : Nat := 0
  SampleDescCount : Nat := 0
  SampleDescQuality : Nat := 0
  CachedPSO : List Nat := []

/-- Errors: the exceptions thrown and the traps. -/
inductive Error
  /-- Exception `std::invalid_argument` with its message. -/
  | InvalidArgument (what : String)
  /-- Fatal stop by `LLGL_TRAP` with its message. -/
  | Trap (what : String)
  /-- Exception thrown for a failed native call (`DXThrowIfFailed` and the like). -/
  | NativeFailure (what : String)
  /-- Hard failure of the deserializer on a segment that is missing, has another
  identifier or another size than expected. -/
  | Serialization
  /-- Exception `std::runtime_error` with its message. -/
  | RuntimeError (what : String)
  deriving DecidableEq, Repr

/-! ## Direct3D 12: tagged-segment serialization

`Serialization.h` and `D3D12Serialization.h` are not part of the sources at hand. -/

/-- Segment identifiers `Serialization::D3D12Ident_...` that the sources name; `Other`
stands for any other identifier value. -/
inductive D3D12Ident
  | GraphicsPSOIdent
  | ComputePSOIdent
  | RootSignature
  | GraphicsDesc
  | CachedPSO
  | VS
  | PS
  | DS
  | HS
  | GS
  | InputElements
  | InputSemanticNames
  | SODeclEntries
  | SOSemanticNames
  | SOBufferStrides
  | StaticState
  | Other (value : Nat)
  deriving DecidableEq, Repr

/-- Content of a segment: plain bytes, or the object representation of a structure or
of an array of structures written as raw memory. The bytes of those representations
are not modelled; what a pointer member pointed to is not part of them. -/
inductive SegData
  | bytes (b : List Nat)
  | graphicsDesc (d : D3D12_GRAPHICS_PIPELINE_STATE_DESC)
  | inputElements (es : List D3D12_INPUT_ELEMENT_DESC)
  | soDeclEntries (es : List D3D12_SO_DECLARATION_ENTRY)

/-- Modelled from the spec: a tagged segment `{ identifier, length, bytes }`. -/
structure Segment where
  ident : D3D12Ident
  data : SegData

/-- Modelled from the spec: a serialized blob is an ordered sequence of tagged
segments (the byte framing of `Serialization.h` is not at hand). -/
abbrev Blob := List Segment

/-- Modelled from the spec: the writer of `Serialization.h`, which appends tagged
segments in write order; `current` is the segment opened by `Begin`. -/
structure Serializer where
  segments : List Segment := []
  current : Option (D3D12Ident × List Nat) := none

/-- Modelled from the spec: `Serializer::Begin(ident)` opens a segment. -/
def Serializer.Begin (w : Serializer) (ident : D3D12Ident) : Serializer :=
  { w with current := some (ident, []) }

/-- Modelled from the spec: `Serializer::Write(data, size)` appends bytes to the open
segment. -/
def Serializer.Write (w : Serializer) (bytes : List Nat) : Serializer :=
  match w.current with
  | some (ident, b) => { w with current := some (ident, b ++ bytes) }
  | none => w

/-- Modelled from the spec: `Serializer::WriteCString(str)` appends a null-terminated
string. -/
def Serializer.WriteCString (w : Serializer) (str : List Nat) : Serializer :=
  w.Write (str ++ [0])

/-- Modelled from the spec: `Serializer::End()` closes the open segment. -/
def Serializer.End (w : Serializer) : Serializer :=
  match w.current with
  | some (ident, b) => { segments := w.segments ++ [⟨ident, SegData.bytes b⟩], current := none }
  | none => w

/-- Modelled from the spec: `Serializer::WriteSegment(ident, data, size)` writes one
whole segment. -/
def Serializer.WriteSegment (w : Serializer) (ident : D3D12Ident) (data : SegData) :
    Serializer :=
  { w with segments := w.segments ++ [⟨ident, data⟩] }

/-- Modelled from the spec: `Serializer::Finalize()` yields the blob. -/
def Serializer.Finalize (w : Serializer) : Blob := w.segments

/-- Modelled from the spec: the reader of `Serialization.h`; `remaining` are the
segments not yet read, `current` the unread bytes of the segment opened by `Begin`,
and `consumed` records the identifiers of the segments read so far, in order. -/
structure Deserializer where
  remaining : List Segment
  current : List Nat := []
  consumed : List D3D12Ident := []

/-- Modelled from the spec: `Deserializer::ReadSegment()` reads the next segment,
whatever its identifier; a missing segment is a hard failure. -/
def Deserializer.ReadSegment (r : Deserializer) : Except Error (Segment × Deserializer) :=
  match r.remaining with
  | [] => .error Error.Serialization
  | seg :: rest =>
    .ok (seg, { remaining := rest, current := [], consumed := r.consumed ++ [seg.ident] })

/-- Modelled from the spec: `Deserializer::ReadSegment(ident)` reads the next segment;
another identifier is a hard failure. -/
def Deserializer.ReadSegmentIdent (r : Deserializer) (ident : D3D12Ident) :
    Except Error (Segment × Deserializer) := do
  let (seg, r) ← r.ReadSegment
  if seg.ident = ident then pure (seg, r) else .error Error.Serialization

/-- Modelled from the spec: `Deserializer::Begin(ident)` opens the next segment for
reading. -/
def Deserializer.Begin (r : Deserializer) (ident : D3D12Ident) : Except Error Deserializer := do
  let (seg, r) ← r.ReadSegmentIdent ident
  match seg.data with
  | SegData.bytes b => pure { r with current := b }
  | _ => .error Error.Serialization

/-- Modelled from the spec: `Deserializer::Read(data, size)` reads `size` bytes of the
open segment; a truncated segment is a hard failure. -/
def Deserializer.Read (r : Deserializer) (size : Nat) :
    Except Error (List Nat × Deserializer) :=
  if size ≤ r.current.length then
    pure (r.current.take size, { r with current := r.current.drop size })
  else .error Error.Serialization

/-- Characters of `bytes` in front of the first null character, and the bytes behind
that null character; nothing when there is no null character. -/
def splitCString : List Nat → Option (List Nat × List Nat)
  | [] => none
  | b :: bs =>
    if b = 0 then some ([], bs)
    else match splitCString bs with
      | some (str, rest) => some (b :: str, rest)
      | none => none

/-- Modelled from the spec: `Deserializer::ReadCString()` reads a null-terminated
string of the open segment. -/
def Deserializer.ReadCString (r : Deserializer) : Except Error (List Nat × Deserializer) :=
  match splitCString r.current with
  | some (str, rest) => pure (str, { r with current := rest })
  | none => .error Error.Serialization

/-- Modelled from the spec: `Deserializer::End()` closes the open segment. -/
def Deserializer.End (r : Deserializer) : Deserializer :=
  { r with current := [] }

/-! ## Direct3D 12: graphics PSO -/

/-- Model of the `D3D12Device`: the descriptors of the native pipeline states created
so far, in order, and the behaviour of the driver. -/
structure D3D12Device where
  created : List D3D12_GRAPHICS_PIPELINE_STATE_DESC
  accepts : D3D12_GRAPHICS_PIPELINE_STATE_DESC → Bool
  cachedBlob : Nat → Option (List Nat)
  rootSignatureOfBlob : List Nat → Nat

/-- Modelled from the spec: `D3D12Device::CreateDXGraphicsPipelineState` (in
`D3D12Device.cpp`, not at hand) creates the native pipeline state and throws when the
native creation fails. The handle returned is the index of the new object. -/
def D3D12Device.CreateDXGraphicsPipelineState (dev : D3D12Device)
    (stateDesc : D3D12_GRAPHICS_PIPELINE_STATE_DESC) : D3D12Device × Except Error Nat :=
  if dev.accepts stateDesc then
    ({ dev with created := dev.created ++ [stateDesc] }, .ok dev.created.length)
  else (dev, .error (Error.NativeFailure "ID3D12PipelineState"))

/-- Members of `D3D12GraphicsPSO` and of its base class `D3D12PipelineState`. -/
structure D3D12GraphicsPSO where
  rootSignature_ : Nat
  native_ : Option Nat
  primitiveTopology_ : Nat
  scissorEnabled_ : Bool
  stencilRefEnabled_ : Bool
  stencilRef_ : Nat
  blendFactorEnabled_ : Bool
  blendFactor_ : Fin 4 → Nat
  staticStateBuffer_ : Option (List Nat)
  numStaticViewports_ : Nat
  numStaticScissors_ : Nat

/-- Modelled from the spec: the members of a graphics PSO before the constructor body
runs (the member initialisers are in `D3D12GraphicsPSO.h`, not at hand): no native
object, no static-state buffer, counts zero, flags off. -/
def D3D12GraphicsPSO.initial (rootSignature : Nat) : D3D12GraphicsPSO where
  rootSignature_ := rootSignature
  native_ := none
  primitiveTopology_ := 0
  scissorEnabled_ := false
  stencilRefEnabled_ := false
  stencilRef_ := 0
  blendFactorEnabled_ := false
  blendFactor_ := fun _ => 0
  staticStateBuffer_ := none
  numStaticViewports_ := 0
  numStaticScissors_ := 0

def GetD3DShaderByteCode (shader : Option Shader) : List Nat :=
  match shader with
  | some sh => sh.byteCode
  | none => []

def GetD3DInputLayoutDesc (vs : Option Shader) : D3D12_INPUT_LAYOUT_DESC :=
  match vs with
  | some sh => sh.inputLayout
  | none => {}

def GetD3DStreamOutputDesc (vs gs : Option Shader) : D3D12_STREAM_OUTPUT_DESC :=
  match gs with
  | some sh => sh.streamOutput
  | none =>
    match vs with
    | some sh => sh.streamOutput
    | none => {}

def GetStaticStateBufferSize (numViewports numScissors : Nat) : Nat :=
  numViewports * sizeofD3D12_VIEWPORT + numScissors * sizeofD3D12_RECT

/-- Bit pattern of a `LONG` value (two's complement, 32 bits). -/
def longBits (v : Int) : Nat := (v % 2 ^ 32).toNat

/-- Bytes of the `D3D12_VIEWPORT` that `BuildStaticViewports` stores for a viewport. -/
def D3D12_VIEWPORT_bytes (v : Viewport) : List Nat :=
  leBytes 4 v.x ++ leBytes 4 v.y ++ leBytes 4 v.width ++ leBytes 4 v.height ++
    leBytes 4 v.minDepth ++ leBytes 4 v.maxDepth

/-- Bytes of the `D3D12_RECT` that `BuildStaticScissors` stores for a scissor. -/
def D3D12_RECT_bytes (sc : Scissor) : List Nat :=
  leBytes 4 (longBits sc.x) ++ leBytes 4 (longBits sc.y) ++
    leBytes 4 (longBits (sc.x + sc.width)) ++ leBytes 4 (longBits (sc.y + sc.height))

/-- Method `BuildStaticViewports`; `written` are the bytes the buffer iterator has
passed, and the result holds the bytes it has passed afterwards. -/
def D3D12GraphicsPSO.BuildStaticViewports (pso : D3D12GraphicsPSO) (viewports : List Viewport)
    (written : List Nat) : Except Error (D3D12GraphicsPSO × List Nat) :=
  let pso := { pso with numStaticViewports_ := viewports.length % UINT_SIZE }
  if pso.numStaticViewports_ > D3D12_VIEWPORT_AND_SCISSORRECT_OBJECT_COUNT_PER_PIPELINE then
    .error (Error.InvalidArgument
      ("too many viewports in graphics pipeline state (" ++ toString pso.numStaticViewports_ ++
        " specified, but limit is " ++
        toString D3D12_VIEWPORT_AND_SCISSORRECT_OBJECT_COUNT_PER_PIPELINE ++ ")"))
  else
    .ok (pso, written ++ viewports.flatMap D3D12_VIEWPORT_bytes)

/-- Method `BuildStaticScissors`. -/
def D3D12GraphicsPSO.BuildStaticScissors (pso : D3D12GraphicsPSO) (scissors : List Scissor)
    (written : List Nat) : Except Error (D3D12GraphicsPSO × List Nat) :=
  let pso := { pso with numStaticScissors_ := scissors.length % UINT_SIZE }
  if pso.numStaticScissors_ > D3D12_VIEWPORT_AND_SCISSORRECT_OBJECT_COUNT_PER_PIPELINE then
    .error (Error.InvalidArgument
      ("too many viewports in graphics pipeline state (" ++ toString pso.numStaticScissors_ ++
        " specified, but limit is " ++
        toString D3D12_VIEWPORT_AND_SCISSORRECT_OBJECT_COUNT_PER_PIPELINE ++ ")"))
  else
    .ok (pso, written ++ scissors.flatMap D3D12_RECT_bytes)

/-- Method `BuildStaticStateBuffer`: the buffer of
`GetStaticStateBufferSize(viewports.size(), scissors.size())` bytes is filled from its
start, first with the viewports, then with the scissors. -/
def D3D12GraphicsPSO.BuildStaticStateBuffer (pso : D3D12GraphicsPSO)
    (desc : GraphicsPipelineDescriptor) : Except Error D3D12GraphicsPSO := do
  let (pso, written) ←
    if desc.viewports ≠ [] then pso.BuildStaticViewports desc.viewports []
    else pure (pso, [])
  let (pso, written) ←
    if desc.scissors ≠ [] then pso.BuildStaticScissors desc.scissors written
    else pure (pso, written)
  pure { pso with staticStateBuffer_ := some written }

/-- Byte of a `bool`. -/
def boolByte (b : Bool) : Nat := if b then 1 else 0

/-- Object representation of an input element written as raw memory: the semantic-name
pointer does not carry the name. -/
def D3D12_INPUT_ELEMENT_DESC.image (e : D3D12_INPUT_ELEMENT_DESC) :
    D3D12_INPUT_ELEMENT_DESC :=
  { e with SemanticName := [] }

/-- Object representation of a stream-output entry written as raw memory. -/
def D3D12_SO_DECLARATION_ENTRY.image (e : D3D12_SO_DECLARATION_ENTRY) :
    D3D12_SO_DECLARATION_ENTRY :=
  { e with SemanticName := [] }

/-- Object representation of the native descriptor written as raw memory: counts and
scalar members are kept, what the pointer members pointed to is not. -/
def D3D12_GRAPHICS_PIPELINE_STATE_DESC.image (d : D3D12_GRAPHICS_PIPELINE_STATE_DESC) :
    D3D12_GRAPHICS_PIPELINE_STATE_DESC :=
  { d with
    VS := [], PS := [], DS := [], HS := [], GS := [], CachedPSO := []
    StreamOutput := { d.StreamOutput with pSODeclaration := [], pBufferStrides := [] }
    InputLayout := { d.InputLayout with pInputElementDescs := [] } }

/-- Modelled from the spec: `D3D12WriteSegmentBlob(writer, ident, blob)` of
`D3D12Serialization.h` writes the bytes of the blob as one segment. -/
def D3D12WriteSegmentBlob (writer : Serializer) (ident : D3D12Ident) (blob : List Nat) :
    Serializer :=
  writer.WriteSegment ident (SegData.bytes blob)

/-- Modelled from the spec: `D3D12WriteSegmentBytecode(writer, ident, bytecode)` of
`D3D12Serialization.h` writes the shader byte code as one segment (an empty one for a
stage without shader, which `DeserializePSO` reads back unconditionally). -/
def D3D12WriteSegmentBytecode (writer : Serializer) (ident : D3D12Ident)
    (bytecode : List Nat) : Serializer :=
  writer.WriteSegment ident (SegData.bytes bytecode)

/-- Modelled from the spec: `D3D12ReadSegmentBlob(reader, ident, cachedPSO)` of
`D3D12Serialization.h` reads one segment with that identifier. -/
def D3D12ReadSegmentBlob (reader : Deserializer) (ident : D3D12Ident) :
    Except Error (List Nat × Deserializer) := do
  let (seg, reader) ← reader.ReadSegmentIdent ident
  match seg.data with
  | SegData.bytes b => pure (b, reader)
  | _ => .error Error.Serialization

/-- Modelled from the spec: `D3D12ReadSegmentBytecode(reader, ident, bytecode)` of
`D3D12Serialization.h` reads one segment with that identifier. -/
def D3D12ReadSegmentBytecode (reader : Deserializer) (ident : D3D12Ident) :
    Except Error (List Nat × Deserializer) := do
  let (seg, reader) ← reader.ReadSegmentIdent ident
  match seg.data with
  | SegData.bytes b => pure (b, reader)
  | _ => .error Error.Serialization

/-- Block "Write input layout declarations" of `SerializePSO`: the elements as raw
memory, then their semantic names as null-terminated strings in element order. The
array is taken to hold at least `NumElements` elements. -/
def SerializeInputLayout (writer : Serializer)
    (stateDesc : D3D12_GRAPHICS_PIPELINE_STATE_DESC) : Serializer :=
  if stateDesc.InputLayout.NumElements > 0 then
    let elements :=
      stateDesc.InputLayout.pInputElementDescs.take stateDesc.InputLayout.NumElements
    let writer := writer.WriteSegment D3D12Ident.InputElements
      (SegData.inputElements (elements.map D3D12_INPUT_ELEMENT_DESC.image))
    let writer := writer.Begin D3D12Ident.InputSemanticNames
    let writer := elements.foldl (fun w e => w.WriteCString e.SemanticName) writer
    writer.End
  else writer

/-- Block "Write stream-output declarations" of `SerializePSO`. -/
def SerializeStreamOutput (writer : Serializer)
    (stateDesc : D3D12_GRAPHICS_PIPELINE_STATE_DESC) : Serializer :=
  if stateDesc.StreamOutput.NumEntries > 0 then
    let entries := stateDesc.StreamOutput.pSODeclaration.take stateDesc.StreamOutput.NumEntries
    let writer := writer.WriteSegment D3D12Ident.SODeclEntries
      (SegData.soDeclEntries (entries.map D3D12_SO_DECLARATION_ENTRY.image))
    let writer := writer.Begin D3D12Ident.SOSemanticNames
    let writer := entries.foldl (fun w e => w.WriteCString e.SemanticName) writer
    writer.End
  else writer

/-- Block "Write buffer strides" of `SerializePSO`: the strides are `UINT` values. -/
def SerializeBufferStrides (writer : Serializer)
    (stateDesc : D3D12_GRAPHICS_PIPELINE_STATE_DESC) : Serializer :=
  if stateDesc.StreamOutput.NumStrides > 0 then
    writer.WriteSegment D3D12Ident.SOBufferStrides
      (SegData.bytes ((stateDesc.StreamOutput.pBufferStrides.take
        stateDesc.StreamOutput.NumStrides).flatMap (leBytes 4)))
  else writer

/-- Bytes that the block "Write static state" of `SerializePSO` writes between `Begin`
and `End`: topology (4 bytes), blend-factor flag (1), blend factor (16), stencil
reference flag (1), stencil reference (4), scissor flag (1), viewport count (4),
scissor count (4), and the first `GetStaticStateBufferSize` bytes of the static-state
buffer when one of the counts is not zero. -/
def D3D12GraphicsPSO.staticStateBytes (pso : D3D12GraphicsPSO) : List Nat :=
  leBytes 4 pso.primitiveTopology_ ++ ([boolByte pso.blendFactorEnabled_] ++
    ((List.ofFn pso.blendFactor_).flatMap (leBytes 4) ++ ([boolByte pso.stencilRefEnabled_] ++
    (leBytes 4 pso.stencilRef_ ++ ([boolByte pso.scissorEnabled_] ++
    (leBytes 4 pso.numStaticViewports_ ++ (leBytes 4 pso.numStaticScissors_ ++
    (if pso.numStaticViewports_ > 0 ∨ pso.numStaticScissors_ > 0 then
      (pso.staticStateBuffer_.getD []).take
        (GetStaticStateBufferSize pso.numStaticViewports_ pso.numStaticScissors_)
    else []))))))))

/-- Block "Write static state" of `SerializePSO`. -/
def D3D12GraphicsPSO.SerializeStaticState (pso : D3D12GraphicsPSO) (writer : Serializer) :
    Serializer :=
  let writer := writer.Begin D3D12Ident.StaticState
  let writer := writer.Write (leBytes 4 pso.primitiveTopology_)
  let writer := writer.Write [boolByte pso.blendFactorEnabled_]
  let writer := writer.Write ((List.ofFn pso.blendFactor_).flatMap (leBytes 4))
  let writer := writer.Write [boolByte pso.stencilRefEnabled_]
  let writer := writer.Write (leBytes 4 pso.stencilRef_)
  let writer := writer.Write [boolByte pso.scissorEnabled_]
  let writer := writer.Write (leBytes 4 pso.numStaticViewports_)
  let writer := writer.Write (leBytes 4 pso.numStaticScissors_)
  let writer :=
    if pso.numStaticViewports_ > 0 ∨ pso.numStaticScissors_ > 0 then
      let bufferSize := GetStaticStateBufferSize pso.numStaticViewports_ pso.numStaticScissors_
      writer.Write ((pso.staticStateBuffer_.getD []).take bufferSize)
    else writer
  writer.End

/-- Method `SerializePSO(writer, stateDesc, rootSignatureBlob, psoCacheBlob)`. -/
def D3D12GraphicsPSO.SerializePSO (pso : D3D12GraphicsPSO) (writer : Serializer)
    (stateDesc : D3D12_GRAPHICS_PIPELINE_STATE_DESC) (rootSignatureBlob psoCacheBlob : List Nat) :
    Serializer :=
  let writer := (writer.Begin D3D12Ident.GraphicsPSOIdent).End
  let writer := D3D12WriteSegmentBlob writer D3D12Ident.RootSignature rootSignatureBlob
  let writer := writer.WriteSegment D3D12Ident.GraphicsDesc (SegData.graphicsDesc stateDesc.image)
  let writer := D3D12WriteSegmentBlob writer D3D12Ident.CachedPSO psoCacheBlob
  let writer := D3D12WriteSegmentBytecode writer D3D12Ident.VS stateDesc.VS
  let writer := D3D12WriteSegmentBytecode writer D3D12Ident.PS stateDesc.PS
  let writer := D3D12WriteSegmentBytecode writer D3D12Ident.DS stateDesc.DS
  let writer := D3D12WriteSegmentBytecode writer D3D12Ident.HS stateDesc.HS
  let writer := D3D12WriteSegmentBytecode writer D3D12Ident.GS stateDesc.GS
  let writer := SerializeInputLayout writer stateDesc
  let writer := SerializeStreamOutput writer stateDesc
  let writer := SerializeBufferStrides writer stateDesc
  pso.SerializeStaticState writer

/-- Reads `n` null-terminated strings from the open segment, in order. -/
def Deserializer.ReadCStrings (r : Deserializer) :
    Nat → Except Error (List (List Nat) × Deserializer)
  | 0 => pure ([], r)
  | n + 1 => do
    let (str, r) ← r.ReadCString
    let (strs, r) ← Deserializer.ReadCStrings r n
    pure (str :: strs, r)

/-- Block "Read input layout declarations" of `DeserializePSO`. -/
def DeserializeInputLayout (reader : Deserializer)
    (stateDesc : D3D12_GRAPHICS_PIPELINE_STATE_DESC) :
    Except Error (D3D12_GRAPHICS_PIPELINE_STATE_DESC × Deserializer) :=
  if stateDesc.InputLayout.NumElements > 0 then do
    let (seg, reader) ← reader.ReadSegmentIdent D3D12Ident.InputElements
    let inputElements ←
      match seg.data with
      | SegData.inputElements es =>
        if es.length = stateDesc.InputLayout.NumElements then pure es
        else .error Error.Serialization
      | _ => .error Error.Serialization
    let reader ← reader.Begin D3D12Ident.InputSemanticNames
    let (names, reader) ← reader.ReadCStrings stateDesc.InputLayout.NumElements
    let reader := reader.End
    let inputElements :=
      List.zipWith (fun e name => { e with SemanticName := name }) inputElements names
    pure ({ stateDesc with
      InputLayout := { stateDesc.InputLayout with pInputElementDescs := inputElements } },
      reader)
  else pure (stateDesc, reader)

/-- Block "Read stream-output declarations" of `DeserializePSO`. -/
def DeserializeStreamOutput (reader : Deserializer)
    (stateDesc : D3D12_GRAPHICS_PIPELINE_STATE_DESC) :
    Except Error (D3D12_GRAPHICS_PIPELINE_STATE_DESC × Deserializer) :=
  if stateDesc.StreamOutput.NumEntries > 0 then do
    let (seg, reader) ← reader.ReadSegmentIdent D3D12Ident.SODeclEntries
    let soDeclEntries ←
      match seg.data with
      | SegData.soDeclEntries es =>
        if es.length = stateDesc.StreamOutput.NumEntries then pure es
        else .error Error.Serialization
      | _ => .error Error.Serialization
    let reader ← reader.Begin D3D12Ident.SOSemanticNames
    let (names, reader) ← reader.ReadCStrings stateDesc.StreamOutput.NumEntries
    let reader := reader.End
    let soDeclEntries :=
      List.zipWith (fun (e : D3D12_SO_DECLARATION_ENTRY) name => { e with SemanticName := name })
        soDeclEntries names
    pure ({ stateDesc with
      StreamOutput := { stateDesc.StreamOutput with pSODeclaration := soDeclEntries } },
      reader)
  else pure (stateDesc, reader)

/-- Block "Read buffer strides" of `DeserializePSO`. -/
def DeserializeBufferStrides (reader : Deserializer)
    (stateDesc : D3D12_GRAPHICS_PIPELINE_STATE_DESC) :
    Except Error (D3D12_GRAPHICS_PIPELINE_STATE_DESC × Deserializer) :=
  if stateDesc.StreamOutput.NumStrides > 0 then do
    let (seg, reader) ← reader.ReadSegmentIdent D3D12Ident.SOBufferStrides
    let soBufferStrides ←
      match seg.data with
      | SegData.bytes b =>
        if b.length = stateDesc.StreamOutput.NumStrides * 4 then
          pure ((List.range stateDesc.StreamOutput.NumStrides).map
            (fun i => leValue ((b.drop (4 * i)).take 4)))
        else .error Error.Serialization
      | _ => .error Error.Serialization
    pure ({ stateDesc with
      StreamOutput := { stateDesc.StreamOutput with pBufferStrides := soBufferStrides } },
      reader)
  else pure (stateDesc, reader)

/-- Block "static state" of `DeserializePSO`. -/
def D3D12GraphicsPSO.DeserializeStaticState (pso : D3D12GraphicsPSO) (reader : Deserializer) :
    Except Error (D3D12GraphicsPSO × Deserializer) := do
  let reader ← reader.Begin D3D12Ident.StaticState
  let (b, reader) ← reader.Read 4
  let pso := { pso with primitiveTopology_ := leValue b }
  let (b, reader) ← reader.Read 1
  let pso := { pso with blendFactorEnabled_ := decide (leValue b ≠ 0) }
  let (b, reader) ← reader.Read 16
  let pso := { pso with blendFactor_ := fun i => leValue ((b.drop (4 * i.val)).take 4) }
  let (b, reader) ← reader.Read 1
  let pso := { pso with stencilRefEnabled_ := decide (leValue b ≠ 0) }
  let (b, reader) ← reader.Read 4
  let pso := { pso with stencilRef_ := leValue b }
  let (b, reader) ← reader.Read 1
  let pso := { pso with scissorEnabled_ := decide (leValue b ≠ 0) }
  let (b, reader) ← reader.Read 4
  let pso := { pso with numStaticViewports_ := leValue b }
  let (b, reader) ← reader.Read 4
  let pso := { pso with numStaticScissors_ := leValue b }
  let (pso, reader) ←
    if pso.numStaticViewports_ > 0 ∨ pso.numStaticScissors_ > 0 then do
      let bufferSize := GetStaticStateBufferSize pso.numStaticViewports_ pso.numStaticScissors_
      let (b, reader) ← reader.Read bufferSize
      pure ({ pso with staticStateBuffer_ := some b }, reader)
    else pure (pso, reader)
  let reader := reader.End
  pure (pso, reader)

/-- Method `DeserializePSO(reader, stateDesc, inputElements, soDeclEntries,
soBufferStrides)`: returns the PSO with the static state read, the reader, and the
descriptor with its pointer members patched to the arrays that were read. -/
def D3D12GraphicsPSO.DeserializePSO (pso : D3D12GraphicsPSO) (reader : Deserializer)
    (stateDesc : D3D12_GRAPHICS_PIPELINE_STATE_DESC) :
    Except Error (D3D12GraphicsPSO × Deserializer × D3D12_GRAPHICS_PIPELINE_STATE_DESC) := do
  let (cachedPSO, reader) ← D3D12ReadSegmentBlob reader D3D12Ident.CachedPSO
  let stateDesc := { stateDesc with CachedPSO := cachedPSO }
  let (vs, reader) ← D3D12ReadSegmentBytecode reader D3D12Ident.VS
  let (ps, reader) ← D3D12ReadSegmentBytecode reader D3D12Ident.PS
  let (ds, reader) ← D3D12ReadSegmentBytecode reader D3D12Ident.DS
  let (hs, reader) ← D3D12ReadSegmentBytecode reader D3D12Ident.HS
  let (gs, reader) ← D3D12ReadSegmentBytecode reader D3D12Ident.GS
  let stateDesc := { stateDesc with VS := vs, PS := ps, DS := ds, HS := hs, GS := gs }
  let (stateDesc, reader) ← DeserializeInputLayout reader stateDesc
  let (stateDesc, reader) ← DeserializeStreamOutput reader stateDesc
  let (stateDesc, reader) ← DeserializeBufferStrides reader stateDesc
  let (pso, reader) ← pso.DeserializeStaticState reader
  pure (pso, reader, stateDesc)

/-- Method `CreateNativePSOFromCache`, the part in front of the native creation: reads
the descriptor segment, sets the root signature and deserializes the PSO. -/
def D3D12GraphicsPSO.ReadStateDescFromCache (pso : D3D12GraphicsPSO) (reader : Deserializer) :
    Except Error (D3D12GraphicsPSO × Deserializer × D3D12_GRAPHICS_PIPELINE_STATE_DESC) := do
  let (seg, reader) ← reader.ReadSegmentIdent D3D12Ident.GraphicsDesc
  let stateDesc ←
    match seg.data with
    | SegData.graphicsDesc d => pure d
    | _ => .error Error.Serialization
  let stateDesc := { stateDesc with pRootSignature := pso.rootSignature_ }
  pso.DeserializePSO reader stateDesc

/-- Method `CreateNativePSOFromCache(device, reader)`. -/
def D3D12GraphicsPSO.CreateNativePSOFromCache (pso : D3D12GraphicsPSO) (dev : D3D12Device)
    (reader : Deserializer) : D3D12Device × Except Error D3D12GraphicsPSO :=
  match pso.ReadStateDescFromCache reader with
  | .error e => (dev, .error e)
  | .ok (pso, _, stateDesc) =>
    match dev.CreateDXGraphicsPipelineState stateDesc with
    | (dev, .error e) => (dev, .error e)
    | (dev, .ok native) => (dev, .ok { pso with native_ := some native })

/-- Modelled from the spec: the constructor `D3D12PipelineState(isGraphicsPSO, device,
reader)` of the base class (in `D3D12PipelineState.cpp`, not at hand) reads the
serialized resource-binding-layout blob, which is the second segment, and creates the
root signature from it. -/
def D3D12PipelineState.ctorFromCache (dev : D3D12Device) (reader : Deserializer) :
    Except Error (Nat × Deserializer) := do
  let (blob, reader) ← D3D12ReadSegmentBlob reader D3D12Ident.RootSignature
  pure (dev.rootSignatureOfBlob blob, reader)

/-- Constructor `D3D12GraphicsPSO(device, reader)`. -/
def D3D12GraphicsPSO.ctorFromCache (dev : D3D12Device) (reader : Deserializer) :
    D3D12Device × Except Error D3D12GraphicsPSO :=
  match D3D12PipelineState.ctorFromCache dev reader with
  | .error e => (dev, .error e)
  | .ok (rootSignature, reader) =>
    (D3D12GraphicsPSO.initial rootSignature).CreateNativePSOFromCache dev reader

/-- Method `CreateNativePSOFromDesc(device, pipelineLayout, renderPass, desc, writer)`;
`writer` is the serializer the pointer refers to, or nothing for a null pointer. -/
def D3D12GraphicsPSO.CreateNativePSOFromDesc (T : D3D12Types) (pso : D3D12GraphicsPSO)
    (dev : D3D12Device) (pipelineLayout : D3D12PipelineLayout)
    (renderPass : Option D3D12RenderPass) (desc : GraphicsPipelineDescriptor)
    (writer : Option Serializer) :
    D3D12Device × Except Error (D3D12GraphicsPSO × Option Serializer) :=
  let numAttachments :=
    match renderPass with
    | some rp => rp.numColorAttachments
    | none => 1
  let blend :=
    match renderPass with
    | some rp => ConvertBlendDescRenderPass T desc.blend rp
    | none => ConvertBlendDesc T desc.blend numAttachments
  let stateDesc : D3D12_GRAPHICS_PIPELINE_STATE_DESC :=
    { pRootSignature := pso.rootSignature_
      VS := GetD3DShaderByteCode desc.vertexShader
      HS := GetD3DShaderByteCode desc.tessControlShader
      DS := GetD3DShaderByteCode desc.tessEvaluationShader
      GS := GetD3DShaderByteCode desc.geometryShader
      PS := GetD3DShaderByteCode desc.fragmentShader
      DSVFormat :=
        match renderPass with
        | some rp => rp.dsvFormat
        | none => DXGI_FORMAT_D24_UNORM_S8_UINT
      BlendState := blend.1
      RTVFormats := blend.2
      InputLayout := GetD3DInputLayoutDesc desc.vertexShader
      StreamOutput := GetD3DStreamOutputDesc desc.vertexShader desc.geometryShader
      SampleMask := desc.blend.sampleMask
      NumRenderTargets := numAttachments
      SampleDescCount :=
        match renderPass with
        | some rp => rp.sampleCount
        | none => 1
      SampleDescQuality := 0 }
  match dev.CreateDXGraphicsPipelineState stateDesc with
  | (dev, .error e) => (dev, .error e)
  | (dev, .ok native) =>
    let pso := { pso with native_ := some native }
    match writer with
    | none => (dev, .ok (pso, none))
    | some writer =>
      match dev.cachedBlob native with
      | none =>
        (dev, .error (Error.NativeFailure
          "failed to retrieve cached blob from ID3D12PipelineState"))
      | some cachedBlob =>
        match pipelineLayout.serializedBlob with
        | none =>
          (dev, .error (Error.NativeFailure
            "failed to retrieve serialized root signature blob from ID3D12RootSignature"))
        | some rootSignatureBlob =>
          (dev, .ok (pso, some (pso.SerializePSO writer stateDesc rootSignatureBlob cachedBlob)))

/-- Constructor `D3D12GraphicsPSO(device, defaultPipelineLayout, desc, defaultRenderPass,
writer)`. The constructor of the base class (in `D3D12PipelineState.cpp`, not at hand)
is taken to store the root signature of the pipeline layout in use. The result holds
the device afterwards and either the error thrown or the PSO and the serializer. -/
def D3D12GraphicsPSO.ctor (T : D3D12Types) (dev : D3D12Device)
    (defaultPipelineLayout : D3D12PipelineLayout) (desc : GraphicsPipelineDescriptor)
    (defaultRenderPass : Option D3D12RenderPass) (writer : Option Serializer) :
    D3D12Device × Except Error (D3D12GraphicsPSO × Option Serializer) :=
  let pso := D3D12GraphicsPSO.initial
    (match desc.pipelineLayout with
      | some pl => pl.rootSignature
      | none => defaultPipelineLayout.rootSignature)
  if desc.vertexShader = none then
    (dev, .error (Error.InvalidArgument
      "cannot create D3D graphics pipeline without vertex shader"))
  else
    let renderPassD3D :=
      match desc.renderPass with
      | some rp => some rp
      | none => defaultRenderPass
    let pso := { pso with
      primitiveTopology_ := T.ToD3DPrimitiveTopology desc.primitiveTopology
      scissorEnabled_ := desc.rasterizer.scissorTestEnabled
      stencilRefEnabled_ := T.IsStaticStencilRefEnabled desc.stencil
      stencilRef_ := desc.stencil.front.reference
      blendFactorEnabled_ := T.IsStaticBlendFactorEnabled desc.blend
      blendFactor_ := fun i => desc.blend.blendFactor i }
    match (if desc.viewports ≠ [] ∨ desc.scissors ≠ [] then pso.BuildStaticStateBuffer desc
      else pure pso) with
    | .error e => (dev, .error e)
    | .ok pso =>
      let pipelineLayoutD3D :=
        match desc.pipelineLayout with
        | some pl => pl
        | none => defaultPipelineLayout
      pso.CreateNativePSOFromDesc T dev pipelineLayoutD3D renderPassD3D desc writer

/-- The reads that `CreatePipelineState(serializedCache)` and the constructors it calls
perform in front of the native creation, in their order: the leading segment, the
constructor of the base class, and `CreateNativePSOFromCache` up to and including
`DeserializePSO`. The result holds the PSO, the reader and the native descriptor at
that point. -/
def DeserializeGraphicsPSO (dev : D3D12Device) (serializedCache : Blob) :
    Except Error (D3D12GraphicsPSO × Deserializer × D3D12_GRAPHICS_PIPELINE_STATE_DESC) := do
  let reader : Deserializer := { remaining := serializedCache }
  let (seg, reader) ← reader.ReadSegment
  if seg.ident = D3D12Ident.GraphicsPSOIdent then do
    let (rootSignature, reader) ← D3D12PipelineState.ctorFromCache dev reader
    (D3D12GraphicsPSO.initial rootSignature).ReadStateDescFromCache reader
  else
    .error (Error.Trap "serialized cache does not denote a D3D12 graphics or compute PSO")

/-! ## Direct3D 12: the segments of a serialized graphics PSO -/

/-- Segments of the input layout: none without elements, otherwise the elements and
their semantic names. -/
def inputLayoutSegments (stateDesc : D3D12_GRAPHICS_PIPELINE_STATE_DESC) : List Segment :=
  if stateDesc.InputLayout.NumElements > 0 then
    [⟨D3D12Ident.InputElements, SegData.inputElements
        ((stateDesc.InputLayout.pInputElementDescs.take stateDesc.InputLayout.NumElements).map
          D3D12_INPUT_ELEMENT_DESC.image)⟩,
      ⟨D3D12Ident.InputSemanticNames, SegData.bytes
        ((stateDesc.InputLayout.pInputElementDescs.take
          stateDesc.InputLayout.NumElements).flatMap (fun e => e.SemanticName ++ [0]))⟩]
  else []

/-- Segments of the stream-output declaration: none without entries, otherwise the
entries and their semantic names. -/
def streamOutputSegments (stateDesc : D3D12_GRAPHICS_PIPELINE_STATE_DESC) : List Segment :=
  if stateDesc.StreamOutput.NumEntries > 0 then
    [⟨D3D12Ident.SODeclEntries, SegData.soDeclEntries
        ((stateDesc.StreamOutput.pSODeclaration.take stateDesc.StreamOutput.NumEntries).map
          D3D12_SO_DECLARATION_ENTRY.image)⟩,
      ⟨D3D12Ident.SOSemanticNames, SegData.bytes
        ((stateDesc.StreamOutput.pSODeclaration.take
          stateDesc.StreamOutput.NumEntries).flatMap (fun e => e.SemanticName ++ [0]))⟩]
  else []

/-- Segment of the buffer strides: none without strides. -/
def bufferStridesSegments (stateDesc : D3D12_GRAPHICS_PIPELINE_STATE_DESC) : List Segment :=
  if stateDesc.StreamOutput.NumStrides > 0 then
    [⟨D3D12Ident.SOBufferStrides, SegData.bytes
      ((stateDesc.StreamOutput.pBufferStrides.take
        stateDesc.StreamOutput.NumStrides).flatMap (leBytes 4))⟩]
  else []

/-- Segments of a serialized graphics PSO that `DeserializePSO` reads, in write order:
from the cached PSO to the static state. -/
def deserializePSOSegments (pso : D3D12GraphicsPSO)
    (stateDesc : D3D12_GRAPHICS_PIPELINE_STATE_DESC) (psoCacheBlob : List Nat) : List Segment :=
  [⟨D3D12Ident.CachedPSO, SegData.bytes psoCacheBlob⟩,
    ⟨D3D12Ident.VS, SegData.bytes stateDesc.VS⟩,
    ⟨D3D12Ident.PS, SegData.bytes stateDesc.PS⟩,
    ⟨D3D12Ident.DS, SegData.bytes stateDesc.DS⟩,
    ⟨D3D12Ident.HS, SegData.bytes stateDesc.HS⟩,
    ⟨D3D12Ident.GS, SegData.bytes stateDesc.GS⟩] ++
  (inputLayoutSegments stateDesc ++ (streamOutputSegments stateDesc ++
    (bufferStridesSegments stateDesc ++
      [⟨D3D12Ident.StaticState, SegData.bytes pso.staticStateBytes⟩])))

/-- All segments of a serialized graphics PSO, in write order. -/
def serializedSegments (pso : D3D12GraphicsPSO) (stateDesc : D3D12_GRAPHICS_PIPELINE_STATE_DESC)
    (rootSignatureBlob psoCacheBlob : List Nat) : List Segment :=
  [⟨D3D12Ident.GraphicsPSOIdent, SegData.bytes []⟩,
    ⟨D3D12Ident.RootSignature, SegData.bytes rootSignatureBlob⟩,
    ⟨D3D12Ident.GraphicsDesc, SegData.graphicsDesc stateDesc.image⟩] ++
  deserializePSOSegments pso stateDesc psoCacheBlob

/-- Static state that `DeserializePSO` stores in the PSO `pso₀` when it reads what
`SerializePSO` wrote for the PSO `pso`. -/
def D3D12GraphicsPSO.withStaticStateOf (pso₀ pso : D3D12GraphicsPSO) : D3D12GraphicsPSO :=
  { pso₀ with
    primitiveTopology_ := pso.primitiveTopology_
    blendFactorEnabled_ := pso.blendFactorEnabled_
    blendFactor_ := pso.blendFactor_
    stencilRefEnabled_ := pso.stencilRefEnabled_
    stencilRef_ := pso.stencilRef_
    scissorEnabled_ := pso.scissorEnabled_
    numStaticViewports_ := pso.numStaticViewports_
    numStaticScissors_ := pso.numStaticScissors_
    staticStateBuffer_ :=
      if pso.numStaticViewports_ > 0 ∨ pso.numStaticScissors_ > 0 then pso.staticStateBuffer_
      else pso₀.staticStateBuffer_ }

/-- Native descriptor that `DeserializePSO` leaves when it is given the descriptor `sd`
and reads what `SerializePSO` wrote for the descriptor `sd0`: byte codes and cached PSO
as read, and the three array pointers patched when their count is not zero. -/
def deserializedStateDesc (sd sd0 : D3D12_GRAPHICS_PIPELINE_STATE_DESC)
    (psoCacheBlob : List Nat) : D3D12_GRAPHICS_PIPELINE_STATE_DESC :=
  { sd with
    CachedPSO := psoCacheBlob
    VS := sd0.VS, PS := sd0.PS, DS := sd0.DS, HS := sd0.HS, GS := sd0.GS
    InputLayout := { sd.InputLayout with
      pInputElementDescs :=
        if sd0.InputLayout.NumElements > 0 then
          sd0.InputLayout.pInputElementDescs.take sd0.InputLayout.NumElements
        else sd.InputLayout.pInputElementDescs }
    StreamOutput := { sd.StreamOutput with
      pSODeclaration :=
        if sd0.StreamOutput.NumEntries > 0 then
          sd0.StreamOutput.pSODeclaration.take sd0.StreamOutput.NumEntries
        else sd.StreamOutput.pSODeclaration
      pBufferStrides :=
        if sd0.StreamOutput.NumStrides > 0 then
          (List.range sd0.StreamOutput.NumStrides).map (fun i => leValue
            ((((sd0.StreamOutput.pBufferStrides.take
              sd0.StreamOutput.NumStrides).flatMap (leBytes 4)).drop (4 * i)).take 4))
        else sd.StreamOutput.pBufferStrides } }

/-- The native descriptor is well formed: the arrays hold as many elements as the
counts say, and the semantic names are C strings (no null character inside). -/
def D3D12_GRAPHICS_PIPELINE_STATE_DESC.WellFormed (d : D3D12_GRAPHICS_PIPELINE_STATE_DESC) :
    Prop :=
  d.InputLayout.NumElements ≤ d.InputLayout.pInputElementDescs.length ∧
  (∀ e ∈ d.InputLayout.pInputElementDescs, 0 ∉ e.SemanticName) ∧
  d.StreamOutput.NumEntries ≤ d.StreamOutput.pSODeclaration.length ∧
  (∀ e ∈ d.StreamOutput.pSODeclaration, 0 ∉ e.SemanticName) ∧
  d.StreamOutput.NumStrides ≤ d.StreamOutput.pBufferStrides.length

instance (d : D3D12_GRAPHICS_PIPELINE_STATE_DESC) : Decidable d.WellFormed := by
  unfold D3D12_GRAPHICS_PIPELINE_STATE_DESC.WellFormed; infer_instance

/-- The static state of a PSO is well formed: the members have values of their types
(`UINT`, `FLOAT` bit patterns, `D3D12_PRIMITIVE_TOPOLOGY`), and when a count is not
zero the static-state buffer exists and has `GetStaticStateBufferSize` bytes. -/
def D3D12GraphicsPSO.StaticWellFormed (pso : D3D12GraphicsPSO) : Prop :=
  pso.primitiveTopology_ < UINT_SIZE ∧ pso.stencilRef_ < UINT_SIZE ∧
  (∀ i, pso.blendFactor_ i < UINT_SIZE) ∧
  pso.numStaticViewports_ < UINT_SIZE ∧ pso.numStaticScissors_ < UINT_SIZE ∧
  (if pso.numStaticViewports_ > 0 ∨ pso.numStaticScissors_ > 0 then
    pso.staticStateBuffer_.map List.length
      = some (GetStaticStateBufferSize pso.numStaticViewports_ pso.numStaticScissors_)
   else pso.staticStateBuffer_ = none)

instance (pso : D3D12GraphicsPSO) : Decidable pso.StaticWellFormed := by
  unfold D3D12GraphicsPSO.StaticWellFormed; infer_instance

/-- The declarations a shader reports are well formed: the arrays hold as many
elements as the counts say, and the semantic names are C strings. -/
def Shader.WellFormed (sh : Shader) : Prop :=
  sh.inputLayout.NumElements ≤ sh.inputLayout.pInputElementDescs.length ∧
  (∀ e ∈ sh.inputLayout.pInputElementDescs, 0 ∉ e.SemanticName) ∧
  sh.streamOutput.NumEntries ≤ sh.streamOutput.pSODeclaration.length ∧
  (∀ e ∈ sh.streamOutput.pSODeclaration, 0 ∉ e.SemanticName) ∧
  sh.streamOutput.NumStrides ≤ sh.streamOutput.pBufferStrides.length

instance (sh : Shader) : Decidable sh.WellFormed := by
  unfold Shader.WellFormed; infer_instance

/-- The shader a pointer refers to, if any, is well formed. -/
def shaderWellFormed : Option Shader → Prop
  | some sh => sh.WellFormed
  | none => True

instance (sh : Option Shader) : Decidable (shaderWellFormed sh) := by
  cases sh <;> unfold shaderWellFormed <;> infer_instance

/-- The members of a graphics pipeline descriptor have values of their types: the
topology converts to a `D3D12_PRIMITIVE_TOPOLOGY` value, the stencil reference is a
32-bit value, the blend factors are `float` bit patterns, the numbers of static
viewports and scissors are `UINT` values, and the declarations of the vertex and
geometry shaders are well formed. -/
def GraphicsPipelineDescriptor.WellFormed (T : D3D12Types) (desc : GraphicsPipelineDescriptor) :
    Prop :=
  T.ToD3DPrimitiveTopology desc.primitiveTopology < UINT_SIZE ∧
  desc.stencil.front.reference < UINT_SIZE ∧
  (∀ i, desc.blend.blendFactor i < UINT_SIZE) ∧
  desc.viewports.length < UINT_SIZE ∧ desc.scissors.length < UINT_SIZE ∧
  shaderWellFormed desc.vertexShader ∧ shaderWellFormed desc.geometryShader

instance (T : D3D12Types) (desc : GraphicsPipelineDescriptor) : Decidable (desc.WellFormed T) := by
  unfold GraphicsPipelineDescriptor.WellFormed; infer_instance

/-! ## Direct3D 12: render system -/

/-- What the render system uses of a `D3D12SwapChain`: its render pass (null when
absent). -/
structure D3D12SwapChain where
  renderPass : Option D3D12RenderPass

structure ComputePipelineDescriptor where
  pipelineLayout : Option D3D12PipelineLayout
  computeShader : Option Shader
  deriving DecidableEq, Repr

/-- Members of `D3D12ComputePSO` (the class is not part of the sources at hand). -/
structure D3D12ComputePSO where
  rootSignature_ : Nat
  native_ : Option Nat
  deriving DecidableEq, Repr

/-- An object of the container `pipelineStates_`. -/
inductive PipelineState
  | Graphics (pso : D3D12GraphicsPSO)
  | Compute (pso : D3D12ComputePSO)

/-- Members of `D3D12RenderSystem` that pipeline-state creation uses. -/
structure D3D12RenderSystem where
  device_ : D3D12Device
  defaultPipelineLayout_ : D3D12PipelineLayout
  swapChains_ : List D3D12SwapChain
  pipelineStates_ : List PipelineState

def D3D12RenderSystem.GetDefaultRenderPass (rs : D3D12RenderSystem) : Option D3D12RenderPass :=
  match rs.swapChains_ with
  | swapChain :: _ => swapChain.renderPass
  | [] => none

/-- Overload `CreatePipelineState(const Blob& serializedCache)`: returns the render
system afterwards and the pipeline state registered, or the error. -/
def D3D12RenderSystem.CreatePipelineStateFromCache (rs : D3D12RenderSystem)
    (serializedCache : Blob) : D3D12RenderSystem × Except Error PipelineState :=
  let reader : Deserializer := { remaining := serializedCache }
  match reader.ReadSegment with
  | .error e => (rs, .error e)
  | .ok (seg, reader) =>
    if seg.ident = D3D12Ident.GraphicsPSOIdent then
      match D3D12GraphicsPSO.ctorFromCache rs.device_ reader with
      | (dev, .error e) => ({ rs with device_ := dev }, .error e)
      | (dev, .ok pso) =>
        ({ rs with device_ := dev,
                   pipelineStates_ := rs.pipelineStates_ ++ [PipelineState.Graphics pso] },
          .ok (PipelineState.Graphics pso))
    else
      (rs, .error (Error.Trap
        "serialized cache does not denote a D3D12 graphics or compute PSO"))

/-- Overload `CreatePipelineState(const GraphicsPipelineDescriptor&, std::unique_ptr<Blob>*
serializedCache)`. The argument `serializedCache` is nothing for a null pointer and
otherwise the value of the caller's blob pointer; the result holds the render system
afterwards, the caller's blob pointer afterwards, and the pipeline state or the error. -/
def D3D12RenderSystem.CreatePipelineStateGraphics (T : D3D12Types) (rs : D3D12RenderSystem)
    (pipelineStateDesc : GraphicsPipelineDescriptor) (serializedCache : Option (Option Blob)) :
    D3D12RenderSystem × Option (Option Blob) × Except Error PipelineState :=
  let writer : Serializer := {}
  match D3D12GraphicsPSO.ctor T rs.device_ rs.defaultPipelineLayout_ pipelineStateDesc
      rs.GetDefaultRenderPass (if serializedCache.isSome then some writer else none) with
  | (dev, .error e) => ({ rs with device_ := dev }, serializedCache, .error e)
  | (dev, .ok (pso, writer')) =>
    ({ rs with device_ := dev,
               pipelineStates_ := rs.pipelineStates_ ++ [PipelineState.Graphics pso] },
      serializedCache.map (fun _ => some (writer'.getD writer).Finalize),
      .ok (PipelineState.Graphics pso))

/-- Overload `CreatePipelineState(const ComputePipelineDescriptor&, std::unique_ptr<Blob>*)`,
whose second parameter has no name and is not used. The constructor of `D3D12ComputePSO` is not part of the sources
at hand and is the parameter `computeCtor`. -/
def D3D12RenderSystem.CreatePipelineStateCompute
    (computeCtor : D3D12Device → D3D12PipelineLayout → ComputePipelineDescriptor →
      D3D12Device × Except Error D3D12ComputePSO)
    (rs : D3D12RenderSystem) (pipelineStateDesc : ComputePipelineDescriptor)
    (serializedCache : Option (Option Blob)) :
    D3D12RenderSystem × Option (Option Blob) × Except Error PipelineState :=
  match computeCtor rs.device_ rs.defaultPipelineLayout_ pipelineStateDesc with
  | (dev, .error e) => ({ rs with device_ := dev }, serializedCache, .error e)
  | (dev, .ok pso) =>
    ({ rs with device_ := dev,
               pipelineStates_ := rs.pipelineStates_ ++ [PipelineState.Compute pso] },
      serializedCache, .ok (PipelineState.Compute pso))

/-! ## Null backend: size of a record -/

/-- Size of a record in the words of the specification: the size of the fixed header
plus the trailing payload computed from the count member of the header as it stands
in memory. `PopDebugGroup` has neither header nor payload. -/
def NullCmd.sizeFromHeader (L : NullLayout) (r : NullCmd) : Nat :=
  match r with
  | .BufferWrite _ _ =>
    L.sizeofCmdBufferWrite + headerField (r.header L) L.BufferWrite_size
  | .CopySubresource _ => L.sizeofCmdCopySubresource
  | .GenerateMips _ => L.sizeofCmdGenerateMips
  | .Draw _ _ =>
    L.sizeofCmdDraw + headerField (r.header L) L.Draw_numVertexBuffers * L.sizeofPtr
  | .DrawIndexed _ _ =>
    L.sizeofCmdDrawIndexed +
      headerField (r.header L) L.DrawIndexed_numVertexBuffers * L.sizeofPtr
  | .PushDebugGroup _ _ =>
    L.sizeofCmdPushDebugGroup + (headerField (r.header L) L.PushDebugGroup_length + 1)
  | .PopDebugGroup => 0

/-! ## Direct3D 12: binding a graphics PSO -/

/-- Calls that `Bind` makes on the command context and on its command list.
`RSSetViewports` and `RSSetScissorRects` carry the count and the bytes of the array of
that many structures their pointer argument refers to. -/
inductive D3D12Command
  | SetGraphicsRootSignature (rootSignature : Nat)
  | SetPipelineState (pipelineState : Option Nat)
  | IASetPrimitiveTopology (primitiveTopology : Nat)
  | OMSetStencilRef (stencilRef : Nat)
  | OMSetBlendFactor (blendFactor : Fin 4 → Nat)
  | RSSetViewports (numViewports : Nat) (viewports : List Nat)
  | RSSetScissorRects (numRects : Nat) (rects : List Nat)

/-- Modelled from the spec: `ByteBufferIterator` of `Core/ByteBufferIterator.h` (not part
of the sources at hand) is a position in a byte buffer, at the start of the buffer when
constructed. -/
structure ByteBufferIterator where
  buffer : List Nat
  pos : Nat := 0
  deriving DecidableEq, Repr

/-- Modelled from the spec: `Next<T>(count)` of `ByteBufferIterator` yields the current
position and moves the iterator forward by `count * sizeof(T)` bytes. -/
def ByteBufferIterator.Next (it : ByteBufferIterator) (sizeofT count : Nat) :
    Nat × ByteBufferIterator :=
  (it.pos, { it with pos := it.pos + sizeofT * count })

/-- Bytes of the `count` structures of `sizeofT` bytes each at position `ptr` of the
buffer. -/
def ByteBufferIterator.array (it : ByteBufferIterator) (ptr sizeofT count : Nat) : List Nat :=
  (it.buffer.drop ptr).take (count * sizeofT)

/-- Method `SetStaticViewportsAndScissors(commandList)`: the calls made, in order. -/
def D3D12GraphicsPSO.SetStaticViewportsAndScissors (pso : D3D12GraphicsPSO) :
    List D3D12Command :=
  match pso.staticStateBuffer_ with
  | none => []
  | some buffer =>
    let byteBufferIter : ByteBufferIterator := { buffer := buffer }
    let (viewportCalls, byteBufferIter) :=
      if pso.numStaticViewports_ > 0 then
        let (ptr, byteBufferIter) :=
          byteBufferIter.Next sizeofD3D12_VIEWPORT pso.numStaticViewports_
        ([D3D12Command.RSSetViewports pso.numStaticViewports_
            (byteBufferIter.array ptr sizeofD3D12_VIEWPORT pso.numStaticViewports_)],
          byteBufferIter)
      else ([], byteBufferIter)
    let (scissorCalls, _) :=
      if pso.numStaticScissors_ > 0 then
        let (ptr, byteBufferIter) :=
          byteBufferIter.Next sizeofD3D12_RECT pso.numStaticScissors_
        ([D3D12Command.RSSetScissorRects pso.numStaticScissors_
            (byteBufferIter.array ptr sizeofD3D12_RECT pso.numStaticScissors_)],
          byteBufferIter)
      else ([], byteBufferIter)
    viewportCalls ++ scissorCalls

/-- Method `Bind(commandContext)`: the calls made on the command context and its
command list, in order. -/
def D3D12GraphicsPSO.Bind (pso : D3D12GraphicsPSO) : List D3D12Command :=
  [D3D12Command.SetGraphicsRootSignature pso.rootSignature_,
    D3D12Command.SetPipelineState pso.native_,
    D3D12Command.IASetPrimitiveTopology pso.primitiveTopology_] ++
  (if pso.stencilRefEnabled_ then [D3D12Command.OMSetStencilRef pso.stencilRef_] else []) ++
  (if pso.blendFactorEnabled_ then [D3D12Command.OMSetBlendFactor pso.blendFactor_] else []) ++
  pso.SetStaticViewportsAndScissors

/-- The native descriptor that `CreateNativePSOFromDesc` fills in for a PSO with the
root signature given, the render pass in use (nothing for a null pointer) and the
pipeline descriptor. -/
def nativeStateDesc (T : D3D12Types) (rootSignature : Nat)
    (renderPass : Option D3D12RenderPass) (desc : GraphicsPipelineDescriptor) :
    D3D12_GRAPHICS_PIPELINE_STATE_DESC :=
  let numAttachments :=
    match renderPass with
    | some rp => rp.numColorAttachments
    | none => 1
  let blend :=
    match renderPass with
    | some rp => ConvertBlendDescRenderPass T desc.blend rp
    | none => ConvertBlendDesc T desc.blend numAttachments
  { pRootSignature := rootSignature
    VS := GetD3DShaderByteCode desc.vertexShader
    HS := GetD3DShaderByteCode desc.tessControlShader
    DS := GetD3DShaderByteCode desc.tessEvaluationShader
    GS := GetD3DShaderByteCode desc.geometryShader
    PS := GetD3DShaderByteCode desc.fragmentShader
    DSVFormat :=
      match renderPass with
      | some rp => rp.dsvFormat
      | none => DXGI_FORMAT_D24_UNORM_S8_UINT
    BlendState := blend.1
    RTVFormats := blend.2
    InputLayout := GetD3DInputLayoutDesc desc.vertexShader
    StreamOutput := GetD3DStreamOutputDesc desc.vertexShader desc.geometryShader
    SampleMask := desc.blend.sampleMask
    NumRenderTargets := numAttachments
    SampleDescCount :=
      match renderPass with
      | some rp => rp.sampleCount
      | none => 1
    SampleDescQuality := 0 }

/-- The render pass a graphics PSO is built against in the words of the specification:
the render pass of the descriptor when it names one, otherwise the render pass of the
first swap chain, and none without a swap chain. -/
def effectiveRenderPass (rs : D3D12RenderSystem) (desc : GraphicsPipelineDescriptor) :
    Option D3D12RenderPass :=
  match desc.renderPass with
  | some rp => some rp
  | none =>
    match rs.swapChains_ with
    | swapChain :: _ => swapChain.renderPass
    | [] => none

/-- The members of a graphics PSO when the constructor reaches `CreateNativePSOFromDesc`:
the dynamic states taken from the descriptor, the counts of static viewports and
scissors, and the static-state buffer when there is at least one of them. -/
def staticPSO (T : D3D12Types) (defaultPipelineLayout : D3D12PipelineLayout)
    (desc : GraphicsPipelineDescriptor) : D3D12GraphicsPSO where
  rootSignature_ :=
    match desc.pipelineLayout with
    | some pl => pl.rootSignature
    | none => defaultPipelineLayout.rootSignature
  native_ := none
  primitiveTopology_ := T.ToD3DPrimitiveTopology desc.primitiveTopology
  scissorEnabled_ := desc.rasterizer.scissorTestEnabled
  stencilRefEnabled_ := T.IsStaticStencilRefEnabled desc.stencil
  stencilRef_ := desc.stencil.front.reference
  blendFactorEnabled_ := T.IsStaticBlendFactorEnabled desc.blend
  blendFactor_ := fun i => desc.blend.blendFactor i
  staticStateBuffer_ :=
    if desc.viewports ≠ [] ∨ desc.scissors ≠ [] then
      some (desc.viewports.flatMap D3D12_VIEWPORT_bytes ++
        desc.scissors.flatMap D3D12_RECT_bytes)
    else none
  numStaticViewports_ := desc.viewports.length
  numStaticScissors_ := desc.scissors.length

/-! ## Resource utilities

`ResourceFlags.h`, `ResourceHeapFlags.h` and `ArrayView.h` are not part of the sources
at hand. -/

/-- Values of the enumerators of `enum class CPUAccess`, whose declaration (in
`ResourceFlags.h`) is not part of the sources at hand. -/
structure CPUAccessValues where
  ReadOnly : Nat
  WriteOnly : Nat
  WriteDiscard : Nat
  ReadWrite : Nat
  deriving DecidableEq, Repr

/-- The enumerators of `CPUAccess`. -/
def CPUAccessValues.enumerators (E : CPUAccessValues) : List Nat :=
  [E.ReadOnly, E.WriteOnly, E.WriteDiscard, E.ReadWrite]

/-- The enumerators have increasing values in the order `ReadOnly`, `WriteOnly`,
`WriteDiscard`, `ReadWrite`, as for a declaration that lists them in this order. -/
def CPUAccessValues.InDeclarationOrder (E : CPUAccessValues) : Prop :=
  E.ReadOnly < E.WriteOnly ∧ E.WriteOnly < E.WriteDiscard ∧ E.WriteDiscard < E.ReadWrite

instance (E : CPUAccessValues) : Decidable E.InDeclarationOrder := by
  unfold CPUAccessValues.InDeclarationOrder; infer_instance

/-- Function `HasReadAccess(access)`. -/
def HasReadAccess (E : CPUAccessValues) (access : Nat) : Bool :=
  access == E.ReadOnly || access == E.ReadWrite

/-- Function `HasWriteAccess(access)`. -/
def HasWriteAccess (E : CPUAccessValues) (access : Nat) : Bool :=
  decide (access ≥ E.WriteOnly) && decide (access ≤ E.ReadWrite)

/-- Page protection of a region of virtual memory. -/
inductive PageProtection
  | PAGE_READWRITE
  | PAGE_EXECUTE_READ
  deriving DecidableEq, Repr

/-- A committed region of virtual memory: base address, content, protection. -/
structure VirtualRegion where
  addr : Nat
  bytes : List Nat
  protect : PageProtection
  deriving DecidableEq, Repr

/-- The virtual memory of the process and the behaviour of the operating system:
`allocResult size` is the base address that `VirtualAlloc(NULL, size, ...)` returns
(0 for `NULL`, on failure), and `protectSucceeds addr size` tells whether
`VirtualProtect(addr, size, ...)` succeeds. -/
structure Win32VirtualMemory where
  regions : List VirtualRegion
  allocResult : Nat → Nat
  protectSucceeds : Nat → Nat → Bool

/-- System call `VirtualAlloc(NULL, size, MEM_COMMIT | MEM_RESERVE, protect)`: on success
a new region of `size` zero bytes. -/
def Win32VirtualMemory.VirtualAlloc (os : Win32VirtualMemory) (size : Nat)
    (protect : PageProtection) : Win32VirtualMemory × Nat :=
  let addr := os.allocResult size
  if addr = 0 then (os, 0)
  else ({ os with regions := ⟨addr, List.replicate size 0, protect⟩ :: os.regions }, addr)

/-- Library call `memcpy(dst, src, size)` with `dst` the base address of a region. -/
def Win32VirtualMemory.memcpy (os : Win32VirtualMemory) (dst : Nat) (src : List Nat)
    (size : Nat) : Win32VirtualMemory :=
  { os with regions := os.regions.map (fun r =>
      if r.addr = dst then { r with bytes := src.take size ++ r.bytes.drop size } else r) }

/-- System call `VirtualProtect(addr, size, newProtect, &oldProtect)`: the result tells
whether the call succeeded. -/
def Win32VirtualMemory.VirtualProtect (os : Win32VirtualMemory) (addr size : Nat)
    (newProtect : PageProtection) : Win32VirtualMemory × Bool :=
  if os.protectSucceeds addr size then
    ({ os with regions := os.regions.map (fun r =>
        if r.addr = addr then { r with protect := newProtect } else r) }, true)
  else (os, false)

/-- Modelled from the spec: members of `Win32JITProgram` (`size_`, `addr_`) and of its
base class `JITProgram` (the entry point, which `SetEntryPoint` stores; `JITProgram.h`
is not part of the sources at hand). -/
structure Win32JITProgram where
  size_ : Nat
  addr_ : Nat
  entryPoint_ : Option Nat
  deriving DecidableEq, Repr

/-- Constructor `Win32JITProgram(code, size)`: returns the virtual memory afterwards and
either the error thrown or the program object. -/
def Win32JITProgram.ctor (os : Win32VirtualMemory) (code : List Nat) (size : Nat) :
    Win32VirtualMemory × Except Error Win32JITProgram :=
  match os.VirtualAlloc size PageProtection.PAGE_READWRITE with
  | (os, addr_) =>
    if addr_ = 0 then
      (os, .error (Error.RuntimeError
        ("failed to allocate " ++ toString size ++ " byte(s) of executable memory")))
    else
      let os := os.memcpy addr_ code size
      match os.VirtualProtect addr_ size PageProtection.PAGE_EXECUTE_READ with
      | (os, ok) =>
        if ok = false then
          (os, .error (Error.RuntimeError "failed to change virtual memory protection"))
        else
          (os, .ok { size_ := size, addr_ := addr_, entryPoint_ := some addr_ })

/-! ## Direct3D 12: the render-target loop of `ConvertBlendDesc` -/

/-- Store into element `i` of a C array: an index outside the array is a fault. -/
def storeAt {α : Type} (arr : List α) (i : Nat) (v : α) : Except Fault (List α) :=
  if i < arr.length then .ok (arr.set i v) else .error Fault.OutOfBounds

/-- Body of the loop `for_range(i, LLGL_MAX_NUM_COLOR_ATTACHMENTS)` of the overload
`ConvertBlendDesc(dst, dstColorFormats, src, numAttachments)` for the index `i`, on the
arrays `dst.RenderTarget` and `dstColorFormats`. -/
def ConvertBlendDescStep (T : D3D12Types) (src : BlendDescriptor) (numAttachments : Nat)
    (arrays : List D3D12_RENDER_TARGET_BLEND_DESC × List Nat) (i : Nat) :
    Except Fault (List D3D12_RENDER_TARGET_BLEND_DESC × List Nat) :=
  if i < numAttachments then do
    let target ← if h : i < 8 then pure (src.targets ⟨i, h⟩) else .error Fault.OutOfBounds
    let renderTarget ← storeAt arrays.1 i (ConvertTargetBlendDesc T target)
    let dstColorFormats ← storeAt arrays.2 i DXGI_FORMAT_B8G8R8A8_UNORM
    pure (renderTarget, dstColorFormats)
  else do
    let renderTarget ← storeAt arrays.1 i SetBlendDescToDefault
    let dstColorFormats ← storeAt arrays.2 i DXGI_FORMAT_UNKNOWN
    pure (renderTarget, dstColorFormats)

/-- The loop of the overload `ConvertBlendDesc(dst, dstColorFormats, src,
numAttachments)` in the branch `src.logicOp == LogicOp::Disabled`. -/
def ConvertBlendDescLoop (T : D3D12Types) (src : BlendDescriptor) (numAttachments : Nat)
    (arrays : List D3D12_RENDER_TARGET_BLEND_DESC × List Nat) :
    Except Fault (List D3D12_RENDER_TARGET_BLEND_DESC × List Nat) :=
  (List.range LLGL_MAX_NUM_COLOR_ATTACHMENTS).foldlM
    (ConvertBlendDescStep T src numAttachments) arrays

/-- Body of the loop of the overload `ConvertBlendDesc(dst, dstColorFormats, src,
renderPass)` for the index `i`. -/
def ConvertBlendDescRenderPassStep (T : D3D12Types) (src : BlendDescriptor)
    (renderPass : D3D12RenderPass)
    (arrays : List D3D12_RENDER_TARGET_BLEND_DESC × List Nat) (i : Nat) :
    Except Fault (List D3D12_RENDER_TARGET_BLEND_DESC × List Nat) :=
  if i < renderPass.numColorAttachments then do
    let target ← if h : i < 8 then pure (src.targets ⟨i, h⟩) else .error Fault.OutOfBounds
    let renderTarget ← storeAt arrays.1 i (ConvertTargetBlendDesc T target)
    let format ← if h : i < 8 then pure (renderPass.rtvFormats ⟨i, h⟩)
      else .error Fault.OutOfBounds
    let dstColorFormats ← storeAt arrays.2 i format
    pure (renderTarget, dstColorFormats)
  else do
    let renderTarget ← storeAt arrays.1 i SetBlendDescToDefault
    let dstColorFormats ← storeAt arrays.2 i DXGI_FORMAT_UNKNOWN
    pure (renderTarget, dstColorFormats)

/-- The loop of the overload `ConvertBlendDesc(dst, dstColorFormats, src, renderPass)`
in the branch `src.logicOp == LogicOp::Disabled`. -/
def ConvertBlendDescRenderPassLoop (T : D3D12Types) (src : BlendDescriptor)
    (renderPass : D3D12RenderPass)
    (arrays : List D3D12_RENDER_TARGET_BLEND_DESC × List Nat) :
    Except Fault (List D3D12_RENDER_TARGET_BLEND_DESC × List Nat) :=
  (List.range LLGL_MAX_NUM_COLOR_ATTACHMENTS).foldlM
    (ConvertBlendDescRenderPassStep T src renderPass) arrays

/-- The write mask in the words of the specification: one bit per color-mask flag. -/
def specColorWriteMask (T : D3D12Types) (colorMask : Nat) : Nat :=
  (if colorMask &&& T.ColorMaskFlagsR ≠ 0 then D3D12_COLOR_WRITE_ENABLE_RED else 0) |||
  (if colorMask &&& T.ColorMaskFlagsG ≠ 0 then D3D12_COLOR_WRITE_ENABLE_GREEN else 0) |||
  (if colorMask &&& T.ColorMaskFlagsB ≠ 0 then D3D12_COLOR_WRITE_ENABLE_BLUE else 0) |||
  (if colorMask &&& T.ColorMaskFlagsA ≠ 0 then D3D12_COLOR_WRITE_ENABLE_ALPHA else 0)

/-! ## Machine integers -/

/-- Value of the `bits`-bit two's complement integer that is congruent to `v`. -/
def wrapInt (bits : Nat) (v : Int) : Int :=
  (v + 2 ^ (bits - 1)) % 2 ^ bits - 2 ^ (bits - 1)

/-- Value of a `LONG` (two's complement, 32 bits) with the bit pattern `bits`. -/
def longValue (bits : Nat) : Int := wrapInt 32 bits

/-- The values of `std::int32_t`. -/
def IsInt32 (v : Int) : Prop := -2147483648 ≤ v ∧ v ≤ 2147483647

instance (v : Int) : Decidable (IsInt32 v) := by
  unfold IsInt32; infer_instance

/-- Member `left` of the `D3D12_RECT` with the object representation `rect`. -/
def D3D12_RECT_left (rect : List Nat) : Int := longValue (leValue (rect.take 4))

/-- Member `top` of the `D3D12_RECT` with the object representation `rect`. -/
def D3D12_RECT_top (rect : List Nat) : Int := longValue (leValue ((rect.drop 4).take 4))

/-- Member `right` of the `D3D12_RECT` with the object representation `rect`. -/
def D3D12_RECT_right (rect : List Nat) : Int := longValue (leValue ((rect.drop 8).take 4))

/-- Member `bottom` of the `D3D12_RECT` with the object representation `rect`. -/
def D3D12_RECT_bottom (rect : List Nat) : Int := longValue (leValue ((rect.drop 12).take 4))

/-! ## OpenGL: command opcodes -/

/-- Enumeration `GLOpcode`: the enumerators in the order of the declaration. -/
inductive GLOpcode
  | GLOpcodeBufferSubData
  | GLOpcodeCopyBufferSubData
  | GLOpcodeClearBufferData
  | GLOpcodeClearBufferSubData
  | GLOpcodeCopyImageSubData
  | GLOpcodeCopyImageToBuffer
  | GLOpcodeCopyImageFromBuffer
  | GLOpcodeGenerateMipmap
  | GLOpcodeGenerateMipmapSubresource
  | GLOpcodeExecute
  | GLOpcodeViewport
  | GLOpcodeViewportArray
  | GLOpcodeScissor
  | GLOpcodeScissorArray
  | GLOpcodeClearColor
  | GLOpcodeClearDepth
  | GLOpcodeClearStencil
  | GLOpcodeClear
  | GLOpcodeClearAttachmentsWithRenderPass
  | GLOpcodeClearBuffers
  | GLOpcodeBindVertexArray
  | GLOpcodeBindGL2XVertexArray
  | GLOpcodeBindElementArrayBufferToVAO
  | GLOpcodeBindBufferBase
  | GLOpcodeBindBuffersBase
  | GLOpcodeBeginTransformFeedback
  | GLOpcodeBeginTransformFeedbackNV
  | GLOpcodeEndTransformFeedback
  | GLOpcodeEndTransformFeedbackNV
  | GLOpcodeBindResourceHeap
  | GLOpcodeBindRenderTarget
  | GLOpcodeBindPipelineState
  | GLOpcodeSetBlendColor
  | GLOpcodeSetStencilRef
  | GLOpcodeSetUniforms
  | GLOpcodeBeginQuery
  | GLOpcodeEndQuery
  | GLOpcodeBeginConditionalRender
  | GLOpcodeEndConditionalRender
  | GLOpcodeDrawArrays
  | GLOpcodeDrawArraysInstanced
  | GLOpcodeDrawArraysInstancedBaseInstance
  | GLOpcodeDrawArraysIndirect
  | GLOpcodeDrawElements
  | GLOpcodeDrawElementsBaseVertex
  | GLOpcodeDrawElementsInstanced
  | GLOpcodeDrawElementsInstancedBaseVertex
  | GLOpcodeDrawElementsInstancedBaseVertexBaseInstance
  | GLOpcodeDrawElementsIndirect
  | GLOpcodeMultiDrawArraysIndirect
  | GLOpcodeMultiDrawElementsIndirect
  | GLOpcodeDispatchCompute
  | GLOpcodeDispatchComputeIndirect
  | GLOpcodeBindTexture
  | GLOpcodeBindImageTexture
  | GLOpcodeBindSampler
  | GLOpcodeBindGL2XSampler
  | GLOpcodeUnbindResources
  | GLOpcodePushDebugGroup
  | GLOpcodePopDebugGroup
  deriving DecidableEq, Repr

/-- The enumerator list of `enum GLOpcode : std::uint8_t` as it is declared: every
enumerator with its initialiser, if it has one. -/
def GLOpcode.declaration : List (GLOpcode × Option Nat) :=
  [(.GLOpcodeBufferSubData, some 1), (.GLOpcodeCopyBufferSubData, none),
    (.GLOpcodeClearBufferData, none), (.GLOpcodeClearBufferSubData, none),
    (.GLOpcodeCopyImageSubData, none), (.GLOpcodeCopyImageToBuffer, none),
    (.GLOpcodeCopyImageFromBuffer, none), (.GLOpcodeGenerateMipmap, none),
    (.GLOpcodeGenerateMipmapSubresource, none), (.GLOpcodeExecute, none),
    (.GLOpcodeViewport, none), (.GLOpcodeViewportArray, none), (.GLOpcodeScissor, none),
    (.GLOpcodeScissorArray, none), (.GLOpcodeClearColor, none), (.GLOpcodeClearDepth, none),
    (.GLOpcodeClearStencil, none), (.GLOpcodeClear, none),
    (.GLOpcodeClearAttachmentsWithRenderPass, none), (.GLOpcodeClearBuffers, none),
    (.GLOpcodeBindVertexArray, none), (.GLOpcodeBindGL2XVertexArray, none),
    (.GLOpcodeBindElementArrayBufferToVAO, none), (.GLOpcodeBindBufferBase, none),
    (.GLOpcodeBindBuffersBase, none), (.GLOpcodeBeginTransformFeedback, none),
    (.GLOpcodeBeginTransformFeedbackNV, none), (.GLOpcodeEndTransformFeedback, none),
    (.GLOpcodeEndTransformFeedbackNV, none), (.GLOpcodeBindResourceHeap, none),
    (.GLOpcodeBindRenderTarget, none), (.GLOpcodeBindPipelineState, none),
    (.GLOpcodeSetBlendColor, none), (.GLOpcodeSetStencilRef, none),
    (.GLOpcodeSetUniforms, none), (.GLOpcodeBeginQuery, none), (.GLOpcodeEndQuery, none),
    (.GLOpcodeBeginConditionalRender, none), (.GLOpcodeEndConditionalRender, none),
    (.GLOpcodeDrawArrays, none), (.GLOpcodeDrawArraysInstanced, none),
    (.GLOpcodeDrawArraysInstancedBaseInstance, none), (.GLOpcodeDrawArraysIndirect, none),
    (.GLOpcodeDrawElements, none), (.GLOpcodeDrawElementsBaseVertex, none),
    (.GLOpcodeDrawElementsInstanced, none), (.GLOpcodeDrawElementsInstancedBaseVertex, none),
    (.GLOpcodeDrawElementsInstancedBaseVertexBaseInstance, none),
    (.GLOpcodeDrawElementsIndirect, none), (.GLOpcodeMultiDrawArraysIndirect, none),
    (.GLOpcodeMultiDrawElementsIndirect, none), (.GLOpcodeDispatchCompute, none),
    (.GLOpcodeDispatchComputeIndirect, none), (.GLOpcodeBindTexture, none),
    (.GLOpcodeBindImageTexture, none), (.GLOpcodeBindSampler, none),
    (.GLOpcodeBindGL2XSampler, none), (.GLOpcodeUnbindResources, none),
    (.GLOpcodePushDebugGroup, none), (.GLOpcodePopDebugGroup, none)]


/-- Values of the enumerators of an enumeration: the initialiser if there is one,
otherwise the value of the previous enumerator plus one (`next`), zero for the first. -/
def enumeratorValues {α : Type} : Nat → List (α × Option Nat) → List (α × Nat)
  | _, [] => []
  | _, (e, some v) :: rest => (e, v) :: enumeratorValues (v + 1) rest
  | next, (e, none) :: rest => (e, next) :: enumeratorValues (next + 1) rest

/-- The enumerators of `GLOpcode` with their values, in declaration order. -/
def GLOpcode.values : List (GLOpcode × Nat) := enumeratorValues 0 GLOpcode.declaration

/-! ## OpenGL: render state of a command buffer

`GLState.h`, which declares `GLRenderState`, and the OpenGL headers are not part of
the sources at hand. -/

def GL_UNSIGNED_SHORT : Nat := 5123
def GL_UNSIGNED_INT : Nat := 5125

/-- Width in bits of the pointer-sized integer types `GLsizeiptr` and `GLintptr`. -/
structure GLPlatform where
  ptrBits : Nat
  deriving DecidableEq, Repr

/-- Modelled from the spec: structure `GLRenderState` of `GLState.h` (not part of the
sources at hand), with the members that `GLCommandBuffer` reads and writes. The draw
modes and the index type are `GLenum` values, stride and offset of the index buffer
are `GLsizeiptr` values, and the bound objects are pointers (nothing for null). -/
structure GLRenderState where
  drawMode : Nat
  primitiveMode : Nat
  indexBufferDataType : Nat
  indexBufferStride : Int
  indexBufferOffset : Int
  boundPipelineLayout : Option Nat
  boundPipelineState : Option Nat
  deriving DecidableEq, Repr

/-- What `SetPipelineRenderState` reads of a `GLPipelineState` (a `GLGraphicsPSO` when
`isGraphicsPSO` holds): its address, its pipeline layout, and for a graphics PSO the
draw mode and the primitive mode. -/
structure GLPipelineState where
  address : Nat
  pipelineLayout : Option Nat
  isGraphicsPSO : Bool
  drawMode : Nat
  primitiveMode : Nat
  deriving DecidableEq, Repr

/-- Member `renderState_` of `GLCommandBuffer`. -/
structure GLCommandBuffer where
  renderState_ : GLRenderState
  deriving DecidableEq, Repr

/-- Method `ResetRenderState()`. -/
def GLCommandBuffer.ResetRenderState (self : GLCommandBuffer) : GLCommandBuffer :=
  let self := { self with renderState_ := { self.renderState_ with boundPipelineLayout := none } }
  { self with renderState_ := { self.renderState_ with boundPipelineState := none } }

/-- Method `SetIndexFormat(indexType16Bits, offset)`; `offset` is a `std::uint64_t` value,
converted to `GLsizeiptr`. -/
def GLCommandBuffer.SetIndexFormat (P : GLPlatform) (self : GLCommandBuffer)
    (indexType16Bits : Bool) (offset : Nat) : GLCommandBuffer :=
  let self :=
    if indexType16Bits then
      { self with renderState_ := { self.renderState_ with
          indexBufferDataType := GL_UNSIGNED_SHORT, indexBufferStride := 2 } }
    else
      { self with renderState_ := { self.renderState_ with
          indexBufferDataType := GL_UNSIGNED_INT, indexBufferStride := 4 } }
  { self with renderState_ := { self.renderState_ with
      indexBufferOffset := wrapInt P.ptrBits offset } }

/-- Method `SetPipelineRenderState(pipelineStateGL)`. -/
def GLCommandBuffer.SetPipelineRenderState (self : GLCommandBuffer)
    (pipelineStateGL : GLPipelineState) : GLCommandBuffer :=
  let self := { self with renderState_ := { self.renderState_ with
      boundPipelineLayout := pipelineStateGL.pipelineLayout
      boundPipelineState := some pipelineStateGL.address } }
  if pipelineStateGL.isGraphicsPSO then
    { self with renderState_ := { self.renderState_ with
        drawMode := pipelineStateGL.drawMode
        primitiveMode := pipelineStateGL.primitiveMode } }
  else self

/-- Method `GetIndicesOffset(firstIndex)`: the integer value of the pointer returned.
`firstIndex` is a `std::uint32_t` value. Where `GLsizeiptr` has 32 bits the product and
the sum are computed in `unsigned int` and converted to `GLintptr`; where it is wider
they are computed in `GLsizeiptr`. -/
def GLCommandBuffer.GetIndicesOffset (P : GLPlatform) (self : GLCommandBuffer)
    (firstIndex : Nat) : Int :=
  if P.ptrBits ≤ 32 then
    let product : Nat :=
      (firstIndex * (self.renderState_.indexBufferStride % 2 ^ 32).toNat) % 2 ^ 32
    let indices : Nat :=
      ((self.renderState_.indexBufferOffset % 2 ^ 32).toNat + product) % 2 ^ 32
    wrapInt P.ptrBits indices
  else
    let product := wrapInt P.ptrBits (firstIndex * self.renderState_.indexBufferStride)
    wrapInt P.ptrBits (self.renderState_.indexBufferOffset + product)

/-! ## Core: clamped arithmetic of extents and offsets

`Types.h`, which declares the extent and offset structures, is not part of the sources
at hand. -/

def UINT_MAX : Nat := 4294967295
def INT_MIN : Int := -2147483648
def INT_MAX : Int := 2147483647

/-- Function `AddUInt32Clamped(lhs, rhs)`; the sum `x` is a `std::uint64_t`, the result
of the else-branch a `std::uint32_t`. -/
def AddUInt32Clamped (lhs rhs : Nat) : Nat :=
  let xMax := UINT_MAX
  let x := lhs % 2 ^ 64
  let x := (x + rhs) % 2 ^ 64
  if x > xMax % 2 ^ 64 then xMax else (lhs + rhs) % 2 ^ 32

/-- Function `SubUInt32Clamped(lhs, rhs)`, with the difference in `std::uint32_t`. -/
def SubUInt32Clamped (lhs rhs : Nat) : Nat :=
  if rhs < lhs then (lhs + 2 ^ 32 - rhs) % 2 ^ 32 else 0

/-- Function `ClampToInt32(x)` for a `std::int64_t` value. -/
def ClampToInt32 (x : Int) : Int :=
  let xMin := INT_MIN
  let xMax := INT_MAX
  let x := max xMin (min x xMax)
  wrapInt 32 x

/-- Function `AddInt32Clamped(lhs, rhs)`, with the sum in `std::int64_t`. -/
def AddInt32Clamped (lhs rhs : Int) : Int :=
  let x := wrapInt 64 lhs
  let x := wrapInt 64 (x + rhs)
  ClampToInt32 x

/-- Function `SubInt32Clamped(lhs, rhs)`, with the difference in `std::int64_t`. -/
def SubInt32Clamped (lhs rhs : Int) : Int :=
  let x := wrapInt 64 lhs
  let x := wrapInt 64 (x - rhs)
  ClampToInt32 x

/-- Structure `Extent2D` with `std::uint32_t` members. -/
structure Extent2D where
  width : Nat
  height : Nat
  deriving DecidableEq, Repr

/-- Structure `Extent3D` with `std::uint32_t` members. -/
structure Extent3D where
  width : Nat
  height : Nat
  depth : Nat
  deriving DecidableEq, Repr

/-- Structure `Offset2D` with `std::int32_t` members. -/
structure Offset2D where
  x : Int
  y : Int
  deriving DecidableEq, Repr

/-- Structure `Offset3D` with `std::int32_t` members. -/
structure Offset3D where
  x : Int
  y : Int
  z : Int
  deriving DecidableEq, Repr

/-- Operator `+` of `Extent2D`. -/
instance : Add Extent2D where
  add lhs rhs :=
    ⟨AddUInt32Clamped lhs.width rhs.width, AddUInt32Clamped lhs.height rhs.height⟩

/-- Operator `-` of `Extent2D`. -/
instance : Sub Extent2D where
  sub lhs rhs :=
    ⟨SubUInt32Clamped lhs.width rhs.width, SubUInt32Clamped lhs.height rhs.height⟩

/-- Operator `+` of `Extent3D`. -/
instance : Add Extent3D where
  add lhs rhs :=
    ⟨AddUInt32Clamped lhs.width rhs.width, AddUInt32Clamped lhs.height rhs.height,
      AddUInt32Clamped lhs.depth rhs.depth⟩

/-- Operator `-` of `Extent3D`. -/
instance : Sub Extent3D where
  sub lhs rhs :=
    ⟨SubUInt32Clamped lhs.width rhs.width, SubUInt32Clamped lhs.height rhs.height,
      SubUInt32Clamped lhs.depth rhs.depth⟩

/-- Operator `+` of `Offset2D`. -/
instance : Add Offset2D where
  add lhs rhs := ⟨AddInt32Clamped lhs.x rhs.x, AddInt32Clamped lhs.y rhs.y⟩

/-- Operator `-` of `Offset2D`. -/
instance : Sub Offset2D where
  sub lhs rhs := ⟨SubInt32Clamped lhs.x rhs.x, SubInt32Clamped lhs.y rhs.y⟩

/-- Operator `+` of `Offset3D`. -/
instance : Add Offset3D where
  add lhs rhs :=
    ⟨AddInt32Clamped lhs.x rhs.x, AddInt32Clamped lhs.y rhs.y, AddInt32Clamped lhs.z rhs.z⟩

/-- Operator `-` of `Offset3D`. -/
instance : Sub Offset3D where
  sub lhs rhs :=
    ⟨SubInt32Clamped lhs.x rhs.x, SubInt32Clamped lhs.y rhs.y, SubInt32Clamped lhs.z rhs.z⟩

/-- The sum of two extents in the words of the specification. -/
def specAddUInt32 (a b : Nat) : Nat := min (a + b) (2 ^ 32 - 1)

/-- The difference of two extents in the words of the specification. -/
def specSubUInt32 (a b : Nat) : Nat := if b < a then a - b else 0

/-- The exact value `v` clamped to the `std::int32_t` range, in the words of the
specification. -/
def specClampInt32 (v : Int) : Int := max (-2 ^ 31) (min v (2 ^ 31 - 1))

/-! ## Direct3D 11: staging buffer

`D3D11StagingBuffer.h` is not part of the sources at hand. -/

/-- Enumeration `D3D11_USAGE` of the Direct3D 11 headers. -/
inductive D3D11_USAGE
  | D3D11_USAGE_DEFAULT
  | D3D11_USAGE_IMMUTABLE
  | D3D11_USAGE_DYNAMIC
  | D3D11_USAGE_STAGING
  deriving DecidableEq, Repr

def D3D11_BIND_CONSTANT_BUFFER : Nat := 4
def D3D11_CPU_ACCESS_WRITE : Nat := 65536

/-- Function `DXGetOptimalUsageForBindFlags(bindFlags)`. -/
def DXGetOptimalUsageForBindFlags (bindFlags : Nat) : D3D11_USAGE :=
  if bindFlags &&& D3D11_BIND_CONSTANT_BUFFER ≠ 0 then D3D11_USAGE.D3D11_USAGE_DYNAMIC
  else D3D11_USAGE.D3D11_USAGE_DEFAULT

structure D3D11_BUFFER_DESC where
  ByteWidth : Nat
  Usage : D3D11_USAGE
  BindFlags : Nat
  CPUAccessFlags : Nat
  MiscFlags : Nat
  StructureByteStride : Nat
  deriving DecidableEq, Repr

/-- Members of `D3D11StagingBuffer`: the native buffer (nothing for a null `ComPtr`),
the usage, the size and the write offset (`UINT` values). -/
structure D3D11StagingBuffer where
  native_ : Option Nat
  usage_ : D3D11_USAGE
  size_ : Nat
  offset_ : Nat
  deriving DecidableEq, Repr

/-- Constructor `D3D11StagingBuffer(device, size, bindFlags, miscFlags)`. The device is
the function that creates a buffer for a descriptor, or fails; `init` holds the members
as the default member initialisers of the header leave them. -/
def D3D11StagingBuffer.ctor (init : D3D11StagingBuffer)
    (device : D3D11_BUFFER_DESC → Option Nat) (size bindFlags miscFlags : Nat) :
    Except Error D3D11StagingBuffer :=
  let self := { init with usage_ := DXGetOptimalUsageForBindFlags bindFlags, size_ := size }
  let descD3D : D3D11_BUFFER_DESC :=
    { ByteWidth := size
      Usage := self.usage_
      BindFlags := bindFlags
      CPUAccessFlags :=
        if self.usage_ = D3D11_USAGE.D3D11_USAGE_DYNAMIC then D3D11_CPU_ACCESS_WRITE else 0
      MiscFlags := miscFlags
      StructureByteStride := 0 }
  match device descD3D with
  | some native => .ok { self with native_ := some native }
  | none => .error (Error.NativeFailure "ID3D11Buffer")

/-- Move constructor `D3D11StagingBuffer(D3D11StagingBuffer&& rhs)`: returns the new
object and the source afterwards. The member initialiser list names `native_`, `size_`
and `offset_`; `usage_` is left as the header initialises it (`init`). -/
def D3D11StagingBuffer.moveCtor (init rhs : D3D11StagingBuffer) :
    D3D11StagingBuffer × D3D11StagingBuffer :=
  ({ init with native_ := rhs.native_, size_ := rhs.size_, offset_ := rhs.offset_ },
    { rhs with native_ := none })

/-- Move assignment `operator = (D3D11StagingBuffer&& rhs)` for `this != &rhs`: returns the
destination and the source afterwards. -/
def D3D11StagingBuffer.moveAssign (self rhs : D3D11StagingBuffer) :
    D3D11StagingBuffer × D3D11StagingBuffer :=
  ({ self with native_ := rhs.native_, size_ := rhs.size_, offset_ := rhs.offset_ },
    { rhs with native_ := none })

/-- Method `Reset()`. -/
def D3D11StagingBuffer.Reset (self : D3D11StagingBuffer) : D3D11StagingBuffer :=
  { self with offset_ := 0 }

/-- Method `Capacity(dataSize)`, with the sum in `UINT`. -/
def D3D11StagingBuffer.Capacity (self : D3D11StagingBuffer) (dataSize : Nat) : Bool :=
  decide ((self.offset_ + dataSize) % UINT_SIZE ≤ self.size_)

/-- Calls that `Write` makes on the device context. `Map` carries the flag
`writeDiscard` from which `DXGetMapWrite` chooses the map type, `memcpy` the offset into
the mapped memory and the bytes copied, `UpdateSubresource` the members `left` and
`right` of the destination box and the bytes written. -/
inductive D3D11Call
  | Map (resource : Option Nat) (writeDiscard : Bool)
  | memcpy (dstOffset : Nat) (bytes : List Nat)
  | Unmap (resource : Option Nat)
  | UpdateSubresource (resource : Option Nat) (left right : Nat) (bytes : List Nat)
  deriving DecidableEq, Repr

/-- Method `Write(context, data, dataSize)`: the calls made on the context. -/
def D3D11StagingBuffer.Write (self : D3D11StagingBuffer) (data : List Nat) (dataSize : Nat) :
    List D3D11Call :=
  if self.usage_ = D3D11_USAGE.D3D11_USAGE_DYNAMIC then
    let writeDiscard := decide (self.offset_ = 0)
    [D3D11Call.Map self.native_ writeDiscard,
      D3D11Call.memcpy self.offset_ (data.take dataSize),
      D3D11Call.Unmap self.native_]
  else
    [D3D11Call.UpdateSubresource self.native_ self.offset_
      ((self.offset_ + dataSize) % UINT_SIZE) (data.take dataSize)]

/-- Method `WriteAndIncrementOffset(context, data, dataSize, stride)`: returns the buffer
afterwards and the calls made. -/
def D3D11StagingBuffer.WriteAndIncrementOffset (self : D3D11StagingBuffer) (data : List Nat)
    (dataSize stride : Nat) : D3D11StagingBuffer × List D3D11Call :=
  let calls := self.Write data dataSize
  ({ self with offset_ := (self.offset_ + max dataSize stride) % UINT_SIZE }, calls)

/-! ## Null backend: the replay loop at machine level -/

/-- Member `TopLeftX` (a `FLOAT`, as its bit pattern) of the `D3D12_VIEWPORT` with the
object representation `vp`. -/
def D3D12_VIEWPORT_TopLeftX (vp : List Nat) : Nat := leValue (vp.take 4)

/-- Member `TopLeftY` of the `D3D12_VIEWPORT` with the object representation `vp`. -/
def D3D12_VIEWPORT_TopLeftY (vp : List Nat) : Nat := leValue ((vp.drop 4).take 4)

/-- Member `Width` of the `D3D12_VIEWPORT` with the object representation `vp`. -/
def D3D12_VIEWPORT_Width (vp : List Nat) : Nat := leValue ((vp.drop 8).take 4)

/-- Member `Height` of the `D3D12_VIEWPORT` with the object representation `vp`. -/
def D3D12_VIEWPORT_Height (vp : List Nat) : Nat := leValue ((vp.drop 12).take 4)

/-- Member `MinDepth` of the `D3D12_VIEWPORT` with the object representation `vp`. -/
def D3D12_VIEWPORT_MinDepth (vp : List Nat) : Nat := leValue ((vp.drop 16).take 4)

/-- Member `MaxDepth` of the `D3D12_VIEWPORT` with the object representation `vp`. -/
def D3D12_VIEWPORT_MaxDepth (vp : List Nat) : Nat := leValue ((vp.drop 20).take 4)

/-- The members of a viewport are bit patterns of `float` values (32 bits). -/
def Viewport.IsFloat32 (v : Viewport) : Prop :=
  v.x < UINT_SIZE ∧ v.y < UINT_SIZE ∧ v.width < UINT_SIZE ∧ v.height < UINT_SIZE ∧
  v.minDepth < UINT_SIZE ∧ v.maxDepth < UINT_SIZE

instance (v : Viewport) : Decidable v.IsFloat32 := by
  unfold Viewport.IsFloat32; infer_instance

/-- The bytes of static viewport `i` in the static-state buffer `buf`. -/
def staticViewportSlot (buf : List Nat) (i : Nat) : List Nat :=
  (buf.drop (i * sizeofD3D12_VIEWPORT)).take sizeofD3D12_VIEWPORT

/-- The bytes of static scissor `j` in the static-state buffer `buf` that holds
`numViewports` viewports in front of the scissors. -/
def staticScissorSlot (buf : List Nat) (numViewports j : Nat) : List Nat :=
  (buf.drop (numViewports * sizeofD3D12_VIEWPORT + j * sizeofD3D12_RECT)).take sizeofD3D12_RECT

/-! ## Examples -/

/-- Conversion tables used in the examples: identity maps, logic operation `Op n`
mapped to `n`, color-mask flags `R = 1`, `G = 2`, `B = 4`, `A = 8`. -/
def exampleTypes : D3D12Types where
  ToD3DPrimitiveTopology := fun t => t
  ToDXGIFormatUInt := fun f => f
  MapBlendOp := fun b => b
  MapBlendArithmetic := fun b => b
  MapLogicOp := fun op =>
    match op with
    | LogicOp.Disabled => D3D12_LOGIC_OP_NOOP
    | LogicOp.Op code => code
  IsStaticStencilRefEnabled := fun st => !st.referenceDynamic
  IsStaticBlendFactorEnabled := fun bl => !bl.blendFactorDynamic
  ColorMaskFlagsR := 1
  ColorMaskFlagsG := 2
  ColorMaskFlagsB := 4
  ColorMaskFlagsA := 8

/-- Blend descriptor used in the examples: independent blending switched on, every
target with blending enabled, and the given logic operation. -/
def exampleBlend (logicOp : LogicOp) : BlendDescriptor where
  alphaToCoverageEnabled := false
  independentBlendEnabled := true
  sampleMask := 4294967295
  logicOp := logicOp
  blendFactor := fun _ => 0
  blendFactorDynamic := false
  targets := fun _ => ⟨true, 5, 6, 1, 5, 6, 1, 15⟩

/-- Render pass used in the examples: two color attachments. -/
def exampleRenderPass : D3D12RenderPass where
  numColorAttachments := 2
  rtvFormats := fun _ => 28
  dsvFormat := 45
  sampleCount := 1

/-- Shader used in the examples: two input elements, no stream output. -/
def exampleShader : Shader where
  byteCode := [68, 88, 66, 67]
  inputLayout :=
    { pInputElementDescs := [⟨[80, 79, 83], 0, 6, 0, 0, 0, 0⟩, ⟨[84, 69, 88], 0, 16, 0, 12, 0, 0⟩]
      NumElements := 2 }
  streamOutput := {}

/-- Pipeline layout used in the examples. -/
def exampleLayout : D3D12PipelineLayout where
  rootSignature := 1
  serializedBlob := some [1, 2, 3]

/-- Device used in the examples: no pipeline state created yet, a driver that accepts
every descriptor and hands out a three-byte cache blob. -/
def exampleDevice : D3D12Device where
  created := []
  accepts := fun _ => true
  cachedBlob := fun _ => some [9, 9, 9]
  rootSignatureOfBlob := fun _ => 1

/-- Graphics pipeline descriptor used in the examples, with the given vertex shader,
viewports and scissors. -/
def exampleDesc (vertexShader : Option Shader) (viewports : List Viewport)
    (scissors : List Scissor) : GraphicsPipelineDescriptor where
  pipelineLayout := none
  renderPass := none
  vertexShader := vertexShader
  tessControlShader := none
  tessEvaluationShader := none
  geometryShader := none
  fragmentShader := none
  primitiveTopology := 4
  viewports := viewports
  scissors := scissors
  stencil := ⟨false, false, ⟨0, 0, 0, 0, 255, 255, 7⟩, ⟨0, 0, 0, 0, 255, 255, 7⟩⟩
  rasterizer := ⟨true⟩
  blend := exampleBlend LogicOp.Disabled

/-- Render system used in the examples: the example device and layout, no swap chain,
no pipeline state registered. -/
def exampleRenderSystem : D3D12RenderSystem where
  device_ := exampleDevice
  defaultPipelineLayout_ := exampleLayout
  swapChains_ := []
  pipelineStates_ := []

/-- Native descriptor used in the examples: the input layout of the example shader,
one stream-output entry and one buffer stride. -/
def exampleStateDesc : D3D12_GRAPHICS_PIPELINE_STATE_DESC :=
  { VS := [68, 88, 66, 67]
    PS := [1, 2]
    InputLayout := exampleShader.inputLayout
    StreamOutput :=
      { pSODeclaration := [⟨0, [80, 79, 83], 0, 0, 4, 0⟩]
        NumEntries := 1
        pBufferStrides := [16]
        NumStrides := 1 } }

/-- Graphics PSO used in the examples: one static viewport and one static scissor. -/
def examplePSO : D3D12GraphicsPSO where
  rootSignature_ := 1
  native_ := some 0
  primitiveTopology_ := 4
  scissorEnabled_ := true
  stencilRefEnabled_ := true
  stencilRef_ := 7
  blendFactorEnabled_ := true
  blendFactor_ := fun _ => 1065353216
  staticStateBuffer_ :=
    some (D3D12_VIEWPORT_bytes ⟨0, 0, 1142947840, 1139802112, 0, 1065353216⟩ ++
      D3D12_RECT_bytes ⟨0, 0, 640, 480⟩)
  numStaticViewports_ := 1
  numStaticScissors_ := 1

/-- Descriptor used in the round-trip example: the example shader, one static viewport
and two static scissors. -/
def exampleStaticDesc : GraphicsPipelineDescriptor :=
  exampleDesc (some exampleShader) [⟨0, 0, 1142947840, 1139802112, 0, 1065353216⟩]
    [⟨0, 0, 640, 480⟩, ⟨10, 10, 20, 20⟩]

/-- The PSO and the serializer that the constructor yields for the round-trip
example. -/
def exampleBuilt : D3D12GraphicsPSO × Serializer :=
  match (D3D12GraphicsPSO.ctor exampleTypes exampleDevice exampleLayout exampleStaticDesc none
      (some {})).2 with
  | .ok (pso, some w) => (pso, w)
  | _ => (D3D12GraphicsPSO.initial 0, {})

/-- Record used in the examples: a buffer write of three bytes to buffer 7 at
offset 5. -/
def exampleBufferWrite : NullCmd :=
  NullCmd.BufferWrite (leBytes 8 7 ++ leBytes 8 5 ++ leBytes 8 0) [10, 20, 30]

/-- Render system used in the examples: one swap chain with the example render pass. -/
def exampleRenderSystemWithSwapChain : D3D12RenderSystem where
  device_ := exampleDevice
  defaultPipelineLayout_ := exampleLayout
  swapChains_ := [⟨some exampleRenderPass⟩]
  pipelineStates_ := []

/-- Enumerator values used in the examples: numbered from 0 in the order `ReadOnly`,
`WriteOnly`, `WriteDiscard`, `ReadWrite`. -/
def exampleCPUAccess : CPUAccessValues where
  ReadOnly := 0
  WriteOnly := 1
  WriteDiscard := 2
  ReadWrite := 3

/-- Virtual memory used in the examples: no region yet, allocation at address 4096,
protection changes succeed. -/
def exampleMemory : Win32VirtualMemory where
  regions := []
  allocResult := fun _ => 4096
  protectSucceeds := fun _ _ => true

/-- Graphics PSO used in the binding example: the members the constructor stores for the
round-trip descriptor, with the first native object of the device. -/
def exampleBoundPSO : D3D12GraphicsPSO :=
  { staticPSO exampleTypes exampleLayout exampleStaticDesc with native_ := some 0 }

/-- Command buffer used in the examples: triangles, 32-bit indices, nothing bound. -/
def exampleGLCommandBuffer : GLCommandBuffer where
  renderState_ := ⟨4, 4, GL_UNSIGNED_INT, 4, 0, none, none⟩

/-- Staging buffer used in the examples: 16 bytes, dynamic usage, write offset 8. -/
def exampleStagingBuffer : D3D11StagingBuffer where
  native_ := some 1
  usage_ := D3D11_USAGE.D3D11_USAGE_DYNAMIC
  size_ := 16
  offset_ := 8

/-- Members of a staging buffer as default member initialisers `D3D11_USAGE_DEFAULT`
and zero leave them, used in the examples. -/
def exampleStagingInit : D3D11StagingBuffer where
  native_ := none
  usage_ := D3D11_USAGE.D3D11_USAGE_DEFAULT
  size_ := 0
  offset_ := 0

theorem leBytes_length (w v : Nat) : (leBytes w v).length = w := by
  induction w generalizing v with
  | zero => rfl
  | succ w ih => simp [leBytes, ih]

theorem leValue_leBytes (w v : Nat) : leValue (leBytes w v) = v % 256 ^ w := by
  induction w generalizing v with
  | zero => simp [leBytes, leValue, Nat.mod_one]
  | succ w ih =>
    simp only [leBytes, leValue, ih]
    rw [pow_succ, Nat.mul_comm (256 ^ w) 256, Nat.mod_mul]

theorem leValue_leBytes_of_lt {w v : Nat} (h : v < 256 ^ w) : leValue (leBytes w v) = v := by
  rw [leValue_leBytes, Nat.mod_eq_of_lt h]

theorem readBytes_mid (pre mid post : List Nat) (k n : Nat) (h : k + n ≤ mid.length) :
    readBytes (pre ++ (mid ++ post)) (pre.length + k) n = .ok ((mid.drop k).take n) := by
  unfold readBytes
  have h1 : pre.length + k + n ≤ (pre ++ (mid ++ post)).length := by
    simp only [List.length_append]; omega
  rw [if_pos h1, List.drop_append, List.drop_append_of_le_length (by omega),
    List.take_append_of_le_length (by simp only [List.length_drop]; omega)]

theorem readField_header (pre hdr post : List Nat) (f : Field)
    (hf : f.Inside hdr.length) :
    readField (pre ++ (hdr ++ post)) pre.length f = .ok (headerField hdr f) := by
  unfold readField headerField
  rw [readBytes_mid pre hdr post f.off f.width hf]
  rfl

theorem writeField_length (hdr : List Nat) (f : Field) (v : Nat) (hf : f.Inside hdr.length) :
    (writeField hdr f v).length = hdr.length := by
  unfold Field.Inside at hf
  simp only [writeField, List.length_append, List.length_take, List.length_drop, leBytes_length]
  omega

theorem drop_append_of_length {α : Type} (l₁ l₂ : List α) (n : Nat) (h : l₁.length = n) :
    (l₁ ++ l₂).drop n = l₂ := by
  subst h; exact List.drop_left _ _

theorem take_append_of_length {α : Type} (l₁ l₂ : List α) (n : Nat) (h : l₁.length = n) :
    (l₁ ++ l₂).take n = l₁ := by
  subst h; exact List.take_left _ _

theorem headerField_writeField (hdr : List Nat) (f : Field) (v : Nat)
    (hf : f.Inside hdr.length) (hv : v < 256 ^ f.width) :
    headerField (writeField hdr f v) f = v := by
  unfold Field.Inside at hf
  unfold headerField writeField
  have h1 : (hdr.take f.off).length = f.off := by
    rw [List.length_take]; omega
  rw [List.append_assoc, drop_append_of_length _ _ _ h1,
    take_append_of_length _ _ _ (leBytes_length _ _), leValue_leBytes_of_lt hv]

/-- Length of the bytes of a list of pointers. -/
theorem length_flatMap_leBytes (w : Nat) (vs : List Nat) :
    (vs.flatMap (leBytes w)).length = vs.length * w := by
  induction vs with
  | nil => simp
  | cons v vs ih =>
    simp only [List.flatMap_cons, List.length_append, leBytes_length, ih, List.length_cons]
    ring

theorem NullCmd.header_length (L : NullLayout) (hL : L.Valid) (r : NullCmd)
    (hr : r.WellFormed L) :
    (r.header L).length =
      match r with
      | .BufferWrite _ _ => L.sizeofCmdBufferWrite
      | .CopySubresource _ => L.sizeofCmdCopySubresource
      | .GenerateMips _ => L.sizeofCmdGenerateMips
      | .Draw _ _ => L.sizeofCmdDraw
      | .DrawIndexed _ _ => L.sizeofCmdDrawIndexed
      | .PushDebugGroup _ _ => L.sizeofCmdPushDebugGroup
      | .PopDebugGroup => 0 := by
  obtain ⟨-, -, -, -, hbw, -, -, -, -, -, hfd, hdi, hpd⟩ := hL
  cases r with
  | BufferWrite hdr data =>
    obtain ⟨h1, -, -⟩ := hr
    simp only [NullCmd.header]
    rw [writeField_length _ _ _ (by rw [h1]; exact hbw), h1]
  | CopySubresource hdr => exact hr
  | GenerateMips hdr => exact hr
  | Draw hdr vbs =>
    obtain ⟨h1, -, -⟩ := hr
    simp only [NullCmd.header]
    rw [writeField_length _ _ _ (by rw [h1]; exact hfd), h1]
  | DrawIndexed hdr vbs =>
    obtain ⟨h1, -, -⟩ := hr
    simp only [NullCmd.header]
    rw [writeField_length _ _ _ (by rw [h1]; exact hdi), h1]
  | PushDebugGroup hdr name =>
    obtain ⟨h1, -, -⟩ := hr
    simp only [NullCmd.header]
    rw [writeField_length _ _ _ (by rw [h1]; exact hpd), h1]
  | PopDebugGroup => rfl

theorem readBytes_payload (pre hdr data post : List Nat) :
    readBytes (pre ++ (hdr ++ (data ++ post))) (pre.length + hdr.length) data.length
      = .ok data := by
  have h := readBytes_mid (pre ++ hdr) data post 0 data.length (by omega)
  simp only [List.length_append, Nat.add_zero, List.drop_zero, List.take_length,
    List.append_assoc] at h
  exact h

theorem ExecuteNullCommand_record (L : NullLayout) (hL : L.Valid) (r : NullCmd)
    (hr : r.WellFormed L) (pre post : List Nat) :
    ExecuteNullCommand L (pre ++ (r.header L ++ (r.payload L ++ post))) (r.opcode L) pre.length
      = .ok (r.ops L, (r.header L).length + (r.payload L).length) := by
  have hlen := NullCmd.header_length L hL r hr
  obtain ⟨hnd, -, hbwb, hbwo, hbws, hgt, hg1, hg2, hg3, hg4, hfd, hdi, hpd⟩ := hL
  simp only [NullLayout.opcodes, List.nodup_cons, List.mem_cons, List.mem_singleton,
    not_or, List.not_mem_nil, not_false_eq_true, List.nodup_nil, and_true] at hnd
  obtain ⟨⟨n12, n13, n14, n15, n16, n17⟩, ⟨n23, n24, n25, n26, n27⟩, ⟨n34, n35, n36, n37⟩,
    ⟨n45, n46, n47⟩, ⟨n56, n57⟩, n67⟩ := hnd
  cases r with
  | BufferWrite hdr data =>
    obtain ⟨h1, h2, h3⟩ := hr
    simp only at hlen
    have hs : headerField (NullCmd.header L (.BufferWrite hdr data)) L.BufferWrite_size
        = data.length :=
      headerField_writeField hdr _ _ (by rw [h1]; exact hbws) h2
    have hp := readBytes_payload pre (NullCmd.header L (.BufferWrite hdr data)) data post
    rw [hlen] at hp
    unfold ExecuteNullCommand
    simp only [NullCmd.opcode, if_true, NullCmd.payload,
      readField_header pre _ _ _ (show L.BufferWrite_buffer.Inside _ by rw [hlen]; exact hbwb),
      readField_header pre _ _ _ (show L.BufferWrite_offset.Inside _ by rw [hlen]; exact hbwo),
      readField_header pre _ _ _ (show L.BufferWrite_size.Inside _ by rw [hlen]; exact hbws),
      hs, hp, hlen, NullCmd.ops, NullLayout.szAdd, Nat.mod_eq_of_lt h3, bind, Except.bind,
      pure, Except.pure]
  | CopySubresource hdr =>
    simp only at hlen
    unfold ExecuteNullCommand
    simp only [NullCmd.opcode, if_neg (Ne.symm n12), if_true, NullCmd.payload, NullCmd.ops, hlen,
      List.length_nil, Nat.add_zero]
    rfl
  | GenerateMips hdr =>
    simp only at hlen
    unfold ExecuteNullCommand
    simp only [NullCmd.opcode, if_neg (Ne.symm n13), if_neg (Ne.symm n23), if_true,
      NullCmd.payload, NullCmd.header, List.nil_append,
      readField_header pre hdr post _ (show L.GenerateMips_texture.Inside _ by
        rw [← hlen] at hgt; exact hgt),
      readField_header pre hdr post _ (show L.GenerateMips_baseArrayLayer.Inside _ by
        rw [← hlen] at hg1; exact hg1),
      readField_header pre hdr post _ (show L.GenerateMips_numArrayLayers.Inside _ by
        rw [← hlen] at hg2; exact hg2),
      readField_header pre hdr post _ (show L.GenerateMips_baseMipLevel.Inside _ by
        rw [← hlen] at hg3; exact hg3),
      readField_header pre hdr post _ (show L.GenerateMips_numMipLevels.Inside _ by
        rw [← hlen] at hg4; exact hg4),
      NullCmd.ops, List.length_nil, Nat.add_zero, bind, Except.bind, pure, Except.pure]
    rw [show hdr.length = L.sizeofCmdGenerateMips from hr]
  | Draw hdr vbs =>
    obtain ⟨h1, h2, h3⟩ := hr
    simp only at hlen
    have hs : headerField (NullCmd.header L (.Draw hdr vbs)) L.Draw_numVertexBuffers
        = vbs.length :=
      headerField_writeField hdr _ _ (by rw [h1]; exact hfd) h2
    have h4 : vbs.length * L.sizeofPtr < L.sizeMod := by omega
    unfold ExecuteNullCommand
    simp only [NullCmd.opcode, if_neg (Ne.symm n14), if_neg (Ne.symm n24),
      if_neg (Ne.symm n34), if_true, NullCmd.payload,
      readField_header pre _ _ _ (show L.Draw_numVertexBuffers.Inside _ by rw [hlen]; exact hfd),
      hs, hlen, NullCmd.ops, NullLayout.szAdd, NullLayout.szMul, Nat.mod_eq_of_lt h4,
      Nat.mod_eq_of_lt h3, length_flatMap_leBytes, bind, Except.bind, pure, Except.pure]
  | DrawIndexed hdr vbs =>
    obtain ⟨h1, h2, h3⟩ := hr
    simp only at hlen
    have hs : headerField (NullCmd.header L (.DrawIndexed hdr vbs))
        L.DrawIndexed_numVertexBuffers = vbs.length :=
      headerField_writeField hdr _ _ (by rw [h1]; exact hdi) h2
    have h4 : vbs.length * L.sizeofPtr < L.sizeMod := by omega
    unfold ExecuteNullCommand
    simp only [NullCmd.opcode, if_neg (Ne.symm n15), if_neg (Ne.symm n25),
      if_neg (Ne.symm n35), if_neg (Ne.symm n45), if_true, NullCmd.payload,
      readField_header pre _ _ _
        (show L.DrawIndexed_numVertexBuffers.Inside _ by rw [hlen]; exact hdi),
      hs, hlen, NullCmd.ops, NullLayout.szAdd, NullLayout.szMul, Nat.mod_eq_of_lt h4,
      Nat.mod_eq_of_lt h3, length_flatMap_leBytes, bind, Except.bind, pure, Except.pure]
  | PushDebugGroup hdr name =>
    obtain ⟨h1, h2, h3⟩ := hr
    simp only at hlen
    have hs : headerField (NullCmd.header L (.PushDebugGroup hdr name))
        L.PushDebugGroup_length = name.length :=
      headerField_writeField hdr _ _ (by rw [h1]; exact hpd) h2
    have h4 : L.sizeofCmdPushDebugGroup + name.length < L.sizeMod := by omega
    have h5 : L.sizeofCmdPushDebugGroup + (name.length + 1) < L.sizeMod := by omega
    unfold ExecuteNullCommand
    simp only [NullCmd.opcode, if_neg (Ne.symm n16), if_neg (Ne.symm n26),
      if_neg (Ne.symm n36), if_neg (Ne.symm n46), if_neg (Ne.symm n56), if_true,
      NullCmd.payload,
      readField_header pre _ _ _ (show L.PushDebugGroup_length.Inside _ by rw [hlen]; exact hpd),
      hs, hlen, NullCmd.ops, NullLayout.szAdd, Nat.mod_eq_of_lt h4,
      Nat.mod_eq_of_lt h5, List.length_append, List.length_singleton, Nat.add_assoc, bind,
      Except.bind, pure, Except.pure]
  | PopDebugGroup =>
    unfold ExecuteNullCommand
    simp only [NullCmd.opcode, if_neg (Ne.symm n17), if_neg (Ne.symm n27),
      if_neg (Ne.symm n37), if_neg (Ne.symm n47), if_neg (Ne.symm n57), if_neg (Ne.symm n67),
      if_true, NullCmd.payload, NullCmd.header, NullCmd.ops, List.length_nil, pure, Except.pure]

theorem NullLayout.Valid.sizeofOpcode_pos {L : NullLayout} (hL : L.Valid) :
    0 < L.sizeofOpcode := by
  obtain ⟨hnd, hlt, -⟩ := hL
  rcases Nat.eq_zero_or_pos L.sizeofOpcode with h0 | h0
  · exfalso
    have h1 := hlt L.NullOpcodeBufferWrite (by simp [NullLayout.opcodes])
    have h2 := hlt L.NullOpcodeCopySubresource (by simp [NullLayout.opcodes])
    rw [h0] at h1 h2
    simp only [pow_zero, Nat.lt_one_iff] at h1 h2
    simp [NullLayout.opcodes, h1, h2] at hnd
  · exact h0

theorem NullCmd.opcode_mem (L : NullLayout) (r : NullCmd) : r.opcode L ∈ L.opcodes := by
  cases r <;> simp [NullCmd.opcode, NullLayout.opcodes]

theorem NullCmd.encode_length (L : NullLayout) (r : NullCmd) :
    (r.encode L).length = L.sizeofOpcode + ((r.header L).length + (r.payload L).length) := by
  simp [NullCmd.encode, leBytes_length]

theorem readField_opcode (L : NullLayout) (hL : L.Valid) (r : NullCmd) (pre post : List Nat) :
    readField (pre ++ (r.encode L ++ post)) pre.length ⟨0, L.sizeofOpcode⟩
      = .ok (r.opcode L) := by
  unfold NullCmd.encode
  rw [List.append_assoc, readField_header pre _ _ ⟨0, L.sizeofOpcode⟩
    (by simp [Field.Inside, leBytes_length])]
  simp only [headerField, List.drop_zero]
  have ht : List.take L.sizeofOpcode (leBytes L.sizeofOpcode (r.opcode L))
      = leBytes L.sizeofOpcode (r.opcode L) :=
    List.take_of_length_le (by rw [leBytes_length])
  rw [ht, leValue_leBytes_of_lt (hL.2.1 _ (r.opcode_mem L))]

theorem ExecuteNullChunkLoop_records (L : NullLayout) (hL : L.Valid) (rs : List NullCmd)
    (hrs : ∀ r ∈ rs, r.WellFormed L) :
    ∀ (pre : List Nat) (fuel : Nat), rs.length ≤ fuel →
      ExecuteNullChunkLoop L (pre ++ encodeChunk L rs) fuel pre.length
        = .ok ⟨rs.flatMap (NullCmd.ops L), recordStarts L pre.length rs⟩ := by
  induction rs with
  | nil =>
    intro pre fuel _
    cases fuel <;> simp [ExecuteNullChunkLoop, encodeChunk, recordStarts]
  | cons r rs ih =>
    intro pre fuel hfuel
    have hr : r.WellFormed L := hrs r (List.mem_cons_self _ _)
    have hrs' : ∀ x ∈ rs, x.WellFormed L := fun x hx => hrs x (List.mem_cons_of_mem _ hx)
    obtain ⟨f, rfl⟩ : ∃ f, fuel = f + 1 := ⟨fuel - 1, by simp at hfuel; omega⟩
    have hpos := hL.sizeofOpcode_pos
    have hmem : encodeChunk L (r :: rs) = r.encode L ++ encodeChunk L rs := by
      simp [encodeChunk]
    have hlt : pre.length < (pre ++ encodeChunk L (r :: rs)).length := by
      rw [hmem]; simp only [List.length_append, NullCmd.encode_length]; omega
    have hcmd := ExecuteNullCommand_record L hL r hr
      (pre ++ leBytes L.sizeofOpcode (r.opcode L)) (encodeChunk L rs)
    have hrest := ih hrs' (pre ++ r.encode L) f (by simp at hfuel; omega)
    simp only [List.length_append, leBytes_length, List.append_assoc] at hcmd hrest
    rw [ExecuteNullChunkLoop, if_pos hlt, hmem, readField_opcode L hL r pre _]
    simp only [NullCmd.encode, List.append_assoc, bind, Except.bind, hcmd]
    simp only [NullCmd.encode, List.append_assoc, List.length_append, leBytes_length,
      Nat.add_assoc] at hrest
    simp only [Nat.add_assoc, hrest, pure, Except.pure, List.flatMap_cons, recordStarts,
      NullCmd.encode, List.length_append, leBytes_length]

theorem length_le_encodeChunk (L : NullLayout) (hL : L.Valid) (rs : List NullCmd) :
    rs.length ≤ (encodeChunk L rs).length := by
  have hpos := hL.sizeofOpcode_pos
  induction rs with
  | nil => simp
  | cons r rs ih =>
    simp only [encodeChunk, List.flatMap_cons, List.length_append, List.length_cons,
      NullCmd.encode_length] at ih ⊢
    omega

theorem ExecuteNullChunk_records (L : NullLayout) (hL : L.Valid) (rs : List NullCmd)
    (hrs : ∀ r ∈ rs, r.WellFormed L) :
    ExecuteNullChunk L (encodeChunk L rs)
      = .ok ⟨rs.flatMap (NullCmd.ops L), recordStarts L 0 rs⟩ := by
  have h := ExecuteNullChunkLoop_records L hL rs hrs [] (encodeChunk L rs).length
    (length_le_encodeChunk L hL rs)
  simpa [ExecuteNullChunk] using h

theorem ExecuteNullVirtualCommandBuffer_records (L : NullLayout) (hL : L.Valid)
    (css : List (List NullCmd)) (hcss : ∀ rs ∈ css, ∀ r ∈ rs, r.WellFormed L) :
    ExecuteNullVirtualCommandBuffer L (css.map (encodeChunk L))
      = .ok (css.flatten.flatMap (NullCmd.ops L), css.map (recordStarts L 0)) := by
  induction css with
  | nil => rfl
  | cons rs css ih =>
    have h1 := ExecuteNullChunk_records L hL rs (hcss rs (List.mem_cons_self _ _))
    have h2 := ih (fun x hx => hcss x (List.mem_cons_of_mem _ hx))
    simp only [List.map_cons, ExecuteNullVirtualCommandBuffer, h1, h2, bind, Except.bind, pure,
      Except.pure, List.flatten_cons, List.flatMap_append]

theorem recordStarts_getLast (L : NullLayout) (rs : List NullCmd) (pos : Nat) :
    (recordStarts L pos rs).getLast? = some (pos + (encodeChunk L rs).length) := by
  induction rs generalizing pos with
  | nil => simp [recordStarts, encodeChunk]
  | cons r rs ih =>
    have ih' := ih (pos + (r.encode L).length)
    obtain ⟨t, ht⟩ : ∃ t, recordStarts L (pos + (r.encode L).length) rs
        = (pos + (r.encode L).length) :: t := by
      cases rs <;> simp [recordStarts]
    rw [ht] at ih'
    rw [recordStarts, ht, List.getLast?_cons_cons, ih']
    simp [encodeChunk, Nat.add_assoc]

/-- C1: when every chunk of a virtual command buffer holds well-formed records back to
back, `ExecuteNullVirtualCommandBuffer` succeeds and the values its program counter
takes at the loop condition are, for every chunk, exactly the offsets of the first
byte of each record in order followed by the offset of the chunk end: it never stops
inside a record and never skips a byte. -/
theorem ExecuteNullVirtualCommandBuffer_pc_exact (L : NullLayout) (hL : L.Valid)
    (css : List (List NullCmd)) (hcss : ∀ rs ∈ css, ∀ r ∈ rs, r.WellFormed L) :
    (ExecuteNullVirtualCommandBuffer L (css.map (encodeChunk L))).map Prod.snd
        = .ok (css.map (recordStarts L 0)) ∧
      ∀ rs ∈ css, (recordStarts L 0 rs).getLast? = some (encodeChunk L rs).length := by
  constructor
  · rw [ExecuteNullVirtualCommandBuffer_records L hL css hcss]; rfl
  · intro rs _
    simpa using recordStarts_getLast L rs 0

/-- Witness for C1: a buffer of two chunks on the 64-bit layout, with a buffer write, a
debug-group pop, a draw with one vertex buffer and a debug-group push. -/
theorem ExecuteNullVirtualCommandBuffer_pc_exact_witness :
    (ExecuteNullVirtualCommandBuffer layout64
        ([[NullCmd.BufferWrite (List.replicate 24 0) [1, 2, 3], NullCmd.PopDebugGroup],
          [NullCmd.Draw (List.replicate 24 0) [7], NullCmd.PushDebugGroup (List.replicate 8 0)
            [65, 66]]].map (encodeChunk layout64))).map Prod.snd
        = .ok ([[NullCmd.BufferWrite (List.replicate 24 0) [1, 2, 3], NullCmd.PopDebugGroup],
          [NullCmd.Draw (List.replicate 24 0) [7], NullCmd.PushDebugGroup (List.replicate 8 0)
            [65, 66]]].map (recordStarts layout64 0)) ∧
      ∀ rs ∈ [[NullCmd.BufferWrite (List.replicate 24 0) [1, 2, 3], NullCmd.PopDebugGroup],
          [NullCmd.Draw (List.replicate 24 0) [7], NullCmd.PushDebugGroup (List.replicate 8 0)
            [65, 66]]],
        (recordStarts layout64 0 rs).getLast? = some (encodeChunk layout64 rs).length :=
  ExecuteNullVirtualCommandBuffer_pc_exact layout64 (by decide) _ (by decide)

/-- C2, as stated, fails: on the 64-bit layout the opcode value 200 has no handler, and
replaying a chunk that starts with it does not fail; the interpreter goes on with the
byte after the tag and performs the mip-map generation recorded there. -/
theorem ExecuteNullVirtualCommandBuffer_unhandled_opcode_continues :
    200 ∉ layout64.opcodes ∧
      ExecuteNullVirtualCommandBuffer layout64
        [[200] ++ NullCmd.encode layout64 (NullCmd.GenerateMips
          (leBytes 8 99 ++ leBytes 4 1 ++ leBytes 4 2 ++ leBytes 4 3 ++ leBytes 4 4))]
        = .ok ([NullOp.GenerateMips 99 1 2 3 4], [[0, 1, 26]]) :=
  ⟨by decide, rfl⟩

/-- C2, amended: for an opcode value without a handler `ExecuteNullCommand` performs no
backend operation and reports size 0 without failing, so the loop of
`ExecuteNullVirtualCommandBuffer` goes on decoding at the byte right after the opcode
tag. -/
theorem ExecuteNullCommand_unhandled_opcode (L : NullLayout) (mem : List Nat)
    (opcode pc fuel : Nat) (h : opcode ∉ L.opcodes) (hpc : pc < mem.length)
    (hop : readField mem pc ⟨0, L.sizeofOpcode⟩ = .ok opcode) :
    ExecuteNullCommand L mem opcode (pc + L.sizeofOpcode) = .ok ([], 0) ∧
      ExecuteNullChunkLoop L mem (fuel + 1) pc
        = (ExecuteNullChunkLoop L mem fuel (pc + L.sizeofOpcode)).map
            (fun r => ⟨r.ops, pc :: r.pcs⟩) := by
  simp only [NullLayout.opcodes, List.mem_cons, List.mem_singleton, List.not_mem_nil,
    or_false, not_or] at h
  obtain ⟨h1, h2, h3, h4, h5, h6, h7⟩ := h
  have hcmd : ∀ pc', ExecuteNullCommand L mem opcode pc' = .ok ([], 0) := by
    intro pc'
    unfold ExecuteNullCommand
    simp only [if_neg h1, if_neg h2, if_neg h3, if_neg h4, if_neg h5, if_neg h6, if_neg h7]
    rfl
  refine ⟨hcmd _, ?_⟩
  rw [ExecuteNullChunkLoop, if_pos hpc, hop]
  simp only [bind, Except.bind, hcmd, Nat.add_zero, List.nil_append]
  cases ExecuteNullChunkLoop L mem fuel (pc + L.sizeofOpcode) <;> rfl

/-- Witness for the amended C2: opcode value 200 at the start of a two-byte chunk. -/
theorem ExecuteNullCommand_unhandled_opcode_witness :
    ExecuteNullCommand layout64 [200, 7] 200 (0 + layout64.sizeofOpcode) = .ok ([], 0) ∧
      ExecuteNullChunkLoop layout64 [200, 7] (1 + 1) 0
        = (ExecuteNullChunkLoop layout64 [200, 7] 1 (0 + layout64.sizeofOpcode)).map
            (fun r => ⟨r.ops, 0 :: r.pcs⟩) :=
  ExecuteNullCommand_unhandled_opcode layout64 [200, 7] 200 0 1 (by decide) (by decide) rfl

/-- C8: two ways of splitting the same sequence of well-formed records into chunks at
record boundaries are replayed by `ExecuteNullVirtualCommandBuffer` with the same
backend operations, with the same arguments, in the same order: in both cases exactly
the operations of the records in sequence order. -/
theorem ExecuteNullVirtualCommandBuffer_chunk_split (L : NullLayout) (hL : L.Valid)
    (css₁ css₂ : List (List NullCmd)) (hwf : ∀ r ∈ css₁.flatten, r.WellFormed L)
    (hsplit : css₁.flatten = css₂.flatten) :
    (ExecuteNullVirtualCommandBuffer L (css₁.map (encodeChunk L))).map Prod.fst
        = .ok (css₁.flatten.flatMap (NullCmd.ops L)) ∧
      (ExecuteNullVirtualCommandBuffer L (css₂.map (encodeChunk L))).map Prod.fst
        = .ok (css₁.flatten.flatMap (NullCmd.ops L)) := by
  have h₁ : ∀ rs ∈ css₁, ∀ r ∈ rs, r.WellFormed L :=
    fun rs hrs r hr => hwf r (List.mem_flatten.mpr ⟨rs, hrs, hr⟩)
  have h₂ : ∀ rs ∈ css₂, ∀ r ∈ rs, r.WellFormed L :=
    fun rs hrs r hr => hwf r (hsplit ▸ List.mem_flatten.mpr ⟨rs, hrs, hr⟩)
  rw [ExecuteNullVirtualCommandBuffer_records L hL css₁ h₁,
    ExecuteNullVirtualCommandBuffer_records L hL css₂ h₂, hsplit]
  exact ⟨rfl, rfl⟩

/-- Witness for C8: a buffer write, a mip-map generation and a draw, recorded into one
chunk and recorded with a chunk boundary after the first record. -/
theorem ExecuteNullVirtualCommandBuffer_chunk_split_witness :
    (ExecuteNullVirtualCommandBuffer layout64
        ([[NullCmd.BufferWrite (List.replicate 24 1) [1, 2, 3],
          NullCmd.GenerateMips (List.replicate 24 2),
          NullCmd.Draw (List.replicate 24 0) [7]]].map (encodeChunk layout64))).map Prod.fst
        = .ok ([[NullCmd.BufferWrite (List.replicate 24 1) [1, 2, 3],
          NullCmd.GenerateMips (List.replicate 24 2),
          NullCmd.Draw (List.replicate 24 0) [7]]].flatten.flatMap (NullCmd.ops layout64)) ∧
      (ExecuteNullVirtualCommandBuffer layout64
        ([[NullCmd.BufferWrite (List.replicate 24 1) [1, 2, 3]],
          [NullCmd.GenerateMips (List.replicate 24 2),
            NullCmd.Draw (List.replicate 24 0) [7]]].map (encodeChunk layout64))).map Prod.fst
        = .ok ([[NullCmd.BufferWrite (List.replicate 24 1) [1, 2, 3],
          NullCmd.GenerateMips (List.replicate 24 2),
          NullCmd.Draw (List.replicate 24 0) [7]]].flatten.flatMap (NullCmd.ops layout64)) :=
  ExecuteNullVirtualCommandBuffer_chunk_split layout64 (by decide) _ _ (by decide) (by decide)

/-! ## Theorems: Direct3D 12 blend state -/

/-- C5: for a blend descriptor whose logic operation is not `Disabled`, both
`ConvertBlendDesc` overloads produce `IndependentBlendEnable = FALSE`, render target 0
with `LogicOpEnable = TRUE`, `BlendEnable = FALSE` and the mapped logic operation, and
every render target 1..7 in the default state (`BlendEnable` and `LogicOpEnable`
`FALSE`, `LogicOp` `NOOP`), whatever the flag `independentBlendEnabled` and the
per-target settings are. -/
theorem ConvertBlendDesc_logicOp (T : D3D12Types) (src : BlendDescriptor) (numAttachments : Nat)
    (renderPass : D3D12RenderPass) (h : src.logicOp ≠ LogicOp.Disabled) :
    ((ConvertBlendDesc T src numAttachments).1.IndependentBlendEnable = false ∧
      (ConvertBlendDesc T src numAttachments).1.RenderTarget 0
        = SetBlendDescToLogicOp (T.MapLogicOp src.logicOp) ∧
      ∀ i : Fin 8, 1 ≤ i.val →
        (ConvertBlendDesc T src numAttachments).1.RenderTarget i = SetBlendDescToDefault) ∧
    ((ConvertBlendDescRenderPass T src renderPass).1.IndependentBlendEnable = false ∧
      (ConvertBlendDescRenderPass T src renderPass).1.RenderTarget 0
        = SetBlendDescToLogicOp (T.MapLogicOp src.logicOp) ∧
      ∀ i : Fin 8, 1 ≤ i.val →
        (ConvertBlendDescRenderPass T src renderPass).1.RenderTarget i
          = SetBlendDescToDefault) ∧
    ((SetBlendDescToLogicOp (T.MapLogicOp src.logicOp)).LogicOpEnable = true ∧
      (SetBlendDescToLogicOp (T.MapLogicOp src.logicOp)).BlendEnable = false ∧
      (SetBlendDescToLogicOp (T.MapLogicOp src.logicOp)).LogicOp = T.MapLogicOp src.logicOp) ∧
    (SetBlendDescToDefault.BlendEnable = false ∧ SetBlendDescToDefault.LogicOpEnable = false ∧
      SetBlendDescToDefault.LogicOp = D3D12_LOGIC_OP_NOOP) := by
  refine ⟨⟨?_, ?_, ?_⟩, ⟨?_, ?_, ?_⟩, ⟨rfl, rfl, rfl⟩, ⟨rfl, rfl, rfl⟩⟩
  · simp [ConvertBlendDesc, h]
  · simp [ConvertBlendDesc, h]
  · intro i hi
    have : i.val ≠ 0 := by omega
    simp [ConvertBlendDesc, h, this]
  · simp [ConvertBlendDescRenderPass, h]
  · simp [ConvertBlendDescRenderPass, h]
  · intro i hi
    have : i.val ≠ 0 := by omega
    simp [ConvertBlendDescRenderPass, h, this]

/-- Witness for C5: logic operation `Op 6` with independent blending requested and
blending enabled on every target, for three attachments and for a render pass. -/
theorem ConvertBlendDesc_logicOp_witness :
    ((ConvertBlendDesc exampleTypes (exampleBlend (LogicOp.Op 6)) 3).1.IndependentBlendEnable
        = false ∧
      (ConvertBlendDesc exampleTypes (exampleBlend (LogicOp.Op 6)) 3).1.RenderTarget 0
        = SetBlendDescToLogicOp (exampleTypes.MapLogicOp (exampleBlend (LogicOp.Op 6)).logicOp) ∧
      ∀ i : Fin 8, 1 ≤ i.val →
        (ConvertBlendDesc exampleTypes (exampleBlend (LogicOp.Op 6)) 3).1.RenderTarget i
          = SetBlendDescToDefault) ∧
    ((ConvertBlendDescRenderPass exampleTypes (exampleBlend (LogicOp.Op 6))
        exampleRenderPass).1.IndependentBlendEnable = false ∧
      (ConvertBlendDescRenderPass exampleTypes (exampleBlend (LogicOp.Op 6))
        exampleRenderPass).1.RenderTarget 0
        = SetBlendDescToLogicOp (exampleTypes.MapLogicOp (exampleBlend (LogicOp.Op 6)).logicOp) ∧
      ∀ i : Fin 8, 1 ≤ i.val →
        (ConvertBlendDescRenderPass exampleTypes (exampleBlend (LogicOp.Op 6))
          exampleRenderPass).1.RenderTarget i = SetBlendDescToDefault) ∧
    ((SetBlendDescToLogicOp
        (exampleTypes.MapLogicOp (exampleBlend (LogicOp.Op 6)).logicOp)).LogicOpEnable = true ∧
      (SetBlendDescToLogicOp
        (exampleTypes.MapLogicOp (exampleBlend (LogicOp.Op 6)).logicOp)).BlendEnable = false ∧
      (SetBlendDescToLogicOp
        (exampleTypes.MapLogicOp (exampleBlend (LogicOp.Op 6)).logicOp)).LogicOp
        = exampleTypes.MapLogicOp (exampleBlend (LogicOp.Op 6)).logicOp) ∧
    (SetBlendDescToDefault.BlendEnable = false ∧ SetBlendDescToDefault.LogicOpEnable = false ∧
      SetBlendDescToDefault.LogicOp = D3D12_LOGIC_OP_NOOP) :=
  ConvertBlendDesc_logicOp exampleTypes (exampleBlend (LogicOp.Op 6)) 3 exampleRenderPass
    (by decide)

/-! ## Theorems: Direct3D 12 graphics PSO construction -/

/-- C7: for a descriptor whose `vertexShader` is null the constructor of
`D3D12GraphicsPSO` throws `std::invalid_argument` and leaves the device as it was (no
native pipeline state is created); hence a construction that succeeds was given a
vertex shader. -/
theorem D3D12GraphicsPSO_ctor_vertexShader (T : D3D12Types) (dev : D3D12Device)
    (defaultPipelineLayout : D3D12PipelineLayout) (desc : GraphicsPipelineDescriptor)
    (defaultRenderPass : Option D3D12RenderPass) (writer : Option Serializer) :
    (desc.vertexShader = none →
      D3D12GraphicsPSO.ctor T dev defaultPipelineLayout desc defaultRenderPass writer
        = (dev, .error (Error.InvalidArgument
            "cannot create D3D graphics pipeline without vertex shader"))) ∧
    (∀ dev' r,
      D3D12GraphicsPSO.ctor T dev defaultPipelineLayout desc defaultRenderPass writer
        = (dev', .ok r) → ∃ vs, desc.vertexShader = some vs) := by
  have h1 : desc.vertexShader = none →
      D3D12GraphicsPSO.ctor T dev defaultPipelineLayout desc defaultRenderPass writer
        = (dev, .error (Error.InvalidArgument
            "cannot create D3D graphics pipeline without vertex shader")) := by
    intro h
    unfold D3D12GraphicsPSO.ctor
    rw [if_pos h]
  refine ⟨h1, ?_⟩
  intro dev' r hok
  cases hvs : desc.vertexShader with
  | some vs => exact ⟨vs, rfl⟩
  | none =>
    rw [h1 hvs] at hok
    cases hok

/-- Witness for C7: the example descriptor without a vertex shader. -/
theorem D3D12GraphicsPSO_ctor_vertexShader_witness :
    D3D12GraphicsPSO.ctor exampleTypes exampleDevice exampleLayout (exampleDesc none [] [])
        none none
      = (exampleDevice, .error (Error.InvalidArgument
          "cannot create D3D graphics pipeline without vertex shader")) :=
  (D3D12GraphicsPSO_ctor_vertexShader exampleTypes exampleDevice exampleLayout
    (exampleDesc none [] []) none none).1 rfl

/-- C9: `CreatePipelineState(serializedCache)` first reads the leading segment. When
its identifier is the graphics-PSO marker, the reader, now positioned behind that
segment, is handed to the deserializing constructor of `D3D12GraphicsPSO`, whose
outcome is the outcome of the call; when the identifier is neither PSO-kind marker the
call traps and the render system is left as it was (no pipeline state registered). -/
theorem CreatePipelineStateFromCache_leading_segment (rs : D3D12RenderSystem) (seg : Segment)
    (rest : List Segment) :
    (seg.ident = D3D12Ident.GraphicsPSOIdent →
      rs.CreatePipelineStateFromCache (seg :: rest) =
        match D3D12GraphicsPSO.ctorFromCache rs.device_
            { remaining := rest, current := [], consumed := [D3D12Ident.GraphicsPSOIdent] } with
        | (dev, .error e) => ({ rs with device_ := dev }, .error e)
        | (dev, .ok pso) =>
          ({ rs with device_ := dev,
                     pipelineStates_ := rs.pipelineStates_ ++ [PipelineState.Graphics pso] },
            .ok (PipelineState.Graphics pso))) ∧
    (seg.ident ≠ D3D12Ident.GraphicsPSOIdent → seg.ident ≠ D3D12Ident.ComputePSOIdent →
      rs.CreatePipelineStateFromCache (seg :: rest) =
        (rs, .error (Error.Trap
          "serialized cache does not denote a D3D12 graphics or compute PSO"))) := by
  constructor
  · intro h
    simp [D3D12RenderSystem.CreatePipelineStateFromCache, Deserializer.ReadSegment, h]
  · intro h _
    simp [D3D12RenderSystem.CreatePipelineStateFromCache, Deserializer.ReadSegment, h]

/-- Witness for C9: a blob whose leading segment carries the root-signature
identifier. -/
theorem CreatePipelineStateFromCache_leading_segment_witness :
    exampleRenderSystem.CreatePipelineStateFromCache
        [⟨D3D12Ident.RootSignature, SegData.bytes [1, 2, 3]⟩,
          ⟨D3D12Ident.StaticState, SegData.bytes []⟩] =
      (exampleRenderSystem, .error (Error.Trap
        "serialized cache does not denote a D3D12 graphics or compute PSO")) :=
  (CreatePipelineStateFromCache_leading_segment exampleRenderSystem
    ⟨D3D12Ident.RootSignature, SegData.bytes [1, 2, 3]⟩
    [⟨D3D12Ident.StaticState, SegData.bytes []⟩]).2 (by decide) (by decide)

/-- C10 does not hold of the code: creating a compute PSO leaves the caller's blob
pointer as it was, whatever the constructor of the compute PSO does, so no serialized
blob is produced; and `CreatePipelineState` on a blob whose leading segment is the
compute-PSO marker traps and registers nothing. -/
theorem CreatePipelineState_compute_not_cached
    (computeCtor : D3D12Device → D3D12PipelineLayout → ComputePipelineDescriptor →
      D3D12Device × Except Error D3D12ComputePSO)
    (rs : D3D12RenderSystem) (desc : ComputePipelineDescriptor)
    (serializedCache : Option (Option Blob)) (data : SegData) (rest : List Segment) :
    (rs.CreatePipelineStateCompute computeCtor desc serializedCache).2.1 = serializedCache ∧
    rs.CreatePipelineStateFromCache (⟨D3D12Ident.ComputePSOIdent, data⟩ :: rest) =
      (rs, .error (Error.Trap
        "serialized cache does not denote a D3D12 graphics or compute PSO")) := by
  constructor
  · unfold D3D12RenderSystem.CreatePipelineStateCompute
    rcases computeCtor rs.device_ rs.defaultPipelineLayout_ desc with ⟨dev, r | r⟩ <;> rfl
  · simp [D3D12RenderSystem.CreatePipelineStateFromCache, Deserializer.ReadSegment]

/-! ## Theorems: Direct3D 12 serialization round trip -/

theorem foldl_WriteCString {α : Type} (name : α → List Nat) (els : List α) (w : Serializer)
    (ident : D3D12Ident) (b : List Nat) (h : w.current = some (ident, b)) :
    els.foldl (fun w e => w.WriteCString (name e)) w
      = { w with current := some (ident, b ++ els.flatMap (fun e => name e ++ [0])) } := by
  induction els generalizing w b with
  | nil => cases w; simp_all
  | cons e els ih =>
    simp only [List.foldl_cons, List.flatMap_cons]
    rw [ih (w.WriteCString (name e)) (b ++ (name e ++ [0]))
      (by simp [Serializer.WriteCString, Serializer.Write, h])]
    simp [Serializer.WriteCString, Serializer.Write, h]

theorem SerializeInputLayout_segments (w : Serializer)
    (stateDesc : D3D12_GRAPHICS_PIPELINE_STATE_DESC) (h : w.current = none) :
    SerializeInputLayout w stateDesc
      = { segments := w.segments ++ inputLayoutSegments stateDesc, current := none } := by
  unfold SerializeInputLayout inputLayoutSegments
  split
  · simp only []
    rw [foldl_WriteCString (fun e : D3D12_INPUT_ELEMENT_DESC => e.SemanticName) _ _
      D3D12Ident.InputSemanticNames [] (by simp [Serializer.Begin])]
    simp [Serializer.End, Serializer.Begin, Serializer.WriteSegment]
  · cases w; simp_all

theorem SerializeStreamOutput_segments (w : Serializer)
    (stateDesc : D3D12_GRAPHICS_PIPELINE_STATE_DESC) (h : w.current = none) :
    SerializeStreamOutput w stateDesc
      = { segments := w.segments ++ streamOutputSegments stateDesc, current := none } := by
  unfold SerializeStreamOutput streamOutputSegments
  split
  · simp only []
    rw [foldl_WriteCString (fun e : D3D12_SO_DECLARATION_ENTRY => e.SemanticName) _ _
      D3D12Ident.SOSemanticNames [] (by simp [Serializer.Begin])]
    simp [Serializer.End, Serializer.Begin, Serializer.WriteSegment]
  · cases w; simp_all

theorem SerializeBufferStrides_segments (w : Serializer)
    (stateDesc : D3D12_GRAPHICS_PIPELINE_STATE_DESC) (h : w.current = none) :
    SerializeBufferStrides w stateDesc
      = { segments := w.segments ++ bufferStridesSegments stateDesc, current := none } := by
  unfold SerializeBufferStrides bufferStridesSegments
  split
  · simp [Serializer.WriteSegment, h]
  · cases w; simp_all

theorem SerializeStaticState_segments (pso : D3D12GraphicsPSO) (w : Serializer) :
    pso.SerializeStaticState w
      = { segments := w.segments ++ [⟨D3D12Ident.StaticState, SegData.bytes pso.staticStateBytes⟩],
          current := none } := by
  unfold D3D12GraphicsPSO.SerializeStaticState D3D12GraphicsPSO.staticStateBytes
  split <;> simp [Serializer.End, Serializer.Begin, Serializer.Write]

theorem SerializePSO_segments (pso : D3D12GraphicsPSO) (w : Serializer)
    (stateDesc : D3D12_GRAPHICS_PIPELINE_STATE_DESC) (rootSignatureBlob psoCacheBlob : List Nat) :
    pso.SerializePSO w stateDesc rootSignatureBlob psoCacheBlob
      = { segments := w.segments ++
            serializedSegments pso stateDesc rootSignatureBlob psoCacheBlob,
          current := none } := by
  unfold D3D12GraphicsPSO.SerializePSO serializedSegments deserializePSOSegments
  simp only []
  rw [SerializeStaticState_segments, SerializeBufferStrides_segments,
    SerializeStreamOutput_segments, SerializeInputLayout_segments]
  · simp [D3D12WriteSegmentBytecode, D3D12WriteSegmentBlob, Serializer.WriteSegment,
      Serializer.Begin, Serializer.End]
  · simp [D3D12WriteSegmentBytecode, D3D12WriteSegmentBlob, Serializer.WriteSegment,
      Serializer.Begin, Serializer.End]
  · simp [SerializeInputLayout_segments, D3D12WriteSegmentBytecode, D3D12WriteSegmentBlob,
      Serializer.WriteSegment, Serializer.Begin, Serializer.End]
  · simp [SerializeInputLayout_segments, SerializeStreamOutput_segments, D3D12WriteSegmentBytecode,
      D3D12WriteSegmentBlob, Serializer.WriteSegment, Serializer.Begin, Serializer.End]

theorem ReadSegmentIdent_head (r : Deserializer) (ident : D3D12Ident) (data : SegData)
    (rest : List Segment) (h : r.remaining = ⟨ident, data⟩ :: rest) :
    r.ReadSegmentIdent ident
      = .ok (⟨ident, data⟩,
          { remaining := rest, current := [], consumed := r.consumed ++ [ident] }) := by
  simp [Deserializer.ReadSegmentIdent, Deserializer.ReadSegment, h, bind, Except.bind, pure,
    Except.pure]

theorem D3D12ReadSegmentBlob_head (r : Deserializer) (ident : D3D12Ident) (b : List Nat)
    (rest : List Segment) (h : r.remaining = ⟨ident, SegData.bytes b⟩ :: rest) :
    D3D12ReadSegmentBlob r ident
      = .ok (b, { remaining := rest, current := [], consumed := r.consumed ++ [ident] }) := by
  simp [D3D12ReadSegmentBlob, ReadSegmentIdent_head r ident _ rest h, bind, Except.bind, pure,
    Except.pure]

theorem D3D12ReadSegmentBytecode_head (r : Deserializer) (ident : D3D12Ident) (b : List Nat)
    (rest : List Segment) (h : r.remaining = ⟨ident, SegData.bytes b⟩ :: rest) :
    D3D12ReadSegmentBytecode r ident
      = .ok (b, { remaining := rest, current := [], consumed := r.consumed ++ [ident] }) := by
  simp [D3D12ReadSegmentBytecode, ReadSegmentIdent_head r ident _ rest h, bind, Except.bind,
    pure, Except.pure]

theorem Begin_head (r : Deserializer) (ident : D3D12Ident) (b : List Nat)
    (rest : List Segment) (h : r.remaining = ⟨ident, SegData.bytes b⟩ :: rest) :
    r.Begin ident
      = .ok { remaining := rest, current := b, consumed := r.consumed ++ [ident] } := by
  simp [Deserializer.Begin, ReadSegmentIdent_head r ident _ rest h, bind, Except.bind, pure,
    Except.pure]

theorem Read_append (r : Deserializer) (a rest : List Nat) (n : Nat) (hn : a.length = n)
    (h : r.current = a ++ rest) :
    r.Read n = .ok (a, { r with current := rest }) := by
  subst hn
  simp [Deserializer.Read, h, pure, Except.pure]

theorem splitCString_append (name rest : List Nat) (h : 0 ∉ name) :
    splitCString (name ++ [0] ++ rest) = some (name, rest) := by
  induction name with
  | nil => simp [splitCString]
  | cons c name ih =>
    have hc : c ≠ 0 := by intro h0; apply h; simp [h0]
    have hn : 0 ∉ name := by intro h0; apply h; simp [h0]
    have ih' := ih hn
    simp only [List.append_assoc, List.cons_append, List.nil_append] at ih' ⊢
    simp [splitCString, hc, ih']

theorem ReadCStrings_flatMap (names : List (List Nat)) (hnames : ∀ name ∈ names, 0 ∉ name)
    (r : Deserializer) (rest : List Nat)
    (h : r.current = names.flatMap (fun name => name ++ [0]) ++ rest) :
    r.ReadCStrings names.length = .ok (names, { r with current := rest }) := by
  induction names generalizing r with
  | nil =>
    simp only [List.flatMap_nil, List.nil_append] at h
    cases r
    simp_all [Deserializer.ReadCStrings, pure, Except.pure]
  | cons name names ih =>
    have h1 : 0 ∉ name := hnames name (List.mem_cons_self _ _)
    have h2 : ∀ x ∈ names, 0 ∉ x := fun x hx => hnames x (List.mem_cons_of_mem _ hx)
    have hsplit : splitCString r.current
        = some (name, names.flatMap (fun name => name ++ [0]) ++ rest) := by
      rw [h, List.flatMap_cons, List.append_assoc]
      exact splitCString_append name _ h1
    have ih' := ih h2 { r with current := names.flatMap (fun name => name ++ [0]) ++ rest } rfl
    simp only [List.length_cons, Deserializer.ReadCStrings, Deserializer.ReadCString, hsplit,
      bind, Except.bind, pure, Except.pure, ih']

theorem zipWith_image_inputElements (els : List D3D12_INPUT_ELEMENT_DESC) :
    List.zipWith (fun (e : D3D12_INPUT_ELEMENT_DESC) name => { e with SemanticName := name })
      (els.map D3D12_INPUT_ELEMENT_DESC.image) (els.map (fun e => e.SemanticName)) = els := by
  induction els with
  | nil => rfl
  | cons e els ih =>
    simp only [List.map_cons, List.zipWith_cons_cons, ih]
    rfl

theorem zipWith_image_soDeclEntries (els : List D3D12_SO_DECLARATION_ENTRY) :
    List.zipWith (fun (e : D3D12_SO_DECLARATION_ENTRY) name => { e with SemanticName := name })
      (els.map D3D12_SO_DECLARATION_ENTRY.image) (els.map (fun e => e.SemanticName)) = els := by
  induction els with
  | nil => rfl
  | cons e els ih =>
    simp only [List.map_cons, List.zipWith_cons_cons, ih]
    rfl

theorem ReadCStrings_names {α : Type} (name : α → List Nat) (els : List α) (n : Nat)
    (hn : els.length = n) (hnames : ∀ e ∈ els, 0 ∉ name e) (r : Deserializer)
    (h : r.current = els.flatMap (fun e => name e ++ [0])) :
    r.ReadCStrings n = .ok (els.map name, { r with current := [] }) := by
  have h' : r.current = (els.map name).flatMap (fun nm => nm ++ [0]) ++ [] := by
    rw [h, List.append_nil, List.flatMap_map]
  have := ReadCStrings_flatMap (els.map name)
    (by intro nm hnm; obtain ⟨e, he, rfl⟩ := List.mem_map.mp hnm; exact hnames e he) r [] h'
  rw [List.length_map, hn] at this
  exact this

theorem DeserializeInputLayout_segments (sd0 : D3D12_GRAPHICS_PIPELINE_STATE_DESC) (r : Deserializer)
    (sd : D3D12_GRAPHICS_PIPELINE_STATE_DESC) (rest : List Segment)
    (hn : sd.InputLayout.NumElements = sd0.InputLayout.NumElements)
    (hlen : sd0.InputLayout.NumElements ≤ sd0.InputLayout.pInputElementDescs.length)
    (hnames : ∀ e ∈ sd0.InputLayout.pInputElementDescs, 0 ∉ e.SemanticName)
    (hcur : r.current = []) (hrem : r.remaining = inputLayoutSegments sd0 ++ rest) :
    DeserializeInputLayout r sd
      = .ok ({ sd with InputLayout := { sd.InputLayout with
                pInputElementDescs :=
                  if sd0.InputLayout.NumElements > 0 then
                    sd0.InputLayout.pInputElementDescs.take sd0.InputLayout.NumElements
                  else sd.InputLayout.pInputElementDescs } },
              { remaining := rest, current := [],
                consumed := r.consumed ++ (inputLayoutSegments sd0).map Segment.ident }) := by
  unfold DeserializeInputLayout
  unfold inputLayoutSegments at hrem ⊢
  by_cases hpos : sd0.InputLayout.NumElements > 0
  · rw [if_pos hpos] at hrem
    have hpos' : sd.InputLayout.NumElements > 0 := by rw [hn]; exact hpos
    have htake : (sd0.InputLayout.pInputElementDescs.take sd0.InputLayout.NumElements).length
        = sd0.InputLayout.NumElements := by
      rw [List.length_take]; omega
    have hnames' : ∀ e ∈ sd0.InputLayout.pInputElementDescs.take sd0.InputLayout.NumElements,
        0 ∉ e.SemanticName := fun e he => hnames e (List.mem_of_mem_take he)
    simp only [List.cons_append, List.nil_append] at hrem
    rw [if_pos hpos', if_pos hpos]
    simp only [ReadSegmentIdent_head r _ _ _ hrem, bind, Except.bind, List.length_map, htake, hn,
      if_true, pure, Except.pure]
    rw [Begin_head _ D3D12Ident.InputSemanticNames _ rest rfl]
    simp only []
    rw [ReadCStrings_names (fun e : D3D12_INPUT_ELEMENT_DESC => e.SemanticName) _ _ htake hnames'
      _ rfl]
    simp only [zipWith_image_inputElements, Deserializer.End, List.map_cons, List.map_nil,
      List.append_assoc, List.singleton_append, if_pos hpos]
  · rw [if_neg hpos] at hrem
    have hpos' : ¬ sd.InputLayout.NumElements > 0 := by rw [hn]; exact hpos
    rw [if_neg hpos', if_neg hpos]
    simp only [if_neg hpos, List.map_nil, List.append_nil, pure, Except.pure]
    obtain ⟨rem, cur, con⟩ := r
    simp only [List.nil_append] at hcur hrem
    subst hcur hrem
    rfl

theorem DeserializeStreamOutput_segments (sd0 : D3D12_GRAPHICS_PIPELINE_STATE_DESC) (r : Deserializer)
    (sd : D3D12_GRAPHICS_PIPELINE_STATE_DESC) (rest : List Segment)
    (hn : sd.StreamOutput.NumEntries = sd0.StreamOutput.NumEntries)
    (hlen : sd0.StreamOutput.NumEntries ≤ sd0.StreamOutput.pSODeclaration.length)
    (hnames : ∀ e ∈ sd0.StreamOutput.pSODeclaration, 0 ∉ e.SemanticName)
    (hcur : r.current = []) (hrem : r.remaining = streamOutputSegments sd0 ++ rest) :
    DeserializeStreamOutput r sd
      = .ok ({ sd with StreamOutput := { sd.StreamOutput with
                pSODeclaration :=
                  if sd0.StreamOutput.NumEntries > 0 then
                    sd0.StreamOutput.pSODeclaration.take sd0.StreamOutput.NumEntries
                  else sd.StreamOutput.pSODeclaration } },
              { remaining := rest, current := [],
                consumed := r.consumed ++ (streamOutputSegments sd0).map Segment.ident }) := by
  unfold DeserializeStreamOutput
  unfold streamOutputSegments at hrem ⊢
  by_cases hpos : sd0.StreamOutput.NumEntries > 0
  · rw [if_pos hpos] at hrem
    have hpos' : sd.StreamOutput.NumEntries > 0 := by rw [hn]; exact hpos
    have htake : (sd0.StreamOutput.pSODeclaration.take sd0.StreamOutput.NumEntries).length
        = sd0.StreamOutput.NumEntries := by
      rw [List.length_take]; omega
    have hnames' : ∀ e ∈ sd0.StreamOutput.pSODeclaration.take sd0.StreamOutput.NumEntries,
        0 ∉ e.SemanticName := fun e he => hnames e (List.mem_of_mem_take he)
    simp only [List.cons_append, List.nil_append] at hrem
    rw [if_pos hpos', if_pos hpos]
    simp only [ReadSegmentIdent_head r _ _ _ hrem, bind, Except.bind, List.length_map, htake, hn,
      if_true, pure, Except.pure]
    rw [Begin_head _ D3D12Ident.SOSemanticNames _ rest rfl]
    simp only []
    rw [ReadCStrings_names (fun e : D3D12_SO_DECLARATION_ENTRY => e.SemanticName) _ _ htake
      hnames' _ rfl]
    simp only [zipWith_image_soDeclEntries, Deserializer.End, List.map_cons, List.map_nil,
      List.append_assoc, List.singleton_append, if_pos hpos]
  · rw [if_neg hpos] at hrem
    have hpos' : ¬ sd.StreamOutput.NumEntries > 0 := by rw [hn]; exact hpos
    rw [if_neg hpos', if_neg hpos]
    simp only [if_neg hpos, List.map_nil, List.append_nil, pure, Except.pure]
    obtain ⟨rem, cur, con⟩ := r
    simp only [List.nil_append] at hcur hrem
    subst hcur hrem
    rfl

theorem DeserializeBufferStrides_segments (sd0 : D3D12_GRAPHICS_PIPELINE_STATE_DESC) (r : Deserializer)
    (sd : D3D12_GRAPHICS_PIPELINE_STATE_DESC) (rest : List Segment)
    (hn : sd.StreamOutput.NumStrides = sd0.StreamOutput.NumStrides)
    (hlen : sd0.StreamOutput.NumStrides ≤ sd0.StreamOutput.pBufferStrides.length)
    (hcur : r.current = []) (hrem : r.remaining = bufferStridesSegments sd0 ++ rest) :
    DeserializeBufferStrides r sd
      = .ok ({ sd with StreamOutput := { sd.StreamOutput with
                pBufferStrides :=
                  if sd0.StreamOutput.NumStrides > 0 then
                    (List.range sd0.StreamOutput.NumStrides).map (fun i => leValue
                      ((((sd0.StreamOutput.pBufferStrides.take
                        sd0.StreamOutput.NumStrides).flatMap (leBytes 4)).drop (4 * i)).take 4))
                  else sd.StreamOutput.pBufferStrides } },
              { remaining := rest, current := [],
                consumed := r.consumed ++ (bufferStridesSegments sd0).map Segment.ident }) := by
  unfold DeserializeBufferStrides
  unfold bufferStridesSegments at hrem ⊢
  by_cases hpos : sd0.StreamOutput.NumStrides > 0
  · rw [if_pos hpos] at hrem
    have hpos' : sd.StreamOutput.NumStrides > 0 := by rw [hn]; exact hpos
    have htake : (sd0.StreamOutput.pBufferStrides.take sd0.StreamOutput.NumStrides).length
        = sd0.StreamOutput.NumStrides := by
      rw [List.length_take]; omega
    simp only [List.cons_append, List.nil_append] at hrem
    rw [if_pos hpos', if_pos hpos]
    simp only [ReadSegmentIdent_head r _ _ _ hrem, bind, Except.bind, length_flatMap_leBytes,
      htake, hn, if_true, pure, Except.pure, List.map_cons, List.map_nil, if_pos hpos]
  · rw [if_neg hpos] at hrem
    have hpos' : ¬ sd.StreamOutput.NumStrides > 0 := by rw [hn]; exact hpos
    rw [if_neg hpos', if_neg hpos]
    simp only [if_neg hpos, List.map_nil, List.append_nil, pure, Except.pure]
    obtain ⟨rem, cur, con⟩ := r
    simp only [List.nil_append] at hcur hrem
    subst hcur hrem
    rfl

theorem Read_mk (rem : List Segment) (a rest : List Nat) (con : List D3D12Ident) (n : Nat)
    (hn : a.length = n) :
    Deserializer.Read { remaining := rem, current := a ++ rest, consumed := con } n
      = .ok (a, { remaining := rem, current := rest, consumed := con }) :=
  Read_append _ a rest n hn rfl

theorem leValue_drop_take_flatMap (w : Nat) (vs : List Nat) (hvs : ∀ v ∈ vs, v < 256 ^ w)
    (i : Nat) (hi : i < vs.length) :
    leValue (((vs.flatMap (leBytes w)).drop (w * i)).take w) = vs.getD i 0 := by
  induction vs generalizing i with
  | nil => simp at hi
  | cons v vs ih =>
    cases i with
    | zero =>
      simp only [List.flatMap_cons, Nat.mul_zero, List.drop_zero, List.getD_cons_zero]
      rw [take_append_of_length _ _ _ (leBytes_length _ _),
        leValue_leBytes_of_lt (hvs v (List.mem_cons_self _ _))]
    | succ k =>
      have hk : k < vs.length := by simp at hi; omega
      have := ih (fun x hx => hvs x (List.mem_cons_of_mem _ hx)) k hk
      simp only [List.flatMap_cons, List.getD_cons_succ]
      rw [show w * (k + 1) = (leBytes w v).length + w * k by rw [leBytes_length]; ring,
        List.drop_append, this]

theorem leValue_boolByte (b : Bool) : decide (leValue [boolByte b] ≠ 0) = b := by
  cases b <;> simp [leValue, boolByte]

theorem length_flatMap_ofFn4 (f : Fin 4 → Nat) :
    ((List.ofFn f).flatMap (leBytes 4)).length = 16 := by
  rw [length_flatMap_leBytes, List.length_ofFn]

theorem blendFactor_roundtrip (f : Fin 4 → Nat) (hf : ∀ i, f i < UINT_SIZE) :
    (fun i : Fin 4 => leValue ((((List.ofFn f).flatMap (leBytes 4)).drop (4 * i.val)).take 4))
      = f := by
  funext i
  have hvs : ∀ v ∈ List.ofFn f, v < 256 ^ 4 := by
    intro v hv
    obtain ⟨j, rfl⟩ := (List.mem_ofFn f v).mp hv
    have := hf j
    simpa [UINT_SIZE] using this
  rw [leValue_drop_take_flatMap 4 (List.ofFn f) hvs i.val (by simp)]
  rw [List.getD_eq_getElem?_getD, List.getElem?_ofFn]
  simp [List.ofFnNthVal, i.isLt]

theorem DeserializeStaticState_bytes (pso₀ pso : D3D12GraphicsPSO) (hwf : pso.StaticWellFormed)
    (r : Deserializer) (rest : List Segment)
    (hrem : r.remaining = ⟨D3D12Ident.StaticState, SegData.bytes pso.staticStateBytes⟩ :: rest) :
    pso₀.DeserializeStaticState r
      = .ok ({ pso₀ with
                primitiveTopology_ := pso.primitiveTopology_
                blendFactorEnabled_ := pso.blendFactorEnabled_
                blendFactor_ := pso.blendFactor_
                stencilRefEnabled_ := pso.stencilRefEnabled_
                stencilRef_ := pso.stencilRef_
                scissorEnabled_ := pso.scissorEnabled_
                numStaticViewports_ := pso.numStaticViewports_
                numStaticScissors_ := pso.numStaticScissors_
                staticStateBuffer_ :=
                  if pso.numStaticViewports_ > 0 ∨ pso.numStaticScissors_ > 0 then
                    pso.staticStateBuffer_
                  else pso₀.staticStateBuffer_ },
              { remaining := rest, current := [],
                consumed := r.consumed ++ [D3D12Ident.StaticState] }) := by
  obtain ⟨htopo, href, hbf, hnv, hns, hbuf⟩ := hwf
  have h32 : UINT_SIZE = 256 ^ 4 := by norm_num [UINT_SIZE]
  rw [h32] at htopo href hnv hns
  unfold D3D12GraphicsPSO.DeserializeStaticState
  rw [Begin_head r _ _ rest hrem]
  unfold D3D12GraphicsPSO.staticStateBytes
  simp only [bind, Except.bind]
  rw [Read_mk _ (leBytes 4 pso.primitiveTopology_) _ _ 4 (leBytes_length _ _)]
  simp only []
  rw [Read_mk _ [boolByte pso.blendFactorEnabled_] _ _ 1 rfl]
  simp only []
  rw [Read_mk _ ((List.ofFn pso.blendFactor_).flatMap (leBytes 4)) _ _ 16
    (length_flatMap_ofFn4 _)]
  simp only []
  rw [Read_mk _ [boolByte pso.stencilRefEnabled_] _ _ 1 rfl]
  simp only []
  rw [Read_mk _ (leBytes 4 pso.stencilRef_) _ _ 4 (leBytes_length _ _)]
  simp only []
  rw [Read_mk _ [boolByte pso.scissorEnabled_] _ _ 1 rfl]
  simp only []
  rw [Read_mk _ (leBytes 4 pso.numStaticViewports_) _ _ 4 (leBytes_length _ _)]
  simp only []
  rw [Read_mk _ (leBytes 4 pso.numStaticScissors_) _ _ 4 (leBytes_length _ _)]
  simp only [leValue_leBytes_of_lt htopo, leValue_leBytes_of_lt href, leValue_leBytes_of_lt hnv,
    leValue_leBytes_of_lt hns, leValue_boolByte, blendFactor_roundtrip _ hbf]
  by_cases hcnt : pso.numStaticViewports_ > 0 ∨ pso.numStaticScissors_ > 0
  · rw [if_pos hcnt] at hbuf
    obtain ⟨b, hb, hblen⟩ : ∃ b, pso.staticStateBuffer_ = some b ∧
        b.length = GetStaticStateBufferSize pso.numStaticViewports_ pso.numStaticScissors_ := by
      cases hsb : pso.staticStateBuffer_ with
      | none => rw [hsb] at hbuf; simp at hbuf
      | some b => rw [hsb] at hbuf; simp at hbuf; exact ⟨b, rfl, hbuf⟩
    simp only [if_pos hcnt, hb, Option.getD_some]
    rw [← hblen, List.take_length]
    have := Read_mk rest b [] (r.consumed ++ [D3D12Ident.StaticState]) b.length rfl
    rw [List.append_nil] at this
    simp only [this, pure, Except.pure, Deserializer.End]
  · simp only [if_neg hcnt, pure, Except.pure, Deserializer.End]

theorem D3D12ReadSegmentBlob_mk (ident : D3D12Ident) (b : List Nat) (rest : List Segment)
    (cur : List Nat) (con : List D3D12Ident) :
    D3D12ReadSegmentBlob
        { remaining := ⟨ident, SegData.bytes b⟩ :: rest, current := cur, consumed := con } ident
      = .ok (b, { remaining := rest, current := [], consumed := con ++ [ident] }) :=
  D3D12ReadSegmentBlob_head _ ident b rest rfl

theorem D3D12ReadSegmentBytecode_mk (ident : D3D12Ident) (b : List Nat) (rest : List Segment)
    (cur : List Nat) (con : List D3D12Ident) :
    D3D12ReadSegmentBytecode
        { remaining := ⟨ident, SegData.bytes b⟩ :: rest, current := cur, consumed := con } ident
      = .ok (b, { remaining := rest, current := [], consumed := con ++ [ident] }) :=
  D3D12ReadSegmentBytecode_head _ ident b rest rfl

theorem DeserializePSO_serialized (pso₀ pso : D3D12GraphicsPSO)
    (sd sd0 : D3D12_GRAPHICS_PIPELINE_STATE_DESC) (psoCacheBlob : List Nat)
    (con : List D3D12Ident) (hsd : sd0.WellFormed) (hpso : pso.StaticWellFormed)
    (h1 : sd.InputLayout.NumElements = sd0.InputLayout.NumElements)
    (h2 : sd.StreamOutput.NumEntries = sd0.StreamOutput.NumEntries)
    (h3 : sd.StreamOutput.NumStrides = sd0.StreamOutput.NumStrides) :
    pso₀.DeserializePSO
        { remaining := deserializePSOSegments pso sd0 psoCacheBlob, current := [],
          consumed := con } sd
      = .ok (pso₀.withStaticStateOf pso,
          { remaining := [], current := [],
            consumed := con ++ (deserializePSOSegments pso sd0 psoCacheBlob).map Segment.ident },
          deserializedStateDesc sd sd0 psoCacheBlob) := by
  obtain ⟨hl1, hn1, hl2, hn2, hl3⟩ := hsd
  unfold D3D12GraphicsPSO.DeserializePSO deserializePSOSegments
  simp only [List.cons_append, List.nil_append, bind, Except.bind, D3D12ReadSegmentBlob_mk,
    D3D12ReadSegmentBytecode_mk]
  rw [DeserializeInputLayout_segments sd0 _ _
    (streamOutputSegments sd0 ++ (bufferStridesSegments sd0 ++
      [⟨D3D12Ident.StaticState, SegData.bytes pso.staticStateBytes⟩])) ?_ hl1 hn1 ?_ ?_]
  rotate_left
  · exact h1
  · rfl
  · rfl
  simp only []
  rw [DeserializeStreamOutput_segments sd0 _ _
    (bufferStridesSegments sd0 ++
      [⟨D3D12Ident.StaticState, SegData.bytes pso.staticStateBytes⟩]) ?_ hl2 hn2 ?_ ?_]
  rotate_left
  · exact h2
  · rfl
  · rfl
  simp only []
  rw [DeserializeBufferStrides_segments sd0 _ _
    [⟨D3D12Ident.StaticState, SegData.bytes pso.staticStateBytes⟩] ?_ hl3 ?_ ?_]
  rotate_left
  · exact h3
  · rfl
  · rfl
  simp only []
  rw [DeserializeStaticState_bytes pso₀ pso hpso _ [] rfl]
  simp only [pure, Except.pure, List.map_cons, List.map_append, List.map_nil, List.append_assoc,
    List.cons_append, List.nil_append]
  rfl

theorem DeserializeGraphicsPSO_serialized (dev : D3D12Device) (pso : D3D12GraphicsPSO)
    (sd : D3D12_GRAPHICS_PIPELINE_STATE_DESC) (rootSignatureBlob psoCacheBlob : List Nat)
    (hsd : sd.WellFormed) (hpso : pso.StaticWellFormed) :
    DeserializeGraphicsPSO dev (serializedSegments pso sd rootSignatureBlob psoCacheBlob)
      = .ok ((D3D12GraphicsPSO.initial (dev.rootSignatureOfBlob rootSignatureBlob)).withStaticStateOf
              pso,
          { remaining := [], current := [],
            consumed :=
              (serializedSegments pso sd rootSignatureBlob psoCacheBlob).map Segment.ident },
          deserializedStateDesc
            { sd.image with pRootSignature := dev.rootSignatureOfBlob rootSignatureBlob } sd
            psoCacheBlob) := by
  unfold DeserializeGraphicsPSO serializedSegments
  simp only [List.cons_append, List.nil_append, Deserializer.ReadSegment, bind, Except.bind,
    if_true, D3D12PipelineState.ctorFromCache, D3D12ReadSegmentBlob_mk, pure, Except.pure,
    D3D12GraphicsPSO.ReadStateDescFromCache]
  rw [ReadSegmentIdent_head _ D3D12Ident.GraphicsDesc _ _ rfl]
  simp only []
  rw [DeserializePSO_serialized _ pso _ sd psoCacheBlob _ hsd hpso ?_ ?_ ?_]
  rotate_left
  · rfl
  · rfl
  · rfl
  simp only [List.map_cons, List.nil_append, List.append_assoc, List.cons_append]
  rfl

/-- C4: the segment identifiers that `SerializePSO` writes for a native descriptor are
the PSO-kind marker, root signature, graphics descriptor, cached PSO, then VS, PS, DS,
HS, GS, then input elements and input semantic names exactly when `NumElements > 0`,
stream-output entries and their semantic names exactly when `NumEntries > 0`, buffer
strides exactly when `NumStrides > 0`, and the static state last; and deserialization
of that blob succeeds, consumes exactly this identifier sequence in this order, and
leaves no segment unread. -/
theorem SerializePSO_deserialize_idents (dev : D3D12Device) (pso : D3D12GraphicsPSO)
    (stateDesc : D3D12_GRAPHICS_PIPELINE_STATE_DESC) (rootSignatureBlob psoCacheBlob : List Nat)
    (hsd : stateDesc.WellFormed) (hpso : pso.StaticWellFormed) :
    ((pso.SerializePSO {} stateDesc rootSignatureBlob psoCacheBlob).Finalize).map Segment.ident
        = [D3D12Ident.GraphicsPSOIdent, D3D12Ident.RootSignature, D3D12Ident.GraphicsDesc,
            D3D12Ident.CachedPSO, D3D12Ident.VS, D3D12Ident.PS, D3D12Ident.DS, D3D12Ident.HS,
            D3D12Ident.GS] ++
          ((if stateDesc.InputLayout.NumElements > 0 then
              [D3D12Ident.InputElements, D3D12Ident.InputSemanticNames] else []) ++
          ((if stateDesc.StreamOutput.NumEntries > 0 then
              [D3D12Ident.SODeclEntries, D3D12Ident.SOSemanticNames] else []) ++
          ((if stateDesc.StreamOutput.NumStrides > 0 then
              [D3D12Ident.SOBufferStrides] else []) ++
          [D3D12Ident.StaticState]))) ∧
    ∃ pso' reader' stateDesc',
      DeserializeGraphicsPSO dev
          (pso.SerializePSO {} stateDesc rootSignatureBlob psoCacheBlob).Finalize
        = .ok (pso', reader', stateDesc') ∧
      reader'.consumed
        = ((pso.SerializePSO {} stateDesc rootSignatureBlob psoCacheBlob).Finalize).map
            Segment.ident ∧
      reader'.remaining = [] := by
  have hblob : (pso.SerializePSO {} stateDesc rootSignatureBlob psoCacheBlob).Finalize
      = serializedSegments pso stateDesc rootSignatureBlob psoCacheBlob := by
    rw [SerializePSO_segments]; rfl
  rw [hblob]
  constructor
  · unfold serializedSegments deserializePSOSegments inputLayoutSegments streamOutputSegments
      bufferStridesSegments
    split <;> split <;> split <;> rfl
  · exact ⟨_, _, _, DeserializeGraphicsPSO_serialized dev pso stateDesc rootSignatureBlob
      psoCacheBlob hsd hpso, rfl, rfl⟩

theorem length_flatMap_VIEWPORT (vs : List Viewport) :
    (vs.flatMap D3D12_VIEWPORT_bytes).length = vs.length * sizeofD3D12_VIEWPORT := by
  induction vs with
  | nil => simp
  | cons v vs ih =>
    simp only [List.flatMap_cons, List.length_append, ih, List.length_cons, D3D12_VIEWPORT_bytes,
      leBytes_length, sizeofD3D12_VIEWPORT]
    ring

theorem length_flatMap_RECT (ss : List Scissor) :
    (ss.flatMap D3D12_RECT_bytes).length = ss.length * sizeofD3D12_RECT := by
  induction ss with
  | nil => simp
  | cons v vs ih =>
    simp only [List.flatMap_cons, List.length_append, ih, List.length_cons, D3D12_RECT_bytes,
      leBytes_length, sizeofD3D12_RECT]
    ring

/-- What a successful build of the static state stores: the counts, and the buffer with
the viewports followed by the scissors when there is at least one of them. -/
theorem BuildStaticStateBuffer_ok (pso₀ pso : D3D12GraphicsPSO) (desc : GraphicsPipelineDescriptor)
    (hv : desc.viewports.length < UINT_SIZE) (hs : desc.scissors.length < UINT_SIZE)
    (h0v : pso₀.numStaticViewports_ = 0) (h0s : pso₀.numStaticScissors_ = 0)
    (h0b : pso₀.staticStateBuffer_ = none)
    (h : (if desc.viewports ≠ [] ∨ desc.scissors ≠ [] then pso₀.BuildStaticStateBuffer desc
      else pure pso₀) = .ok pso) :
    pso = { pso₀ with
            numStaticViewports_ := desc.viewports.length
            numStaticScissors_ := desc.scissors.length
            staticStateBuffer_ :=
              if desc.viewports ≠ [] ∨ desc.scissors ≠ [] then
                some (desc.viewports.flatMap D3D12_VIEWPORT_bytes ++
                  desc.scissors.flatMap D3D12_RECT_bytes)
              else none } ∧
      desc.viewports.length ≤ 16 ∧ desc.scissors.length ≤ 16 := by
  obtain ⟨rs₀, n₀, t₀, se₀, sre₀, sr₀, bfe₀, bf₀, sb₀, nv₀, ns₀⟩ := pso₀
  simp only at h0v h0s h0b
  subst h0v h0s h0b
  by_cases hv0 : desc.viewports = [] <;> by_cases hs0 : desc.scissors = []
  · simp only [hv0, hs0, ne_eq, not_true_eq_false, or_self, if_false, pure, Except.pure,
      Except.ok.injEq] at h
    subst h
    simp [hv0, hs0]
  · by_cases h16 : desc.scissors.length > 16
    · simp [hv0, hs0, D3D12GraphicsPSO.BuildStaticStateBuffer,
        D3D12GraphicsPSO.BuildStaticScissors, pure, Except.pure, bind, Except.bind,
        Nat.mod_eq_of_lt hs, D3D12_VIEWPORT_AND_SCISSORRECT_OBJECT_COUNT_PER_PIPELINE, h16] at h
    · simp only [hv0, hs0, ne_eq, not_true_eq_false, not_false_eq_true, or_true, if_true,
        D3D12GraphicsPSO.BuildStaticStateBuffer, D3D12GraphicsPSO.BuildStaticScissors,
        if_false, pure, Except.pure, bind, Except.bind, Nat.mod_eq_of_lt hs,
        D3D12_VIEWPORT_AND_SCISSORRECT_OBJECT_COUNT_PER_PIPELINE, if_neg h16,
        Except.ok.injEq] at h
      subst h
      simp only [hv0, hs0, List.length_nil, List.flatMap_nil, List.nil_append, ne_eq,
        not_true_eq_false, not_false_eq_true, or_true, if_true, true_and, Nat.zero_le]
      omega
  · by_cases h16 : desc.viewports.length > 16
    · simp [hv0, hs0, D3D12GraphicsPSO.BuildStaticStateBuffer,
        D3D12GraphicsPSO.BuildStaticViewports, pure, Except.pure, bind, Except.bind,
        Nat.mod_eq_of_lt hv, D3D12_VIEWPORT_AND_SCISSORRECT_OBJECT_COUNT_PER_PIPELINE, h16] at h
    · simp only [hv0, hs0, ne_eq, not_true_eq_false, not_false_eq_true, true_or, if_true,
        D3D12GraphicsPSO.BuildStaticStateBuffer, D3D12GraphicsPSO.BuildStaticViewports,
        if_false, pure, Except.pure, bind, Except.bind, Nat.mod_eq_of_lt hv,
        D3D12_VIEWPORT_AND_SCISSORRECT_OBJECT_COUNT_PER_PIPELINE, if_neg h16,
        Except.ok.injEq] at h
      subst h
      have hl : desc.scissors.length = 0 := by rw [hs0]; rfl
      simp only [hv0, hs0, List.length_nil, List.flatMap_nil, List.nil_append, List.append_nil,
        ne_eq, not_true_eq_false, not_false_eq_true, true_or, if_true, true_and, Nat.zero_le]
      exact ⟨by omega, trivial⟩
  · by_cases h16 : desc.viewports.length > 16
    · simp [hv0, hs0, D3D12GraphicsPSO.BuildStaticStateBuffer,
        D3D12GraphicsPSO.BuildStaticViewports, pure, Except.pure, bind, Except.bind,
        Nat.mod_eq_of_lt hv, D3D12_VIEWPORT_AND_SCISSORRECT_OBJECT_COUNT_PER_PIPELINE, h16] at h
    · by_cases h16s : desc.scissors.length > 16
      · simp [hv0, hs0, D3D12GraphicsPSO.BuildStaticStateBuffer,
          D3D12GraphicsPSO.BuildStaticViewports, D3D12GraphicsPSO.BuildStaticScissors, pure,
          Except.pure, bind, Except.bind, Nat.mod_eq_of_lt hv, Nat.mod_eq_of_lt hs,
          D3D12_VIEWPORT_AND_SCISSORRECT_OBJECT_COUNT_PER_PIPELINE, h16, h16s] at h
      · simp only [hv0, hs0, ne_eq, not_false_eq_true, true_or, if_true,
          D3D12GraphicsPSO.BuildStaticStateBuffer, D3D12GraphicsPSO.BuildStaticViewports,
          D3D12GraphicsPSO.BuildStaticScissors,
          pure, Except.pure, bind, Except.bind, Nat.mod_eq_of_lt hv, Nat.mod_eq_of_lt hs,
          D3D12_VIEWPORT_AND_SCISSORRECT_OBJECT_COUNT_PER_PIPELINE, if_neg h16, if_neg h16s,
          Except.ok.injEq] at h
        subst h
        simp only [hv0, hs0, List.nil_append, ne_eq, not_false_eq_true, true_or, if_true,
          true_and]
        omega

theorem CreateNativePSOFromDesc_ok (T : D3D12Types) (pso₁ pso : D3D12GraphicsPSO)
    (dev dev' : D3D12Device) (pipelineLayout : D3D12PipelineLayout)
    (renderPass : Option D3D12RenderPass) (desc : GraphicsPipelineDescriptor)
    (w₀ w : Serializer)
    (h : pso₁.CreateNativePSOFromDesc T dev pipelineLayout renderPass desc (some w₀)
      = (dev', .ok (pso, some w))) :
    ∃ native stateDesc rootSignatureBlob psoCacheBlob,
      pso = { pso₁ with native_ := some native } ∧
      stateDesc.InputLayout = GetD3DInputLayoutDesc desc.vertexShader ∧
      stateDesc.StreamOutput = GetD3DStreamOutputDesc desc.vertexShader desc.geometryShader ∧
      w = pso.SerializePSO w₀ stateDesc rootSignatureBlob psoCacheBlob := by
  unfold D3D12GraphicsPSO.CreateNativePSOFromDesc D3D12Device.CreateDXGraphicsPipelineState at h
  simp only [] at h
  split at h
  · rename_i dev₁ e heq
    cases h
  · rename_i dev₁ native heq
    split at heq
    · simp only [Prod.mk.injEq, Except.ok.injEq] at heq
      obtain ⟨hd, hn⟩ := heq
      cases hcb : dev₁.cachedBlob native with
      | none => simp [hcb] at h
      | some cb =>
        cases hsb : pipelineLayout.serializedBlob with
        | none => simp [hcb, hsb] at h
        | some rsb =>
          simp only [hcb, hsb, Prod.mk.injEq, Except.ok.injEq, Option.some.injEq] at h
          obtain ⟨-, hp, hw⟩ := h
          exact ⟨native, _, rsb, cb, hp.symm, rfl, rfl, by rw [← hw, ← hp]⟩
    · simp at heq

theorem stateDesc_wellFormed_of_shaders (desc : GraphicsPipelineDescriptor)
    (stateDesc : D3D12_GRAPHICS_PIPELINE_STATE_DESC)
    (hvs : shaderWellFormed desc.vertexShader) (hgs : shaderWellFormed desc.geometryShader)
    (h1 : stateDesc.InputLayout = GetD3DInputLayoutDesc desc.vertexShader)
    (h2 : stateDesc.StreamOutput = GetD3DStreamOutputDesc desc.vertexShader desc.geometryShader) :
    stateDesc.WellFormed := by
  unfold D3D12_GRAPHICS_PIPELINE_STATE_DESC.WellFormed
  rw [h1, h2]
  unfold GetD3DInputLayoutDesc GetD3DStreamOutputDesc
  cases hv : desc.vertexShader with
  | none =>
    cases hg : desc.geometryShader with
    | none => simp
    | some gs =>
      rw [hg] at hgs
      obtain ⟨-, -, g3, g4, g5⟩ := hgs
      exact ⟨by simp, by simp, g3, g4, g5⟩
  | some vs =>
    rw [hv] at hvs
    obtain ⟨v1, v2, v3, v4, v5⟩ := hvs
    cases hg : desc.geometryShader with
    | none => exact ⟨v1, v2, v3, v4, v5⟩
    | some gs =>
      rw [hg] at hgs
      obtain ⟨-, -, g3, g4, g5⟩ := hgs
      exact ⟨v1, v2, g3, g4, g5⟩

theorem D3D12GraphicsPSO_ctor_ok (T : D3D12Types) (dev dev' : D3D12Device)
    (defaultPipelineLayout : D3D12PipelineLayout) (desc : GraphicsPipelineDescriptor)
    (defaultRenderPass : Option D3D12RenderPass) (w₀ w : Serializer) (pso : D3D12GraphicsPSO)
    (hwf : desc.WellFormed T)
    (h : D3D12GraphicsPSO.ctor T dev defaultPipelineLayout desc defaultRenderPass (some w₀)
      = (dev', .ok (pso, some w))) :
    pso.StaticWellFormed ∧
      ∃ stateDesc rootSignatureBlob psoCacheBlob,
        stateDesc.WellFormed ∧ w = pso.SerializePSO w₀ stateDesc rootSignatureBlob psoCacheBlob := by
  obtain ⟨htopo, href, hbf, hv, hs, hvs, hgs⟩ := hwf
  unfold D3D12GraphicsPSO.ctor at h
  by_cases hnone : desc.vertexShader = none
  · rw [if_pos hnone] at h
    cases h
  · rw [if_neg hnone] at h
    simp only [] at h
    split at h
    · cases h
    · rename_i pso₁ hbuild
      obtain ⟨hp1, hv16, hs16⟩ := BuildStaticStateBuffer_ok _ pso₁ desc hv hs rfl rfl rfl hbuild
      obtain ⟨native, stateDesc, rsb, cb, hp, hil, hso, hw⟩ :=
        CreateNativePSOFromDesc_ok T pso₁ pso dev dev' _ _ desc w₀ w h
      refine ⟨?_, stateDesc, rsb, cb,
        stateDesc_wellFormed_of_shaders desc stateDesc hvs hgs hil hso, hw⟩
      rw [hp, hp1]
      unfold D3D12GraphicsPSO.StaticWellFormed
      refine ⟨htopo, href, hbf, hv, hs, ?_⟩
      simp only [D3D12GraphicsPSO.initial]
      by_cases hne : desc.viewports ≠ [] ∨ desc.scissors ≠ []
      · have hpos : desc.viewports.length > 0 ∨ desc.scissors.length > 0 := by
          rcases hne with h1 | h1
          · left; exact List.length_pos.mpr h1
          · right; exact List.length_pos.mpr h1
        rw [if_pos hpos, if_pos hne]
        simp only [Option.map_some', List.length_append, length_flatMap_VIEWPORT,
          length_flatMap_RECT, GetStaticStateBufferSize]
      · have hpos : ¬ (desc.viewports.length > 0 ∨ desc.scissors.length > 0) := by
          intro h1
          apply hne
          rcases h1 with h1 | h1
          · left; exact List.length_pos.mp h1
          · right; exact List.length_pos.mp h1
        rw [if_neg hpos, if_neg hne]

/-- C3: for a graphics PSO built from a (well-typed) descriptor together with its
serialized blob, deserializing that blob succeeds and `DeserializePSO` reads back, from
the static-state segment `SerializePSO` wrote, the same primitive topology, blend-factor
flag and four blend-factor values, stencil-reference flag and value, scissor flag,
static viewport and scissor counts, and the same static-state buffer, byte for byte, as
the built PSO holds. -/
theorem D3D12GraphicsPSO_static_state_roundtrip (T : D3D12Types) (dev dev' dev₂ : D3D12Device)
    (defaultPipelineLayout : D3D12PipelineLayout) (desc : GraphicsPipelineDescriptor)
    (defaultRenderPass : Option D3D12RenderPass) (w : Serializer) (pso : D3D12GraphicsPSO)
    (hwf : desc.WellFormed T)
    (hctor : D3D12GraphicsPSO.ctor T dev defaultPipelineLayout desc defaultRenderPass (some {})
      = (dev', .ok (pso, some w))) :
    ∃ pso' reader' stateDesc',
      DeserializeGraphicsPSO dev₂ w.Finalize = .ok (pso', reader', stateDesc') ∧
      pso'.primitiveTopology_ = pso.primitiveTopology_ ∧
      pso'.blendFactorEnabled_ = pso.blendFactorEnabled_ ∧
      (∀ i, pso'.blendFactor_ i = pso.blendFactor_ i) ∧
      pso'.stencilRefEnabled_ = pso.stencilRefEnabled_ ∧
      pso'.stencilRef_ = pso.stencilRef_ ∧
      pso'.scissorEnabled_ = pso.scissorEnabled_ ∧
      pso'.numStaticViewports_ = pso.numStaticViewports_ ∧
      pso'.numStaticScissors_ = pso.numStaticScissors_ ∧
      pso'.staticStateBuffer_ = pso.staticStateBuffer_ := by
  obtain ⟨hpso, stateDesc, rsb, cb, hsd, hw⟩ :=
    D3D12GraphicsPSO_ctor_ok T dev dev' defaultPipelineLayout desc defaultRenderPass {} w pso
      hwf hctor
  have hblob : w.Finalize = serializedSegments pso stateDesc rsb cb := by
    rw [hw, SerializePSO_segments]; rfl
  rw [hblob]
  refine ⟨_, _, _, DeserializeGraphicsPSO_serialized dev₂ pso stateDesc rsb cb hsd hpso,
    rfl, rfl, fun _ => rfl, rfl, rfl, rfl, rfl, rfl, ?_⟩
  simp only [D3D12GraphicsPSO.withStaticStateOf, D3D12GraphicsPSO.initial]
  obtain ⟨-, -, -, -, -, hbuf⟩ := hpso
  by_cases hcnt : pso.numStaticViewports_ > 0 ∨ pso.numStaticScissors_ > 0
  · rw [if_pos hcnt]
  · rw [if_neg hcnt] at hbuf ⊢
    exact hbuf.symm

/-- Witness for C3: the example descriptor with one static viewport and two static
scissors, built with a serializer and read back on the example device. -/
theorem D3D12GraphicsPSO_static_state_roundtrip_witness :
    ∃ pso' reader' stateDesc',
      DeserializeGraphicsPSO exampleDevice exampleBuilt.2.Finalize
        = .ok (pso', reader', stateDesc') ∧
      pso'.primitiveTopology_ = exampleBuilt.1.primitiveTopology_ ∧
      pso'.blendFactorEnabled_ = exampleBuilt.1.blendFactorEnabled_ ∧
      (∀ i, pso'.blendFactor_ i = exampleBuilt.1.blendFactor_ i) ∧
      pso'.stencilRefEnabled_ = exampleBuilt.1.stencilRefEnabled_ ∧
      pso'.stencilRef_ = exampleBuilt.1.stencilRef_ ∧
      pso'.scissorEnabled_ = exampleBuilt.1.scissorEnabled_ ∧
      pso'.numStaticViewports_ = exampleBuilt.1.numStaticViewports_ ∧
      pso'.numStaticScissors_ = exampleBuilt.1.numStaticScissors_ ∧
      pso'.staticStateBuffer_ = exampleBuilt.1.staticStateBuffer_ :=
  D3D12GraphicsPSO_static_state_roundtrip exampleTypes exampleDevice
    (D3D12GraphicsPSO.ctor exampleTypes exampleDevice exampleLayout exampleStaticDesc none
      (some {})).1
    exampleDevice exampleLayout exampleStaticDesc none exampleBuilt.2 exampleBuilt.1
    (by decide) rfl

/-- Witness for C4: the example PSO and the example native descriptor, which has input
elements, a stream-output entry and a buffer stride. -/
theorem SerializePSO_deserialize_idents_witness :
    ((examplePSO.SerializePSO {} exampleStateDesc [1, 2, 3] [9, 9, 9]).Finalize).map Segment.ident
        = [D3D12Ident.GraphicsPSOIdent, D3D12Ident.RootSignature, D3D12Ident.GraphicsDesc,
            D3D12Ident.CachedPSO, D3D12Ident.VS, D3D12Ident.PS, D3D12Ident.DS, D3D12Ident.HS,
            D3D12Ident.GS] ++
          ((if exampleStateDesc.InputLayout.NumElements > 0 then
              [D3D12Ident.InputElements, D3D12Ident.InputSemanticNames] else []) ++
          ((if exampleStateDesc.StreamOutput.NumEntries > 0 then
              [D3D12Ident.SODeclEntries, D3D12Ident.SOSemanticNames] else []) ++
          ((if exampleStateDesc.StreamOutput.NumStrides > 0 then
              [D3D12Ident.SOBufferStrides] else []) ++
          [D3D12Ident.StaticState]))) ∧
    ∃ pso' reader' stateDesc',
      DeserializeGraphicsPSO exampleDevice
          (examplePSO.SerializePSO {} exampleStateDesc [1, 2, 3] [9, 9, 9]).Finalize
        = .ok (pso', reader', stateDesc') ∧
      reader'.consumed
        = ((examplePSO.SerializePSO {} exampleStateDesc [1, 2, 3] [9, 9, 9]).Finalize).map
            Segment.ident ∧
      reader'.remaining = [] :=
  SerializePSO_deserialize_idents exampleDevice examplePSO exampleStateDesc [1, 2, 3] [9, 9, 9]
    (by decide) (by decide)

/-- The overload `CreatePipelineState(serializedCache)` performs the reads of
`DeserializeGraphicsPSO` and then creates the native pipeline state from the descriptor
that was read. -/
theorem CreatePipelineStateFromCache_eq_deserialize (rs : D3D12RenderSystem)
    (serializedCache : Blob) :
    rs.CreatePipelineStateFromCache serializedCache =
      match DeserializeGraphicsPSO rs.device_ serializedCache with
      | .error e => (rs, .error e)
      | .ok (pso, _, stateDesc) =>
        match rs.device_.CreateDXGraphicsPipelineState stateDesc with
        | (dev, .error e) => ({ rs with device_ := dev }, .error e)
        | (dev, .ok native) =>
          ({ rs with device_ := dev,
                     pipelineStates_ := rs.pipelineStates_ ++
                      [PipelineState.Graphics { pso with native_ := some native }] },
            .ok (PipelineState.Graphics { pso with native_ := some native })) := by
  unfold D3D12RenderSystem.CreatePipelineStateFromCache DeserializeGraphicsPSO
  simp only [bind, Except.bind]
  cases hseg : Deserializer.ReadSegment { remaining := serializedCache } with
  | error e => simp only []
  | ok v =>
    obtain ⟨seg, reader⟩ := v
    simp only []
    by_cases hid : seg.ident = D3D12Ident.GraphicsPSOIdent
    · simp only [if_pos hid, D3D12GraphicsPSO.ctorFromCache]
      cases hbase : D3D12PipelineState.ctorFromCache rs.device_ reader with
      | error e => simp only []
      | ok v =>
        obtain ⟨rootSignature, reader₁⟩ := v
        simp only [D3D12GraphicsPSO.CreateNativePSOFromCache]
        cases hread : (D3D12GraphicsPSO.initial rootSignature).ReadStateDescFromCache reader₁ with
        | error e => simp only []
        | ok v =>
          obtain ⟨pso, reader₂, stateDesc⟩ := v
          simp only []
          rcases hdev : rs.device_.CreateDXGraphicsPipelineState stateDesc with ⟨dev, r | native⟩
            <;> simp only []
    · simp only [if_neg hid]

/-! ## Theorems: sizes and operations of Null records -/

/-- C17: the size `ExecuteNullCommand` reports for a well-formed record is the size of its
fixed header plus the trailing payload computed from the count member of the header:
`numVertexBuffers` times the pointer size for `Draw` and `DrawIndexed`, `length + 1` for
`PushDebugGroup`, `size` for `BufferWrite`, nothing for `CopySubresource` and
`GenerateMips`; and this is the number of bytes the record occupies. -/
theorem ExecuteNullCommand_size_from_header (L : NullLayout) (hL : L.Valid) (r : NullCmd)
    (hr : r.WellFormed L) (pre post : List Nat) :
    (ExecuteNullCommand L (pre ++ (r.header L ++ (r.payload L ++ post))) (r.opcode L)
        pre.length).map Prod.snd
      = .ok (r.sizeFromHeader L) ∧
    r.sizeFromHeader L = (r.header L).length + (r.payload L).length := by
  have hlen := NullCmd.header_length L hL r hr
  have hsz : r.sizeFromHeader L = (r.header L).length + (r.payload L).length := by
    obtain ⟨-, -, -, -, hbws, -, -, -, -, -, hfd, hdi, hpd⟩ := hL
    cases r with
    | BufferWrite hdr data =>
      obtain ⟨h1, h2, _⟩ := hr
      simp only at hlen
      simp only [NullCmd.sizeFromHeader, hlen, NullCmd.payload]
      rw [show NullCmd.header L (.BufferWrite hdr data)
        = writeField hdr L.BufferWrite_size data.length from rfl,
        headerField_writeField hdr _ _ (by rw [h1]; exact hbws) h2]
    | CopySubresource hdr =>
      simp only at hlen
      simp only [NullCmd.sizeFromHeader, hlen, NullCmd.payload, List.length_nil, Nat.add_zero]
    | GenerateMips hdr =>
      simp only at hlen
      simp only [NullCmd.sizeFromHeader, hlen, NullCmd.payload, List.length_nil, Nat.add_zero]
    | Draw hdr vbs =>
      obtain ⟨h1, h2, _⟩ := hr
      simp only at hlen
      simp only [NullCmd.sizeFromHeader, hlen, NullCmd.payload, length_flatMap_leBytes]
      rw [show NullCmd.header L (.Draw hdr vbs)
        = writeField hdr L.Draw_numVertexBuffers vbs.length from rfl,
        headerField_writeField hdr _ _ (by rw [h1]; exact hfd) h2]
    | DrawIndexed hdr vbs =>
      obtain ⟨h1, h2, _⟩ := hr
      simp only at hlen
      simp only [NullCmd.sizeFromHeader, hlen, NullCmd.payload, length_flatMap_leBytes]
      rw [show NullCmd.header L (.DrawIndexed hdr vbs)
        = writeField hdr L.DrawIndexed_numVertexBuffers vbs.length from rfl,
        headerField_writeField hdr _ _ (by rw [h1]; exact hdi) h2]
    | PushDebugGroup hdr name =>
      obtain ⟨h1, h2, _⟩ := hr
      simp only at hlen
      simp only [NullCmd.sizeFromHeader, hlen, NullCmd.payload, List.length_append,
        List.length_singleton]
      rw [show NullCmd.header L (.PushDebugGroup hdr name)
        = writeField hdr L.PushDebugGroup_length name.length from rfl,
        headerField_writeField hdr _ _ (by rw [h1]; exact hpd) h2]
    | PopDebugGroup => rfl
  refine ⟨?_, hsz⟩
  rw [ExecuteNullCommand_record L hL r hr pre post, hsz]
  rfl

/-- Witness for C17: the example buffer write of three bytes. -/
theorem ExecuteNullCommand_size_from_header_witness :
    (ExecuteNullCommand layout64
        ([1] ++ (exampleBufferWrite.header layout64 ++ (exampleBufferWrite.payload layout64 ++ [7])))
        (exampleBufferWrite.opcode layout64) [1].length).map Prod.snd
      = .ok (exampleBufferWrite.sizeFromHeader layout64) ∧
    exampleBufferWrite.sizeFromHeader layout64
      = (exampleBufferWrite.header layout64).length + (exampleBufferWrite.payload layout64).length :=
  ExecuteNullCommand_size_from_header layout64 (by decide) exampleBufferWrite (by decide) [1] [7]

/-- C18: the execution of a well-formed `BufferWrite` record makes exactly one call of
`Write`, on the buffer named in the header, with the offset of the header, with the
bytes that follow the fixed header as data, and with the size of the header as their
length. -/
theorem ExecuteNullCommand_BufferWrite (L : NullLayout) (hL : L.Valid) (hdr data : List Nat)
    (hr : (NullCmd.BufferWrite hdr data).WellFormed L) (pre post : List Nat) :
    (ExecuteNullCommand L
        (pre ++ (NullCmd.header L (.BufferWrite hdr data) ++ (data ++ post)))
        L.NullOpcodeBufferWrite pre.length).map Prod.fst
      = .ok [NullOp.BufferWrite
          (headerField (NullCmd.header L (.BufferWrite hdr data)) L.BufferWrite_buffer)
          (headerField (NullCmd.header L (.BufferWrite hdr data)) L.BufferWrite_offset)
          (((NullCmd.header L (.BufferWrite hdr data) ++ (data ++ post)).drop
            L.sizeofCmdBufferWrite).take
              (headerField (NullCmd.header L (.BufferWrite hdr data)) L.BufferWrite_size))] ∧
    ((NullCmd.header L (.BufferWrite hdr data) ++ (data ++ post)).drop
        L.sizeofCmdBufferWrite).take
          (headerField (NullCmd.header L (.BufferWrite hdr data)) L.BufferWrite_size) = data ∧
    headerField (NullCmd.header L (.BufferWrite hdr data)) L.BufferWrite_size = data.length := by
  have hlen := NullCmd.header_length L hL _ hr
  simp only at hlen
  have hrec := ExecuteNullCommand_record L hL _ hr pre post
  obtain ⟨-, -, -, -, hbws, -, -, -, -, -, -, -, -⟩ := hL
  obtain ⟨h1, h2, _⟩ := hr
  have hs : headerField (NullCmd.header L (.BufferWrite hdr data)) L.BufferWrite_size
      = data.length :=
    headerField_writeField hdr _ _ (by rw [h1]; exact hbws) h2
  have hd : ((NullCmd.header L (.BufferWrite hdr data) ++ (data ++ post)).drop
      L.sizeofCmdBufferWrite).take
        (headerField (NullCmd.header L (.BufferWrite hdr data)) L.BufferWrite_size) = data := by
    rw [hs, drop_append_of_length _ _ _ hlen, take_append_of_length _ _ _ rfl]
  refine ⟨?_, hd, hs⟩
  rw [hd]
  simp only [NullCmd.payload, NullCmd.opcode] at hrec
  rw [hrec]
  rfl

/-- Witness for C18: a write of three bytes to buffer 7 at offset 5. -/
theorem ExecuteNullCommand_BufferWrite_witness :
    (ExecuteNullCommand layout64
        ([1] ++ (NullCmd.header layout64
            (.BufferWrite (leBytes 8 7 ++ leBytes 8 5 ++ leBytes 8 0) [10, 20, 30]) ++
          ([10, 20, 30] ++ [7])))
        layout64.NullOpcodeBufferWrite [1].length).map Prod.fst
      = .ok [NullOp.BufferWrite
          (headerField (NullCmd.header layout64
            (.BufferWrite (leBytes 8 7 ++ leBytes 8 5 ++ leBytes 8 0) [10, 20, 30]))
            layout64.BufferWrite_buffer)
          (headerField (NullCmd.header layout64
            (.BufferWrite (leBytes 8 7 ++ leBytes 8 5 ++ leBytes 8 0) [10, 20, 30]))
            layout64.BufferWrite_offset)
          (((NullCmd.header layout64
              (.BufferWrite (leBytes 8 7 ++ leBytes 8 5 ++ leBytes 8 0) [10, 20, 30]) ++
            ([10, 20, 30] ++ [7])).drop layout64.sizeofCmdBufferWrite).take
              (headerField (NullCmd.header layout64
                (.BufferWrite (leBytes 8 7 ++ leBytes 8 5 ++ leBytes 8 0) [10, 20, 30]))
                layout64.BufferWrite_size))] ∧
    ((NullCmd.header layout64
          (.BufferWrite (leBytes 8 7 ++ leBytes 8 5 ++ leBytes 8 0) [10, 20, 30]) ++
        ([10, 20, 30] ++ [7])).drop layout64.sizeofCmdBufferWrite).take
          (headerField (NullCmd.header layout64
            (.BufferWrite (leBytes 8 7 ++ leBytes 8 5 ++ leBytes 8 0) [10, 20, 30]))
            layout64.BufferWrite_size) = [10, 20, 30] ∧
    headerField (NullCmd.header layout64
        (.BufferWrite (leBytes 8 7 ++ leBytes 8 5 ++ leBytes 8 0) [10, 20, 30]))
        layout64.BufferWrite_size = [10, 20, 30].length :=
  ExecuteNullCommand_BufferWrite layout64 (by decide)
    (leBytes 8 7 ++ leBytes 8 5 ++ leBytes 8 0) [10, 20, 30] (by decide) [1] [7]

/-! ## Theorems: Direct3D 12 serialized arrays -/

/-- C11: for a native descriptor with `n > 0` input elements `SerializePSO` writes the `n`
elements and then their `n` semantic names in element order, and deserialization
patches the input-layout pointer of the descriptor to an array of exactly `n` elements
that equals the first `n` elements of the original array, so that element `i` is the
`i`-th written element with the `i`-th written name; the same holds for the
stream-output declaration entries and their names. -/
theorem SerializePSO_deserialize_arrays (dev : D3D12Device) (pso : D3D12GraphicsPSO)
    (stateDesc : D3D12_GRAPHICS_PIPELINE_STATE_DESC) (rootSignatureBlob psoCacheBlob : List Nat)
    (hsd : stateDesc.WellFormed) (hpso : pso.StaticWellFormed) :
    (0 < stateDesc.InputLayout.NumElements →
      ∃ before after,
        (pso.SerializePSO {} stateDesc rootSignatureBlob psoCacheBlob).Finalize
          = before ++
            [⟨D3D12Ident.InputElements, SegData.inputElements
                ((stateDesc.InputLayout.pInputElementDescs.take
                  stateDesc.InputLayout.NumElements).map D3D12_INPUT_ELEMENT_DESC.image)⟩,
              ⟨D3D12Ident.InputSemanticNames, SegData.bytes
                ((stateDesc.InputLayout.pInputElementDescs.take
                  stateDesc.InputLayout.NumElements).flatMap
                    (fun e => e.SemanticName ++ [0]))⟩] ++ after) ∧
    (0 < stateDesc.StreamOutput.NumEntries →
      ∃ before after,
        (pso.SerializePSO {} stateDesc rootSignatureBlob psoCacheBlob).Finalize
          = before ++
            [⟨D3D12Ident.SODeclEntries, SegData.soDeclEntries
                ((stateDesc.StreamOutput.pSODeclaration.take
                  stateDesc.StreamOutput.NumEntries).map D3D12_SO_DECLARATION_ENTRY.image)⟩,
              ⟨D3D12Ident.SOSemanticNames, SegData.bytes
                ((stateDesc.StreamOutput.pSODeclaration.take
                  stateDesc.StreamOutput.NumEntries).flatMap
                    (fun e => e.SemanticName ++ [0]))⟩] ++ after) ∧
    ∃ pso' reader' stateDesc',
      DeserializeGraphicsPSO dev
          (pso.SerializePSO {} stateDesc rootSignatureBlob psoCacheBlob).Finalize
        = .ok (pso', reader', stateDesc') ∧
      (0 < stateDesc.InputLayout.NumElements →
        stateDesc'.InputLayout.NumElements = stateDesc.InputLayout.NumElements ∧
        stateDesc'.InputLayout.pInputElementDescs.length = stateDesc.InputLayout.NumElements ∧
        stateDesc'.InputLayout.pInputElementDescs
          = stateDesc.InputLayout.pInputElementDescs.take stateDesc.InputLayout.NumElements) ∧
      (0 < stateDesc.StreamOutput.NumEntries →
        stateDesc'.StreamOutput.NumEntries = stateDesc.StreamOutput.NumEntries ∧
        stateDesc'.StreamOutput.pSODeclaration.length = stateDesc.StreamOutput.NumEntries ∧
        stateDesc'.StreamOutput.pSODeclaration
          = stateDesc.StreamOutput.pSODeclaration.take stateDesc.StreamOutput.NumEntries) := by
  have hblob : (pso.SerializePSO {} stateDesc rootSignatureBlob psoCacheBlob).Finalize
      = serializedSegments pso stateDesc rootSignatureBlob psoCacheBlob := by
    rw [SerializePSO_segments]; rfl
  rw [hblob]
  obtain ⟨hn, -, hm, -, -⟩ := id hsd
  refine ⟨?_, ?_, _, _, _,
    DeserializeGraphicsPSO_serialized dev pso stateDesc rootSignatureBlob psoCacheBlob hsd hpso,
    ?_, ?_⟩
  · intro h
    refine ⟨[⟨D3D12Ident.GraphicsPSOIdent, SegData.bytes []⟩,
        ⟨D3D12Ident.RootSignature, SegData.bytes rootSignatureBlob⟩,
        ⟨D3D12Ident.GraphicsDesc, SegData.graphicsDesc stateDesc.image⟩,
        ⟨D3D12Ident.CachedPSO, SegData.bytes psoCacheBlob⟩,
        ⟨D3D12Ident.VS, SegData.bytes stateDesc.VS⟩,
        ⟨D3D12Ident.PS, SegData.bytes stateDesc.PS⟩,
        ⟨D3D12Ident.DS, SegData.bytes stateDesc.DS⟩,
        ⟨D3D12Ident.HS, SegData.bytes stateDesc.HS⟩,
        ⟨D3D12Ident.GS, SegData.bytes stateDesc.GS⟩],
      streamOutputSegments stateDesc ++ (bufferStridesSegments stateDesc ++
        [⟨D3D12Ident.StaticState, SegData.bytes pso.staticStateBytes⟩]), ?_⟩
    unfold serializedSegments deserializePSOSegments inputLayoutSegments
    rw [if_pos h]
    simp only [List.cons_append, List.nil_append, List.append_assoc]
  · intro h
    refine ⟨[⟨D3D12Ident.GraphicsPSOIdent, SegData.bytes []⟩,
        ⟨D3D12Ident.RootSignature, SegData.bytes rootSignatureBlob⟩,
        ⟨D3D12Ident.GraphicsDesc, SegData.graphicsDesc stateDesc.image⟩,
        ⟨D3D12Ident.CachedPSO, SegData.bytes psoCacheBlob⟩,
        ⟨D3D12Ident.VS, SegData.bytes stateDesc.VS⟩,
        ⟨D3D12Ident.PS, SegData.bytes stateDesc.PS⟩,
        ⟨D3D12Ident.DS, SegData.bytes stateDesc.DS⟩,
        ⟨D3D12Ident.HS, SegData.bytes stateDesc.HS⟩,
        ⟨D3D12Ident.GS, SegData.bytes stateDesc.GS⟩] ++ inputLayoutSegments stateDesc,
      bufferStridesSegments stateDesc ++
        [⟨D3D12Ident.StaticState, SegData.bytes pso.staticStateBytes⟩], ?_⟩
    unfold serializedSegments deserializePSOSegments streamOutputSegments
    rw [if_pos h]
    simp only [List.cons_append, List.nil_append, List.append_assoc]
  · intro h
    simp only [deserializedStateDesc, D3D12_GRAPHICS_PIPELINE_STATE_DESC.image, if_pos h,
      List.length_take, true_and]
    exact ⟨Nat.min_eq_left hn, trivial⟩
  · intro h
    simp only [deserializedStateDesc, D3D12_GRAPHICS_PIPELINE_STATE_DESC.image, if_pos h,
      List.length_take, true_and]
    exact ⟨Nat.min_eq_left hm, trivial⟩

/-- Witness for C11: the example PSO and the example native descriptor, with two input
elements and one stream-output entry. -/
theorem SerializePSO_deserialize_arrays_witness :
    (0 < exampleStateDesc.InputLayout.NumElements →
      ∃ before after,
        (examplePSO.SerializePSO {} exampleStateDesc [1, 2, 3] [9, 9, 9]).Finalize
          = before ++
            [⟨D3D12Ident.InputElements, SegData.inputElements
                ((exampleStateDesc.InputLayout.pInputElementDescs.take
                  exampleStateDesc.InputLayout.NumElements).map D3D12_INPUT_ELEMENT_DESC.image)⟩,
              ⟨D3D12Ident.InputSemanticNames, SegData.bytes
                ((exampleStateDesc.InputLayout.pInputElementDescs.take
                  exampleStateDesc.InputLayout.NumElements).flatMap
                    (fun e => e.SemanticName ++ [0]))⟩] ++ after) ∧
    (0 < exampleStateDesc.StreamOutput.NumEntries →
      ∃ before after,
        (examplePSO.SerializePSO {} exampleStateDesc [1, 2, 3] [9, 9, 9]).Finalize
          = before ++
            [⟨D3D12Ident.SODeclEntries, SegData.soDeclEntries
                ((exampleStateDesc.StreamOutput.pSODeclaration.take
                  exampleStateDesc.StreamOutput.NumEntries).map D3D12_SO_DECLARATION_ENTRY.image)⟩,
              ⟨D3D12Ident.SOSemanticNames, SegData.bytes
                ((exampleStateDesc.StreamOutput.pSODeclaration.take
                  exampleStateDesc.StreamOutput.NumEntries).flatMap
                    (fun e => e.SemanticName ++ [0]))⟩] ++ after) ∧
    ∃ pso' reader' stateDesc',
      DeserializeGraphicsPSO exampleDevice
          (examplePSO.SerializePSO {} exampleStateDesc [1, 2, 3] [9, 9, 9]).Finalize
        = .ok (pso', reader', stateDesc') ∧
      (0 < exampleStateDesc.InputLayout.NumElements →
        stateDesc'.InputLayout.NumElements = exampleStateDesc.InputLayout.NumElements ∧
        stateDesc'.InputLayout.pInputElementDescs.length
          = exampleStateDesc.InputLayout.NumElements ∧
        stateDesc'.InputLayout.pInputElementDescs
          = exampleStateDesc.InputLayout.pInputElementDescs.take
              exampleStateDesc.InputLayout.NumElements) ∧
      (0 < exampleStateDesc.StreamOutput.NumEntries →
        stateDesc'.StreamOutput.NumEntries = exampleStateDesc.StreamOutput.NumEntries ∧
        stateDesc'.StreamOutput.pSODeclaration.length
          = exampleStateDesc.StreamOutput.NumEntries ∧
        stateDesc'.StreamOutput.pSODeclaration
          = exampleStateDesc.StreamOutput.pSODeclaration.take
              exampleStateDesc.StreamOutput.NumEntries) :=
  SerializePSO_deserialize_arrays exampleDevice examplePSO exampleStateDesc [1, 2, 3] [9, 9, 9]
    (by decide) (by decide)

/-! ## Theorems: Direct3D 12 static-state buffer and binding -/

theorem D3D12_VIEWPORT_bytes_length (v : Viewport) :
    (D3D12_VIEWPORT_bytes v).length = sizeofD3D12_VIEWPORT := by
  simp only [D3D12_VIEWPORT_bytes, List.length_append, leBytes_length, sizeofD3D12_VIEWPORT]

theorem D3D12_RECT_bytes_length (sc : Scissor) :
    (D3D12_RECT_bytes sc).length = sizeofD3D12_RECT := by
  simp only [D3D12_RECT_bytes, List.length_append, leBytes_length, sizeofD3D12_RECT]

/-- Element `i` of a packed array of structures of `w` bytes each. -/
theorem drop_take_flatMap_uniform {α : Type} (f : α → List Nat) (w : Nat)
    (hf : ∀ a, (f a).length = w) (xs : List α) (rest : List Nat) (i : Nat)
    (hi : i < xs.length) :
    ((xs.flatMap f ++ rest).drop (i * w)).take w = f (xs.get ⟨i, hi⟩) := by
  induction xs generalizing i with
  | nil => simp at hi
  | cons x xs ih =>
    cases i with
    | zero =>
      simp only [List.flatMap_cons, Nat.zero_mul, List.drop_zero, List.append_assoc,
        List.get_eq_getElem, List.getElem_cons_zero]
      exact take_append_of_length _ _ _ (hf x)
    | succ k =>
      have hk : k < xs.length := by simp at hi; omega
      have := ih k hk
      simp only [List.flatMap_cons, List.append_assoc, List.get_eq_getElem,
        List.getElem_cons_succ] at this ⊢
      rw [show (k + 1) * w = (f x).length + k * w by rw [hf x]; ring, List.drop_append]
      exact this

/-- Result of `BuildStaticStateBuffer` within the limit of 16 viewports and 16
scissors. -/
theorem BuildStaticStateBuffer_eq (pso₀ : D3D12GraphicsPSO) (desc : GraphicsPipelineDescriptor)
    (hv : desc.viewports.length ≤ 16) (hs : desc.scissors.length ≤ 16) :
    pso₀.BuildStaticStateBuffer desc
      = .ok { pso₀ with
              numStaticViewports_ :=
                if desc.viewports ≠ [] then desc.viewports.length else pso₀.numStaticViewports_
              numStaticScissors_ :=
                if desc.scissors ≠ [] then desc.scissors.length else pso₀.numStaticScissors_
              staticStateBuffer_ :=
                some (desc.viewports.flatMap D3D12_VIEWPORT_bytes ++
                  desc.scissors.flatMap D3D12_RECT_bytes) } := by
  have hv' : desc.viewports.length % UINT_SIZE = desc.viewports.length :=
    Nat.mod_eq_of_lt (by unfold UINT_SIZE; omega)
  have hs' : desc.scissors.length % UINT_SIZE = desc.scissors.length :=
    Nat.mod_eq_of_lt (by unfold UINT_SIZE; omega)
  have hv16 : ¬ desc.viewports.length > 16 := by omega
  have hs16 : ¬ desc.scissors.length > 16 := by omega
  by_cases hv0 : desc.viewports = [] <;> by_cases hs0 : desc.scissors = []
  · simp [hv0, hs0, D3D12GraphicsPSO.BuildStaticStateBuffer, pure, Except.pure, bind,
      Except.bind]
  · simp [hv0, hs0, D3D12GraphicsPSO.BuildStaticStateBuffer,
      D3D12GraphicsPSO.BuildStaticScissors, pure, Except.pure, bind, Except.bind, hs',
      D3D12_VIEWPORT_AND_SCISSORRECT_OBJECT_COUNT_PER_PIPELINE, hs16]
  · simp [hv0, hs0, D3D12GraphicsPSO.BuildStaticStateBuffer,
      D3D12GraphicsPSO.BuildStaticViewports, pure, Except.pure, bind, Except.bind, hv',
      D3D12_VIEWPORT_AND_SCISSORRECT_OBJECT_COUNT_PER_PIPELINE, hv16]
  · simp [hv0, hs0, D3D12GraphicsPSO.BuildStaticStateBuffer,
      D3D12GraphicsPSO.BuildStaticViewports, D3D12GraphicsPSO.BuildStaticScissors, pure,
      Except.pure, bind, Except.bind, hv', hs',
      D3D12_VIEWPORT_AND_SCISSORRECT_OBJECT_COUNT_PER_PIPELINE, hv16, hs16]


/-- The calls of `SetStaticViewportsAndScissors` for a PSO whose static state holds the
viewports `vs` and the scissors `ss`. -/
theorem SetStaticViewportsAndScissors_eq (pso : D3D12GraphicsPSO) (vs : List Viewport)
    (ss : List Scissor)
    (hb : pso.staticStateBuffer_ =
      if vs ≠ [] ∨ ss ≠ [] then
        some (vs.flatMap D3D12_VIEWPORT_bytes ++ ss.flatMap D3D12_RECT_bytes)
      else none)
    (hnv : pso.numStaticViewports_ = vs.length) (hns : pso.numStaticScissors_ = ss.length) :
    pso.SetStaticViewportsAndScissors
      = (if 0 < vs.length then
          [D3D12Command.RSSetViewports vs.length (vs.flatMap D3D12_VIEWPORT_bytes)] else []) ++
        (if 0 < ss.length then
          [D3D12Command.RSSetScissorRects ss.length (ss.flatMap D3D12_RECT_bytes)] else []) := by
  have hvp : ((vs.flatMap D3D12_VIEWPORT_bytes ++ ss.flatMap D3D12_RECT_bytes).drop 0).take
      (vs.length * sizeofD3D12_VIEWPORT) = vs.flatMap D3D12_VIEWPORT_bytes := by
    rw [List.drop_zero]
    exact take_append_of_length _ _ _ (length_flatMap_VIEWPORT vs)
  have hsc : ∀ p, p = vs.length * sizeofD3D12_VIEWPORT →
      ((vs.flatMap D3D12_VIEWPORT_bytes ++ ss.flatMap D3D12_RECT_bytes).drop p).take
        (ss.length * sizeofD3D12_RECT) = ss.flatMap D3D12_RECT_bytes := by
    intro p hp
    rw [drop_append_of_length _ _ _ ((length_flatMap_VIEWPORT vs).trans hp.symm),
      ← length_flatMap_RECT, List.take_length]
  unfold D3D12GraphicsPSO.SetStaticViewportsAndScissors
  rw [hb, hnv, hns]
  by_cases hv0 : vs = [] <;> by_cases hs0 : ss = []
  · subst hv0 hs0
    simp
  · subst hv0
    have hpos : 0 < ss.length := List.length_pos.mpr hs0
    have := hsc 0 (by simp)
    simp only [List.length_nil, ne_eq, not_true_eq_false, false_or, hs0, not_false_eq_true,
      if_true, gt_iff_lt, Nat.lt_irrefl, if_false, hpos, ByteBufferIterator.Next,
      ByteBufferIterator.array, this, List.nil_append]
  · subst hs0
    have hpos : 0 < vs.length := List.length_pos.mpr hv0
    simp only [List.length_nil, ne_eq, not_true_eq_false, or_false, hv0, not_false_eq_true,
      if_true, gt_iff_lt, Nat.lt_irrefl, if_false, hpos, ByteBufferIterator.Next,
      ByteBufferIterator.array, hvp, List.append_nil]
  · have hposv : 0 < vs.length := List.length_pos.mpr hv0
    have hposs : 0 < ss.length := List.length_pos.mpr hs0
    have := hsc (0 + sizeofD3D12_VIEWPORT * vs.length) (by ring)
    simp only [ne_eq, hv0, not_false_eq_true, true_or, if_true, gt_iff_lt, hposv, hposs,
      ByteBufferIterator.Next, ByteBufferIterator.array, hvp, this]

/-- Method `CreateNativePSOFromDesc` in terms of the native descriptor it fills in. -/
theorem CreateNativePSOFromDesc_eq (T : D3D12Types) (pso : D3D12GraphicsPSO)
    (dev : D3D12Device) (pipelineLayout : D3D12PipelineLayout)
    (renderPass : Option D3D12RenderPass) (desc : GraphicsPipelineDescriptor)
    (writer : Option Serializer) :
    pso.CreateNativePSOFromDesc T dev pipelineLayout renderPass desc writer
      = match dev.CreateDXGraphicsPipelineState
            (nativeStateDesc T pso.rootSignature_ renderPass desc) with
        | (dev, .error e) => (dev, .error e)
        | (dev, .ok native) =>
          match writer with
          | none => (dev, .ok ({ pso with native_ := some native }, none))
          | some writer =>
            match dev.cachedBlob native with
            | none =>
              (dev, .error (Error.NativeFailure
                "failed to retrieve cached blob from ID3D12PipelineState"))
            | some cachedBlob =>
              match pipelineLayout.serializedBlob with
              | none =>
                (dev, .error (Error.NativeFailure
                  "failed to retrieve serialized root signature blob from ID3D12RootSignature"))
              | some rootSignatureBlob =>
                (dev, .ok ({ pso with native_ := some native },
                  some (D3D12GraphicsPSO.SerializePSO { pso with native_ := some native } writer
                    (nativeStateDesc T pso.rootSignature_ renderPass desc) rootSignatureBlob
                    cachedBlob))) := rfl

/-- What a successful `CreateNativePSOFromDesc` leaves: the PSO with the native object,
and the device with the native descriptor appended. -/
theorem CreateNativePSOFromDesc_created (T : D3D12Types) (pso₁ pso : D3D12GraphicsPSO)
    (dev dev' : D3D12Device) (pipelineLayout : D3D12PipelineLayout)
    (renderPass : Option D3D12RenderPass) (desc : GraphicsPipelineDescriptor)
    (w w' : Option Serializer)
    (h : pso₁.CreateNativePSOFromDesc T dev pipelineLayout renderPass desc w
      = (dev', .ok (pso, w'))) :
    pso = { pso₁ with native_ := some dev.created.length } ∧
      dev'.created = dev.created ++ [nativeStateDesc T pso₁.rootSignature_ renderPass desc] := by
  rw [CreateNativePSOFromDesc_eq] at h
  unfold D3D12Device.CreateDXGraphicsPipelineState at h
  by_cases hacc : dev.accepts (nativeStateDesc T pso₁.rootSignature_ renderPass desc) = true
  · rw [if_pos hacc] at h
    simp only [] at h
    cases w with
    | none =>
      simp only [Prod.mk.injEq, Except.ok.injEq] at h
      obtain ⟨hd, hp, -⟩ := h
      exact ⟨hp.symm, by rw [← hd]⟩
    | some w₀ =>
      simp only [] at h
      cases hcb : dev.cachedBlob dev.created.length with
      | none => simp [hcb] at h
      | some cb =>
        cases hsb : pipelineLayout.serializedBlob with
        | none => simp [hcb, hsb] at h
        | some rsb =>
          simp only [hcb, hsb, Prod.mk.injEq, Except.ok.injEq] at h
          obtain ⟨hd, hp, -⟩ := h
          exact ⟨hp.symm, by rw [← hd]⟩
  · rw [if_neg hacc] at h
    simp at h

/-- The constructor with a vertex shader and within the limits reaches
`CreateNativePSOFromDesc` with the members of `staticPSO`. -/
theorem D3D12GraphicsPSO_ctor_eq (T : D3D12Types) (dev : D3D12Device)
    (defaultPipelineLayout : D3D12PipelineLayout) (desc : GraphicsPipelineDescriptor)
    (defaultRenderPass : Option D3D12RenderPass) (writer : Option Serializer)
    (hvs : desc.vertexShader ≠ none)
    (hv : desc.viewports.length ≤ 16) (hs : desc.scissors.length ≤ 16) :
    D3D12GraphicsPSO.ctor T dev defaultPipelineLayout desc defaultRenderPass writer
      = (staticPSO T defaultPipelineLayout desc).CreateNativePSOFromDesc T dev
          (match desc.pipelineLayout with
            | some pl => pl
            | none => defaultPipelineLayout)
          (match desc.renderPass with
            | some rp => some rp
            | none => defaultRenderPass)
          desc writer := by
  unfold D3D12GraphicsPSO.ctor
  rw [if_neg hvs]
  simp only []
  by_cases hne : desc.viewports ≠ [] ∨ desc.scissors ≠ []
  · rw [if_pos hne, BuildStaticStateBuffer_eq _ desc hv hs]
    simp only []
    congr 1
    unfold staticPSO D3D12GraphicsPSO.initial
    simp only [if_pos hne]
    congr 1
    · split
      · rfl
      · rename_i h; simp only [ne_eq, not_not] at h; rw [h]; rfl
    · split
      · rfl
      · rename_i h; simp only [ne_eq, not_not] at h; rw [h]; rfl
  · rw [if_neg hne]
    simp only [pure, Except.pure]
    congr 1
    unfold staticPSO D3D12GraphicsPSO.initial
    simp only [if_neg hne]
    simp only [ne_eq, not_or, not_not] at hne
    rw [hne.1, hne.2]
    rfl

/-- A successful constructor had a vertex shader and at most 16 viewports and 16
scissors. -/
theorem D3D12GraphicsPSO_ctor_ok_limits (T : D3D12Types) (dev dev' : D3D12Device)
    (defaultPipelineLayout : D3D12PipelineLayout) (desc : GraphicsPipelineDescriptor)
    (defaultRenderPass : Option D3D12RenderPass) (w w' : Option Serializer)
    (pso : D3D12GraphicsPSO)
    (hv : desc.viewports.length < UINT_SIZE) (hs : desc.scissors.length < UINT_SIZE)
    (h : D3D12GraphicsPSO.ctor T dev defaultPipelineLayout desc defaultRenderPass w
      = (dev', .ok (pso, w'))) :
    desc.vertexShader ≠ none ∧ desc.viewports.length ≤ 16 ∧ desc.scissors.length ≤ 16 := by
  unfold D3D12GraphicsPSO.ctor at h
  by_cases hnone : desc.vertexShader = none
  · rw [if_pos hnone] at h
    cases h
  · rw [if_neg hnone] at h
    simp only [] at h
    split at h
    · cases h
    · rename_i pso₁ hbuild
      obtain ⟨-, hv16, hs16⟩ := BuildStaticStateBuffer_ok _ pso₁ desc hv hs rfl rfl rfl hbuild
      exact ⟨hnone, hv16, hs16⟩

/-- C20: for a PSO that the constructor built from a descriptor with `v` static viewports
and `s` static scissors, `Bind` makes these calls in this order: set graphics root
signature, set pipeline state, set primitive topology, set stencil reference exactly
when the static stencil reference is enabled, set blend factor exactly when the static
blend factor is enabled, set the `v` viewports exactly when `v > 0`, set the `s` scissor
rectangles exactly when `s > 0`; the viewports and rectangles passed are those of the
descriptor as stored in the static-state buffer, the rectangles from offset
`v * sizeof(D3D12_VIEWPORT)`. -/
theorem D3D12GraphicsPSO_Bind_calls (T : D3D12Types) (dev dev' : D3D12Device)
    (defaultPipelineLayout : D3D12PipelineLayout) (desc : GraphicsPipelineDescriptor)
    (defaultRenderPass : Option D3D12RenderPass) (w w' : Option Serializer)
    (pso : D3D12GraphicsPSO)
    (hv : desc.viewports.length < UINT_SIZE) (hs : desc.scissors.length < UINT_SIZE)
    (h : D3D12GraphicsPSO.ctor T dev defaultPipelineLayout desc defaultRenderPass w
      = (dev', .ok (pso, w'))) :
    pso.Bind
      = [D3D12Command.SetGraphicsRootSignature pso.rootSignature_,
          D3D12Command.SetPipelineState pso.native_,
          D3D12Command.IASetPrimitiveTopology pso.primitiveTopology_] ++
        (if pso.stencilRefEnabled_ then [D3D12Command.OMSetStencilRef pso.stencilRef_]
          else []) ++
        (if pso.blendFactorEnabled_ then [D3D12Command.OMSetBlendFactor pso.blendFactor_]
          else []) ++
        ((if 0 < desc.viewports.length then
            [D3D12Command.RSSetViewports desc.viewports.length
              (desc.viewports.flatMap D3D12_VIEWPORT_bytes)] else []) ++
          (if 0 < desc.scissors.length then
            [D3D12Command.RSSetScissorRects desc.scissors.length
              (desc.scissors.flatMap D3D12_RECT_bytes)] else [])) ∧
    pso.numStaticViewports_ = desc.viewports.length ∧
    pso.numStaticScissors_ = desc.scissors.length ∧
    (0 < desc.viewports.length + desc.scissors.length →
      ∃ buf, pso.staticStateBuffer_ = some buf ∧
        buf.take (desc.viewports.length * sizeofD3D12_VIEWPORT)
          = desc.viewports.flatMap D3D12_VIEWPORT_bytes ∧
        (buf.drop (desc.viewports.length * sizeofD3D12_VIEWPORT)).take
            (desc.scissors.length * sizeofD3D12_RECT)
          = desc.scissors.flatMap D3D12_RECT_bytes) := by
  obtain ⟨hvs, hv16, hs16⟩ := D3D12GraphicsPSO_ctor_ok_limits T dev dev' defaultPipelineLayout
    desc defaultRenderPass w w' pso hv hs h
  rw [D3D12GraphicsPSO_ctor_eq T dev defaultPipelineLayout desc defaultRenderPass w hvs hv16
    hs16] at h
  obtain ⟨hp, -⟩ := CreateNativePSOFromDesc_created T _ pso dev dev' _ _ desc w w' h
  have hb : pso.staticStateBuffer_ =
      if desc.viewports ≠ [] ∨ desc.scissors ≠ [] then
        some (desc.viewports.flatMap D3D12_VIEWPORT_bytes ++
          desc.scissors.flatMap D3D12_RECT_bytes)
      else none := by rw [hp]; rfl
  have hnv : pso.numStaticViewports_ = desc.viewports.length := by rw [hp]; rfl
  have hns : pso.numStaticScissors_ = desc.scissors.length := by rw [hp]; rfl
  refine ⟨?_, hnv, hns, ?_⟩
  · unfold D3D12GraphicsPSO.Bind
    rw [SetStaticViewportsAndScissors_eq pso desc.viewports desc.scissors hb hnv hns]
  · intro hpos
    have hne : desc.viewports ≠ [] ∨ desc.scissors ≠ [] := by
      by_contra hc
      simp only [ne_eq, not_or, not_not] at hc
      rw [hc.1, hc.2] at hpos
      simp at hpos
    rw [if_pos hne] at hb
    refine ⟨_, hb, take_append_of_length _ _ _ (length_flatMap_VIEWPORT _), ?_⟩
    rw [drop_append_of_length _ _ _ (length_flatMap_VIEWPORT _), ← length_flatMap_RECT,
      List.take_length]

/-- Witness for C20: the PSO built from the descriptor with one static viewport and two
static scissors. -/
theorem D3D12GraphicsPSO_Bind_calls_witness :
    exampleBoundPSO.Bind
      = [D3D12Command.SetGraphicsRootSignature
            exampleBoundPSO.rootSignature_,
          D3D12Command.SetPipelineState
            exampleBoundPSO.native_,
          D3D12Command.IASetPrimitiveTopology
            exampleBoundPSO.primitiveTopology_] ++
        (if exampleBoundPSO.stencilRefEnabled_ then
            [D3D12Command.OMSetStencilRef
              exampleBoundPSO.stencilRef_]
          else []) ++
        (if exampleBoundPSO.blendFactorEnabled_ then
            [D3D12Command.OMSetBlendFactor
              exampleBoundPSO.blendFactor_]
          else []) ++
        ((if 0 < exampleStaticDesc.viewports.length then
            [D3D12Command.RSSetViewports exampleStaticDesc.viewports.length
              (exampleStaticDesc.viewports.flatMap D3D12_VIEWPORT_bytes)] else []) ++
          (if 0 < exampleStaticDesc.scissors.length then
            [D3D12Command.RSSetScissorRects exampleStaticDesc.scissors.length
              (exampleStaticDesc.scissors.flatMap D3D12_RECT_bytes)] else [])) ∧
    exampleBoundPSO.numStaticViewports_
      = exampleStaticDesc.viewports.length ∧
    exampleBoundPSO.numStaticScissors_
      = exampleStaticDesc.scissors.length ∧
    (0 < exampleStaticDesc.viewports.length + exampleStaticDesc.scissors.length →
      ∃ buf, exampleBoundPSO.staticStateBuffer_ = some buf ∧
        buf.take (exampleStaticDesc.viewports.length * sizeofD3D12_VIEWPORT)
          = exampleStaticDesc.viewports.flatMap D3D12_VIEWPORT_bytes ∧
        (buf.drop (exampleStaticDesc.viewports.length * sizeofD3D12_VIEWPORT)).take
            (exampleStaticDesc.scissors.length * sizeofD3D12_RECT)
          = exampleStaticDesc.scissors.flatMap D3D12_RECT_bytes) :=
  D3D12GraphicsPSO_Bind_calls exampleTypes exampleDevice
    (D3D12GraphicsPSO.ctor exampleTypes exampleDevice exampleLayout exampleStaticDesc none none).1
    exampleLayout exampleStaticDesc none none none
    exampleBoundPSO (by decide) (by decide) rfl

/-! ## Theorems: Direct3D 12 render pass of a graphics PSO -/

theorem BuildStaticStateBuffer_rootSignature (pso₀ pso : D3D12GraphicsPSO)
    (desc : GraphicsPipelineDescriptor) (h : pso₀.BuildStaticStateBuffer desc = .ok pso) :
    pso.rootSignature_ = pso₀.rootSignature_ := by
  by_cases hv0 : desc.viewports = [] <;> by_cases hs0 : desc.scissors = [] <;>
    by_cases h16v : desc.viewports.length % UINT_SIZE >
      D3D12_VIEWPORT_AND_SCISSORRECT_OBJECT_COUNT_PER_PIPELINE <;>
    by_cases h16s : desc.scissors.length % UINT_SIZE >
      D3D12_VIEWPORT_AND_SCISSORRECT_OBJECT_COUNT_PER_PIPELINE <;>
    simp only [D3D12GraphicsPSO.BuildStaticStateBuffer, D3D12GraphicsPSO.BuildStaticViewports,
      D3D12GraphicsPSO.BuildStaticScissors, hv0, hs0, h16v, h16s, bind, Except.bind, pure,
      Except.pure, ne_eq, not_true_eq_false, not_false_eq_true, if_true, if_false,
      Except.ok.injEq, reduceCtorEq] at h <;>
    (subst h; rfl)

/-- The native descriptor a successful constructor has created. -/
theorem D3D12GraphicsPSO_ctor_created (T : D3D12Types) (dev dev' : D3D12Device)
    (defaultPipelineLayout : D3D12PipelineLayout) (desc : GraphicsPipelineDescriptor)
    (defaultRenderPass : Option D3D12RenderPass) (w w' : Option Serializer)
    (pso : D3D12GraphicsPSO)
    (h : D3D12GraphicsPSO.ctor T dev defaultPipelineLayout desc defaultRenderPass w
      = (dev', .ok (pso, w'))) :
    dev'.created = dev.created ++
      [nativeStateDesc T (staticPSO T defaultPipelineLayout desc).rootSignature_
        (match desc.renderPass with
          | some rp => some rp
          | none => defaultRenderPass) desc] := by
  unfold D3D12GraphicsPSO.ctor at h
  by_cases hnone : desc.vertexShader = none
  · rw [if_pos hnone] at h
    cases h
  · rw [if_neg hnone] at h
    simp only [] at h
    split at h
    · cases h
    · rename_i pso₁ hbuild
      have hrs : pso₁.rootSignature_ = (staticPSO T defaultPipelineLayout desc).rootSignature_ := by
        by_cases hne : desc.viewports ≠ [] ∨ desc.scissors ≠ []
        · rw [if_pos hne] at hbuild
          rw [BuildStaticStateBuffer_rootSignature _ pso₁ desc hbuild]
          rfl
        · rw [if_neg hne] at hbuild
          simp only [pure, Except.pure, Except.ok.injEq] at hbuild
          rw [← hbuild]
          rfl
      obtain ⟨-, hc⟩ := CreateNativePSOFromDesc_created T pso₁ pso dev dev' _ _ desc w w' h
      exact hc.trans (congrArg (fun r => dev.created ++ [nativeStateDesc T r _ desc]) hrs)

theorem CreatePipelineStateGraphics_ok (T : D3D12Types) (rs rs' : D3D12RenderSystem)
    (desc : GraphicsPipelineDescriptor) (serializedCache cache' : Option (Option Blob))
    (ps : PipelineState)
    (h : rs.CreatePipelineStateGraphics T desc serializedCache = (rs', cache', .ok ps)) :
    ∃ pso w', D3D12GraphicsPSO.ctor T rs.device_ rs.defaultPipelineLayout_ desc
        rs.GetDefaultRenderPass (if serializedCache.isSome then some {} else none)
      = (rs'.device_, .ok (pso, w')) := by
  unfold D3D12RenderSystem.CreatePipelineStateGraphics at h
  simp only [] at h
  split at h
  · simp at h
  · rename_i dev pso w' hc
    simp only [Prod.mk.injEq] at h
    exact ⟨pso, w', by rw [hc, ← h.1]⟩

theorem effectiveRenderPass_eq (rs : D3D12RenderSystem) (desc : GraphicsPipelineDescriptor) :
    (match desc.renderPass with
      | some rp => some rp
      | none => rs.GetDefaultRenderPass) = effectiveRenderPass rs desc := by
  unfold effectiveRenderPass D3D12RenderSystem.GetDefaultRenderPass
  cases desc.renderPass <;> rfl

/-- C12: the native descriptor of a graphics PSO that `CreatePipelineState` creates is
built against the render pass of the pipeline descriptor when that is not null, and
otherwise against the default render pass, which is the render pass of the first swap
chain when there is a swap chain and absent otherwise: number of render targets,
depth-stencil format, sample count, blend state and color formats are those of that
render pass. -/
theorem CreatePipelineState_render_pass (T : D3D12Types) (rs rs' : D3D12RenderSystem)
    (desc : GraphicsPipelineDescriptor) (serializedCache cache' : Option (Option Blob))
    (ps : PipelineState)
    (h : rs.CreatePipelineStateGraphics T desc serializedCache = (rs', cache', .ok ps)) :
    ∃ stateDesc, rs'.device_.created = rs.device_.created ++ [stateDesc] ∧
      match effectiveRenderPass rs desc with
      | some rp =>
        stateDesc.NumRenderTargets = rp.numColorAttachments ∧
        stateDesc.DSVFormat = rp.dsvFormat ∧
        stateDesc.SampleDescCount = rp.sampleCount ∧
        (stateDesc.BlendState, stateDesc.RTVFormats) = ConvertBlendDescRenderPass T desc.blend rp
      | none =>
        stateDesc.NumRenderTargets = 1 ∧
        stateDesc.DSVFormat = DXGI_FORMAT_D24_UNORM_S8_UINT ∧
        stateDesc.SampleDescCount = 1 ∧
        (stateDesc.BlendState, stateDesc.RTVFormats) = ConvertBlendDesc T desc.blend 1 := by
  obtain ⟨pso, w', hc⟩ := CreatePipelineStateGraphics_ok T rs rs' desc serializedCache cache' ps h
  have hcr := D3D12GraphicsPSO_ctor_created T _ _ _ desc _ _ w' pso hc
  rw [effectiveRenderPass_eq] at hcr
  refine ⟨_, hcr, ?_⟩
  cases effectiveRenderPass rs desc with
  | some rp => exact ⟨rfl, rfl, rfl, rfl⟩
  | none => exact ⟨rfl, rfl, rfl, rfl⟩

/-- Witness for C12: a render system with one swap chain and a descriptor without render
pass. -/
theorem CreatePipelineState_render_pass_witness :
    ∃ stateDesc,
      (exampleRenderSystemWithSwapChain.CreatePipelineStateGraphics exampleTypes
          (exampleDesc (some exampleShader) [] []) none).1.device_.created
        = exampleRenderSystemWithSwapChain.device_.created ++ [stateDesc] ∧
      match effectiveRenderPass exampleRenderSystemWithSwapChain
          (exampleDesc (some exampleShader) [] []) with
      | some rp =>
        stateDesc.NumRenderTargets = rp.numColorAttachments ∧
        stateDesc.DSVFormat = rp.dsvFormat ∧
        stateDesc.SampleDescCount = rp.sampleCount ∧
        (stateDesc.BlendState, stateDesc.RTVFormats)
          = ConvertBlendDescRenderPass exampleTypes (exampleDesc (some exampleShader) [] []).blend rp
      | none =>
        stateDesc.NumRenderTargets = 1 ∧
        stateDesc.DSVFormat = DXGI_FORMAT_D24_UNORM_S8_UINT ∧
        stateDesc.SampleDescCount = 1 ∧
        (stateDesc.BlendState, stateDesc.RTVFormats)
          = ConvertBlendDesc exampleTypes (exampleDesc (some exampleShader) [] []).blend 1 :=
  CreatePipelineState_render_pass exampleTypes exampleRenderSystemWithSwapChain
    (exampleRenderSystemWithSwapChain.CreatePipelineStateGraphics exampleTypes
      (exampleDesc (some exampleShader) [] []) none).1
    (exampleDesc (some exampleShader) [] []) none none
    (PipelineState.Graphics
      { staticPSO exampleTypes exampleLayout (exampleDesc (some exampleShader) [] []) with
        native_ := some 0 })
    rfl

/-- C13, counterexample: the example descriptor names no render pass, the example render
system has no swap chain and so no default render pass, and `CreatePipelineState`
succeeds and has created a native pipeline state. -/
theorem CreatePipelineState_without_render_pass_succeeds :
    (exampleDesc (some exampleShader) [] []).renderPass = none ∧
    exampleRenderSystem.swapChains_ = [] ∧
    exampleRenderSystem.GetDefaultRenderPass = none ∧
    ∃ rs' ps,
      exampleRenderSystem.CreatePipelineStateGraphics exampleTypes
          (exampleDesc (some exampleShader) [] []) none = (rs', none, .ok ps) ∧
      rs'.device_.created.length = exampleRenderSystem.device_.created.length + 1 :=
  ⟨rfl, rfl, rfl, _, _, rfl, rfl⟩

/-- C13, amended: when the descriptor names no render pass and there is no swap chain,
`CreatePipelineState` does not fail for that reason; with a vertex shader, at most 16
static viewports and scissors, a driver that accepts the descriptor and, when a
serialized cache is requested, a driver that hands out the cached blob and a pipeline
layout that hands out the serialized root signature, it succeeds and creates the native
pipeline state for one render target, depth-stencil format
`DXGI_FORMAT_D24_UNORM_S8_UINT`, sample count 1 and the blend state and color formats of
`ConvertBlendDesc` for one attachment. -/
theorem CreatePipelineState_without_render_pass (T : D3D12Types) (rs : D3D12RenderSystem)
    (desc : GraphicsPipelineDescriptor) (serializedCache : Option (Option Blob))
    (hrp : desc.renderPass = none) (hsc : rs.swapChains_ = [])
    (hvs : desc.vertexShader ≠ none)
    (hv : desc.viewports.length ≤ 16) (hs : desc.scissors.length ≤ 16)
    (hacc : rs.device_.accepts
      (nativeStateDesc T (staticPSO T rs.defaultPipelineLayout_ desc).rootSignature_ none desc)
        = true)
    (hcache : serializedCache.isSome = true →
      (∃ cachedBlob, rs.device_.cachedBlob rs.device_.created.length = some cachedBlob) ∧
      ∃ rootSignatureBlob,
        (desc.pipelineLayout.getD rs.defaultPipelineLayout_).serializedBlob
          = some rootSignatureBlob) :
    ∃ rs' cache' pso stateDesc,
      rs.CreatePipelineStateGraphics T desc serializedCache
        = (rs', cache', .ok (PipelineState.Graphics pso)) ∧
      cache'.isSome = serializedCache.isSome ∧
      pso.native_ = some rs.device_.created.length ∧
      rs'.device_.created = rs.device_.created ++ [stateDesc] ∧
      stateDesc.NumRenderTargets = 1 ∧
      stateDesc.DSVFormat = DXGI_FORMAT_D24_UNORM_S8_UINT ∧
      stateDesc.SampleDescCount = 1 ∧
      (stateDesc.BlendState, stateDesc.RTVFormats) = ConvertBlendDesc T desc.blend 1 := by
  have hdrp : rs.GetDefaultRenderPass = none := by
    unfold D3D12RenderSystem.GetDefaultRenderPass; rw [hsc]
  cases serializedCache with
  | none =>
    have hctor := D3D12GraphicsPSO_ctor_eq T rs.device_ rs.defaultPipelineLayout_ desc
      rs.GetDefaultRenderPass none hvs hv hs
    rw [CreateNativePSOFromDesc_eq] at hctor
    simp only [hrp, hdrp] at hctor
    unfold D3D12Device.CreateDXGraphicsPipelineState at hctor
    rw [if_pos hacc] at hctor
    simp only [] at hctor
    unfold D3D12RenderSystem.CreatePipelineStateGraphics
    simp only [Option.isSome_none, Bool.false_eq_true, if_false, hdrp, hctor, Option.map_none']
    refine ⟨_, _, _,
      nativeStateDesc T (staticPSO T rs.defaultPipelineLayout_ desc).rootSignature_ none desc,
      rfl, rfl, ?_, ?_, rfl, rfl, rfl, rfl⟩ <;> rfl
  | some c =>
    obtain ⟨⟨cachedBlob, hcb⟩, rootSignatureBlob, hsb⟩ := hcache rfl
    have hctor := D3D12GraphicsPSO_ctor_eq T rs.device_ rs.defaultPipelineLayout_ desc
      rs.GetDefaultRenderPass (some {}) hvs hv hs
    rw [CreateNativePSOFromDesc_eq] at hctor
    simp only [hrp, hdrp] at hctor
    unfold D3D12Device.CreateDXGraphicsPipelineState at hctor
    rw [if_pos hacc] at hctor
    cases hpl : desc.pipelineLayout with
    | none =>
      rw [hpl] at hsb
      simp only [Option.getD_none] at hsb
      simp only [hcb, hpl, hsb] at hctor
      unfold D3D12RenderSystem.CreatePipelineStateGraphics
      simp only [Option.isSome_some, if_true, hdrp, hctor, Option.map_some']
      refine ⟨_, _, _,
        nativeStateDesc T (staticPSO T rs.defaultPipelineLayout_ desc).rootSignature_ none desc,
        rfl, rfl, ?_, ?_, rfl, rfl, rfl, rfl⟩ <;> rfl
    | some pl =>
      rw [hpl] at hsb
      simp only [Option.getD_some] at hsb
      simp only [hcb, hpl, hsb] at hctor
      unfold D3D12RenderSystem.CreatePipelineStateGraphics
      simp only [Option.isSome_some, if_true, hdrp, hctor, Option.map_some']
      refine ⟨_, _, _,
        nativeStateDesc T (staticPSO T rs.defaultPipelineLayout_ desc).rootSignature_ none desc,
        rfl, rfl, ?_, ?_, rfl, rfl, rfl, rfl⟩ <;> rfl

/-- Witness for the amended C13: the example render system without swap chain, with a
serialized cache requested. -/
theorem CreatePipelineState_without_render_pass_witness :
    ∃ rs' cache' pso stateDesc,
      exampleRenderSystem.CreatePipelineStateGraphics exampleTypes
          (exampleDesc (some exampleShader) [] []) (some none)
        = (rs', cache', .ok (PipelineState.Graphics pso)) ∧
      cache'.isSome = (some (none : Option Blob)).isSome ∧
      pso.native_ = some exampleRenderSystem.device_.created.length ∧
      rs'.device_.created = exampleRenderSystem.device_.created ++ [stateDesc] ∧
      stateDesc.NumRenderTargets = 1 ∧
      stateDesc.DSVFormat = DXGI_FORMAT_D24_UNORM_S8_UINT ∧
      stateDesc.SampleDescCount = 1 ∧
      (stateDesc.BlendState, stateDesc.RTVFormats)
        = ConvertBlendDesc exampleTypes (exampleDesc (some exampleShader) [] []).blend 1 :=
  CreatePipelineState_without_render_pass exampleTypes exampleRenderSystem
    (exampleDesc (some exampleShader) [] []) (some none) rfl rfl (by decide) (by decide)
    (by decide) rfl (fun _ => ⟨⟨_, rfl⟩, _, rfl⟩)

/-- With a cache requested and a driver that hands out no cached blob, creation fails
after the native pipeline state has been created. -/
theorem CreatePipelineState_cache_blob_failure (T : D3D12Types) (rs : D3D12RenderSystem)
    (desc : GraphicsPipelineDescriptor) (cache : Option Blob)
    (hrp : desc.renderPass = none) (hsc : rs.swapChains_ = [])
    (hvs : desc.vertexShader ≠ none)
    (hv : desc.viewports.length ≤ 16) (hs : desc.scissors.length ≤ 16)
    (hacc : rs.device_.accepts
      (nativeStateDesc T (staticPSO T rs.defaultPipelineLayout_ desc).rootSignature_ none desc)
        = true)
    (hcb : rs.device_.cachedBlob rs.device_.created.length = none) :
    (rs.CreatePipelineStateGraphics T desc (some cache)).2.2
      = .error (Error.NativeFailure "failed to retrieve cached blob from ID3D12PipelineState") := by
  have hdrp : rs.GetDefaultRenderPass = none := by
    unfold D3D12RenderSystem.GetDefaultRenderPass; rw [hsc]
  have hctor := D3D12GraphicsPSO_ctor_eq T rs.device_ rs.defaultPipelineLayout_ desc
    rs.GetDefaultRenderPass (some {}) hvs hv hs
  rw [CreateNativePSOFromDesc_eq] at hctor
  simp only [hrp, hdrp] at hctor
  unfold D3D12Device.CreateDXGraphicsPipelineState at hctor
  rw [if_pos hacc] at hctor
  simp only [hcb] at hctor
  unfold D3D12RenderSystem.CreatePipelineStateGraphics
  simp only [Option.isSome_some, if_true, hdrp, hctor]

/-! ## Theorems: resource utilities -/

/-- C16: for every enumerator `access` of `CPUAccess`, declared in the order `ReadOnly`,
`WriteOnly`, `WriteDiscard`, `ReadWrite`, `HasWriteAccess(access)` is true exactly when
`access` is `WriteOnly`, `WriteDiscard` or `ReadWrite`, and `HasReadAccess(access)` is
true exactly when `access` is `ReadOnly` or `ReadWrite`. -/
theorem HasReadAccess_HasWriteAccess_spec (E : CPUAccessValues) (hE : E.InDeclarationOrder)
    (access : Nat) (ha : access ∈ E.enumerators) :
    (HasWriteAccess E access = true ↔
      access = E.WriteOnly ∨ access = E.WriteDiscard ∨ access = E.ReadWrite) ∧
    (HasReadAccess E access = true ↔ access = E.ReadOnly ∨ access = E.ReadWrite) := by
  obtain ⟨h1, h2, h3⟩ := hE
  simp only [CPUAccessValues.enumerators, List.mem_cons, List.mem_singleton,
    List.not_mem_nil, or_false] at ha
  constructor
  · simp only [HasWriteAccess, Bool.and_eq_true, decide_eq_true_eq, ge_iff_le]
    constructor
    · intro hw
      rcases ha with h | h | h | h
      · omega
      · exact Or.inl h
      · exact Or.inr (Or.inl h)
      · exact Or.inr (Or.inr h)
    · intro hw
      omega
  · simp only [HasReadAccess, Bool.or_eq_true, beq_iff_eq]

/-- Witness for C16: the enumerator `WriteDiscard` with the values numbered from 0. -/
theorem HasReadAccess_HasWriteAccess_spec_witness :
    (HasWriteAccess exampleCPUAccess 2 = true ↔
      2 = exampleCPUAccess.WriteOnly ∨ 2 = exampleCPUAccess.WriteDiscard ∨
        2 = exampleCPUAccess.ReadWrite) ∧
    (HasReadAccess exampleCPUAccess 2 = true ↔
      2 = exampleCPUAccess.ReadOnly ∨ 2 = exampleCPUAccess.ReadWrite) :=
  HasReadAccess_HasWriteAccess_spec exampleCPUAccess (by decide) 2 (by decide)

/-! ## Theorems: Win32 JIT program -/

/-- C15: the constructor of `Win32JITProgram` throws `std::runtime_error` when the
allocation of the memory region fails and when the change of its protection to
read-execute fails, so that no program object and no entry point exists; when both
succeed the entry point is the base address of the allocated region, which holds the
`size` bytes of the code and is protected read-execute. -/
theorem Win32JITProgram_ctor_outcome (os : Win32VirtualMemory) (code : List Nat) (size : Nat)
    (hsize : size ≤ code.length) :
    (os.allocResult size = 0 →
      Win32JITProgram.ctor os code size
        = (os, .error (Error.RuntimeError
            ("failed to allocate " ++ toString size ++ " byte(s) of executable memory")))) ∧
    (os.allocResult size ≠ 0 → os.protectSucceeds (os.allocResult size) size = false →
      (Win32JITProgram.ctor os code size).2
        = .error (Error.RuntimeError "failed to change virtual memory protection")) ∧
    (os.allocResult size ≠ 0 → os.protectSucceeds (os.allocResult size) size = true →
      ∃ prog region rest,
        (Win32JITProgram.ctor os code size).2 = .ok prog ∧
        prog.entryPoint_ = some (os.allocResult size) ∧
        (Win32JITProgram.ctor os code size).1.regions = region :: rest ∧
        region.addr = os.allocResult size ∧
        region.bytes = code.take size ∧ region.bytes.length = size ∧
        region.protect = PageProtection.PAGE_EXECUTE_READ) := by
  have hcopy : code.take size ++ (List.replicate size 0).drop size = code.take size := by
    rw [List.drop_eq_nil_of_le (by rw [List.length_replicate]), List.append_nil]
  refine ⟨?_, ?_, ?_⟩
  · intro h0
    unfold Win32JITProgram.ctor Win32VirtualMemory.VirtualAlloc
    simp only [h0, if_true]
  · intro h0 hp
    unfold Win32JITProgram.ctor Win32VirtualMemory.VirtualAlloc
      Win32VirtualMemory.VirtualProtect Win32VirtualMemory.memcpy
    simp only [if_neg h0, hp, Bool.false_eq_true, if_false, if_true]
  · intro h0 hp
    unfold Win32JITProgram.ctor Win32VirtualMemory.VirtualAlloc
      Win32VirtualMemory.VirtualProtect Win32VirtualMemory.memcpy
    simp only [if_neg h0, hp, if_true, Bool.true_eq_false, if_false, List.map_cons, hcopy]
    exact ⟨_, _, _, rfl, rfl, rfl, rfl, rfl, by rw [List.length_take]; omega, rfl⟩

/-- Witness for C15: three bytes of code, allocation at address 4096. -/
theorem Win32JITProgram_ctor_outcome_witness :
    (exampleMemory.allocResult 3 = 0 →
      Win32JITProgram.ctor exampleMemory [72, 137, 195] 3
        = (exampleMemory, .error (Error.RuntimeError
            ("failed to allocate " ++ toString 3 ++ " byte(s) of executable memory")))) ∧
    (exampleMemory.allocResult 3 ≠ 0 →
      exampleMemory.protectSucceeds (exampleMemory.allocResult 3) 3 = false →
      (Win32JITProgram.ctor exampleMemory [72, 137, 195] 3).2
        = .error (Error.RuntimeError "failed to change virtual memory protection")) ∧
    (exampleMemory.allocResult 3 ≠ 0 →
      exampleMemory.protectSucceeds (exampleMemory.allocResult 3) 3 = true →
      ∃ prog region rest,
        (Win32JITProgram.ctor exampleMemory [72, 137, 195] 3).2 = .ok prog ∧
        prog.entryPoint_ = some (exampleMemory.allocResult 3) ∧
        (Win32JITProgram.ctor exampleMemory [72, 137, 195] 3).1.regions = region :: rest ∧
        region.addr = exampleMemory.allocResult 3 ∧
        region.bytes = [72, 137, 195].take 3 ∧ region.bytes.length = 3 ∧
        region.protect = PageProtection.PAGE_EXECUTE_READ) :=
  Win32JITProgram_ctor_outcome exampleMemory [72, 137, 195] 3 (by decide)

/-! ## Theorems: Direct3D 12 render-target formats and slots -/

/-- C21: for a blend descriptor whose logic operation is not `Disabled`, the converted
render-target formats are `DXGI_FORMAT_R8G8B8A8_UINT` in slot 0 without a render pass,
and with a render pass the UInt variant of its first color format, or
`DXGI_FORMAT_UNKNOWN` when it has no color attachment; every slot 1..7 holds
`DXGI_FORMAT_UNKNOWN`. -/
theorem ConvertBlendDesc_logicOp_formats (T : D3D12Types) (src : BlendDescriptor)
    (numAttachments : Nat) (renderPass : D3D12RenderPass) (h : src.logicOp ≠ LogicOp.Disabled) :
    ((ConvertBlendDesc T src numAttachments).2 0 = DXGI_FORMAT_R8G8B8A8_UINT ∧
      ∀ i : Fin 8, 1 ≤ i.val → (ConvertBlendDesc T src numAttachments).2 i = DXGI_FORMAT_UNKNOWN) ∧
    ((0 < renderPass.numColorAttachments →
        (ConvertBlendDescRenderPass T src renderPass).2 0
          = T.ToDXGIFormatUInt (renderPass.rtvFormats 0)) ∧
      (renderPass.numColorAttachments = 0 →
        (ConvertBlendDescRenderPass T src renderPass).2 0 = DXGI_FORMAT_UNKNOWN) ∧
      ∀ i : Fin 8, 1 ≤ i.val →
        (ConvertBlendDescRenderPass T src renderPass).2 i = DXGI_FORMAT_UNKNOWN) := by
  refine ⟨⟨?_, ?_⟩, ?_, ?_, ?_⟩
  · simp [ConvertBlendDesc, h]
  · intro i hi
    have : i.val ≠ 0 := by omega
    simp [ConvertBlendDesc, h, this]
  · intro hn
    simp [ConvertBlendDescRenderPass, h, hn]
  · intro hn
    simp [ConvertBlendDescRenderPass, h, hn]
  · intro i hi
    have : i.val ≠ 0 := by omega
    simp [ConvertBlendDescRenderPass, h, this]

/-- Witness for C21: logic operation `Op 6`, three attachments, and the example render
pass. -/
theorem ConvertBlendDesc_logicOp_formats_witness :
    ((ConvertBlendDesc exampleTypes (exampleBlend (LogicOp.Op 6)) 3).2 0
        = DXGI_FORMAT_R8G8B8A8_UINT ∧
      ∀ i : Fin 8, 1 ≤ i.val →
        (ConvertBlendDesc exampleTypes (exampleBlend (LogicOp.Op 6)) 3).2 i
          = DXGI_FORMAT_UNKNOWN) ∧
    ((0 < exampleRenderPass.numColorAttachments →
        (ConvertBlendDescRenderPass exampleTypes (exampleBlend (LogicOp.Op 6))
          exampleRenderPass).2 0
          = exampleTypes.ToDXGIFormatUInt (exampleRenderPass.rtvFormats 0)) ∧
      (exampleRenderPass.numColorAttachments = 0 →
        (ConvertBlendDescRenderPass exampleTypes (exampleBlend (LogicOp.Op 6))
          exampleRenderPass).2 0 = DXGI_FORMAT_UNKNOWN) ∧
      ∀ i : Fin 8, 1 ≤ i.val →
        (ConvertBlendDescRenderPass exampleTypes (exampleBlend (LogicOp.Op 6))
          exampleRenderPass).2 i = DXGI_FORMAT_UNKNOWN) :=
  ConvertBlendDesc_logicOp_formats exampleTypes (exampleBlend (LogicOp.Op 6)) 3
    exampleRenderPass (by decide)

/-- A loop that stores `f i` and `g i` into element `i` of two arrays of `m` elements,
for indices below `m`, does not fault and leaves exactly the stored values in the
elements it has visited. -/
theorem foldlM_storeAt {α β : Type}
    (step : List α × List β → Nat → Except Fault (List α × List β))
    (f : Nat → α) (g : Nat → β) (m : Nat)
    (hstep : ∀ arrays i, i < m → arrays.1.length = m → arrays.2.length = m →
      step arrays i = .ok (arrays.1.set i (f i), arrays.2.set i (g i))) :
    ∀ (is : List Nat) (rt : List α) (fmt : List β), rt.length = m → fmt.length = m →
      (∀ i ∈ is, i < m) →
      ∃ rt' fmt', is.foldlM step (rt, fmt) = .ok (rt', fmt') ∧
        rt'.length = m ∧ fmt'.length = m ∧
        (∀ j, rt'[j]? = if j ∈ is then some (f j) else rt[j]?) ∧
        (∀ j, fmt'[j]? = if j ∈ is then some (g j) else fmt[j]?) := by
  intro is
  induction is with
  | nil =>
    intro rt fmt hrt hfmt _
    exact ⟨rt, fmt, rfl, hrt, hfmt, fun j => by simp, fun j => by simp⟩
  | cons i is ih =>
    intro rt fmt hrt hfmt his
    have hi : i < m := his i (List.mem_cons_self _ _)
    obtain ⟨rt', fmt', hfold, hl1, hl2, h1, h2⟩ :=
      ih (rt.set i (f i)) (fmt.set i (g i)) (by rw [List.length_set, hrt])
        (by rw [List.length_set, hfmt]) (fun k hk => his k (List.mem_cons_of_mem _ hk))
    refine ⟨rt', fmt', ?_, hl1, hl2, ?_, ?_⟩
    · rw [List.foldlM_cons, hstep (rt, fmt) i hi hrt hfmt]
      exact hfold
    · intro j
      rw [h1 j]
      by_cases hj : j ∈ is
      · rw [if_pos hj, if_pos (List.mem_cons_of_mem _ hj)]
      · rw [if_neg hj]
        by_cases hji : j = i
        · subst hji
          rw [if_pos (List.mem_cons_self _ _), List.getElem?_set_self (by rw [hrt]; exact hi)]
        · rw [if_neg (by simp [hji, hj]), List.getElem?_set_ne (Ne.symm hji)]
    · intro j
      rw [h2 j]
      by_cases hj : j ∈ is
      · rw [if_pos hj, if_pos (List.mem_cons_of_mem _ hj)]
      · rw [if_neg hj]
        by_cases hji : j = i
        · subst hji
          rw [if_pos (List.mem_cons_self _ _), List.getElem?_set_self (by rw [hfmt]; exact hi)]
        · rw [if_neg (by simp [hji, hj]), List.getElem?_set_ne (Ne.symm hji)]

theorem storeAt_ok {α : Type} (arr : List α) (i : Nat) (v : α) (h : i < arr.length) :
    storeAt arr i v = .ok (arr.set i v) := by
  unfold storeAt; rw [if_pos h]

theorem ConvertBlendDescStep_eq (T : D3D12Types) (src : BlendDescriptor) (numAttachments : Nat)
    (arrays : List D3D12_RENDER_TARGET_BLEND_DESC × List Nat) (i : Nat) (hi : i < 8)
    (h1 : arrays.1.length = 8) (h2 : arrays.2.length = 8) :
    ConvertBlendDescStep T src numAttachments arrays i
      = .ok (arrays.1.set i
          (if h : i < 8 ∧ i < numAttachments then ConvertTargetBlendDesc T (src.targets ⟨i, h.1⟩)
            else SetBlendDescToDefault),
        arrays.2.set i
          (if i < numAttachments then DXGI_FORMAT_B8G8R8A8_UNORM else DXGI_FORMAT_UNKNOWN)) := by
  unfold ConvertBlendDescStep
  by_cases hn : i < numAttachments
  · simp only [if_pos hn, dif_pos hi, dif_pos (And.intro hi hn), bind, Except.bind, pure,
      Except.pure, storeAt_ok _ _ _ (h1.symm ▸ hi), storeAt_ok _ _ _ (h2.symm ▸ hi)]
  · simp only [if_neg hn, dif_neg (fun h : i < 8 ∧ i < numAttachments => hn h.2), bind,
      Except.bind, pure, Except.pure, storeAt_ok _ _ _ (h1.symm ▸ hi),
      storeAt_ok _ _ _ (h2.symm ▸ hi)]

theorem ConvertBlendDescRenderPassStep_eq (T : D3D12Types) (src : BlendDescriptor)
    (renderPass : D3D12RenderPass)
    (arrays : List D3D12_RENDER_TARGET_BLEND_DESC × List Nat) (i : Nat) (hi : i < 8)
    (h1 : arrays.1.length = 8) (h2 : arrays.2.length = 8) :
    ConvertBlendDescRenderPassStep T src renderPass arrays i
      = .ok (arrays.1.set i
          (if h : i < 8 ∧ i < renderPass.numColorAttachments then
            ConvertTargetBlendDesc T (src.targets ⟨i, h.1⟩)
            else SetBlendDescToDefault),
        arrays.2.set i
          (if h : i < 8 ∧ i < renderPass.numColorAttachments then renderPass.rtvFormats ⟨i, h.1⟩
            else DXGI_FORMAT_UNKNOWN)) := by
  unfold ConvertBlendDescRenderPassStep
  by_cases hn : i < renderPass.numColorAttachments
  · simp only [if_pos hn, dif_pos hi, dif_pos (And.intro hi hn), bind, Except.bind, pure,
      Except.pure, storeAt_ok _ _ _ (h1.symm ▸ hi), storeAt_ok _ _ _ (h2.symm ▸ hi)]
  · simp only [if_neg hn,
      dif_neg (fun h : i < 8 ∧ i < renderPass.numColorAttachments => hn h.2), bind,
      Except.bind, pure, Except.pure, storeAt_ok _ _ _ (h1.symm ▸ hi),
      storeAt_ok _ _ _ (h2.symm ▸ hi)]

/-- The write mask has one bit per color-mask flag that is set. -/
theorem GetColorWriteMask_spec (T : D3D12Types) (colorMask : Nat) :
    GetColorWriteMask T colorMask = specColorWriteMask T colorMask := by
  unfold GetColorWriteMask specColorWriteMask
  simp only []
  split_ifs <;> simp [Nat.lor_assoc]

/-- C25: for a blend descriptor with logic operation `Disabled` and every attachment
count `n`, also `n > 8`, the loops of both `ConvertBlendDesc` overloads store into the 8
slots only (no store outside the arrays) and leave in every slot `i` the conversion of
target `i` of the descriptor when `i < n`, namely `BlendEnable` the flag `blendEnabled`
of the target, `LogicOpEnable` `FALSE`, the six blend factors and operations mapped from
those of the target, `LogicOp` `NOOP` and a write mask with one bit per color-mask flag,
and the default state (`BlendEnable` and `LogicOpEnable` `FALSE`, factors `ONE` and
`ZERO`, operations `ADD`, `LogicOp` `NOOP`, write mask `ENABLE_ALL`) with
`DXGI_FORMAT_UNKNOWN` when `i ≥ n`; `IndependentBlendEnable` is the flag
`independentBlendEnabled` of the descriptor. -/
theorem ConvertBlendDesc_disabled_slots (T : D3D12Types) (src : BlendDescriptor)
    (numAttachments : Nat) (renderPass : D3D12RenderPass)
    (renderTarget : List D3D12_RENDER_TARGET_BLEND_DESC) (dstColorFormats : List Nat)
    (h : src.logicOp = LogicOp.Disabled)
    (hrt : renderTarget.length = 8) (hfmt : dstColorFormats.length = 8) :
    (∃ rt fmt,
      ConvertBlendDescLoop T src numAttachments
        (renderTarget, dstColorFormats) = .ok (rt, fmt) ∧
      rt.length = 8 ∧ fmt.length = 8 ∧
      ∀ i : Fin 8,
        rt[i.val]? = some ((ConvertBlendDesc T src
          numAttachments).1.RenderTarget i) ∧
        fmt[i.val]? = some ((ConvertBlendDesc T src
          numAttachments).2 i)) ∧
    (∃ rt fmt,
      ConvertBlendDescRenderPassLoop T src renderPass
        (renderTarget, dstColorFormats) = .ok (rt, fmt) ∧
      rt.length = 8 ∧ fmt.length = 8 ∧
      ∀ i : Fin 8,
        rt[i.val]? = some ((ConvertBlendDescRenderPass T src
          renderPass).1.RenderTarget i) ∧
        fmt[i.val]? = some ((ConvertBlendDescRenderPass T src
          renderPass).2 i)) ∧
    (ConvertBlendDesc T src numAttachments).1.IndependentBlendEnable
      = src.independentBlendEnabled ∧
    (ConvertBlendDescRenderPass T src
      renderPass).1.IndependentBlendEnable
      = src.independentBlendEnabled ∧
    (∀ i : Fin 8,
      (ConvertBlendDesc T src numAttachments).1.RenderTarget i
        = (if i.val < numAttachments then
            { BlendEnable := (src.targets i).blendEnabled,
              LogicOpEnable := false,
              SrcBlend := T.MapBlendOp (src.targets i).srcColor,
              DestBlend := T.MapBlendOp (src.targets i).dstColor,
              BlendOp := T.MapBlendArithmetic
                (src.targets i).colorArithmetic,
              SrcBlendAlpha := T.MapBlendOp (src.targets i).srcAlpha,
              DestBlendAlpha := T.MapBlendOp (src.targets i).dstAlpha,
              BlendOpAlpha := T.MapBlendArithmetic
                (src.targets i).alphaArithmetic,
              LogicOp := D3D12_LOGIC_OP_NOOP,
              RenderTargetWriteMask := specColorWriteMask T
                (src.targets i).colorMask }
          else
            { BlendEnable := false,
              LogicOpEnable := false,
              SrcBlend := D3D12_BLEND_ONE,
              DestBlend := D3D12_BLEND_ZERO,
              BlendOp := D3D12_BLEND_OP_ADD,
              SrcBlendAlpha := D3D12_BLEND_ONE,
              DestBlendAlpha := D3D12_BLEND_ZERO,
              BlendOpAlpha := D3D12_BLEND_OP_ADD,
              LogicOp := D3D12_LOGIC_OP_NOOP,
              RenderTargetWriteMask := D3D12_COLOR_WRITE_ENABLE_ALL }) ∧
      (ConvertBlendDesc T src numAttachments).2 i
        = (if i.val < numAttachments then DXGI_FORMAT_B8G8R8A8_UNORM
            else DXGI_FORMAT_UNKNOWN) ∧
      (ConvertBlendDescRenderPass T src
        renderPass).1.RenderTarget i
        = (if i.val < renderPass.numColorAttachments then
            { BlendEnable := (src.targets i).blendEnabled,
              LogicOpEnable := false,
              SrcBlend := T.MapBlendOp (src.targets i).srcColor,
              DestBlend := T.MapBlendOp (src.targets i).dstColor,
              BlendOp := T.MapBlendArithmetic
                (src.targets i).colorArithmetic,
              SrcBlendAlpha := T.MapBlendOp (src.targets i).srcAlpha,
              DestBlendAlpha := T.MapBlendOp (src.targets i).dstAlpha,
              BlendOpAlpha := T.MapBlendArithmetic
                (src.targets i).alphaArithmetic,
              LogicOp := D3D12_LOGIC_OP_NOOP,
              RenderTargetWriteMask := specColorWriteMask T
                (src.targets i).colorMask }
          else
            { BlendEnable := false,
              LogicOpEnable := false,
              SrcBlend := D3D12_BLEND_ONE,
              DestBlend := D3D12_BLEND_ZERO,
              BlendOp := D3D12_BLEND_OP_ADD,
              SrcBlendAlpha := D3D12_BLEND_ONE,
              DestBlendAlpha := D3D12_BLEND_ZERO,
              BlendOpAlpha := D3D12_BLEND_OP_ADD,
              LogicOp := D3D12_LOGIC_OP_NOOP,
              RenderTargetWriteMask := D3D12_COLOR_WRITE_ENABLE_ALL }) ∧
      (ConvertBlendDescRenderPass T src
        renderPass).2 i
        = (if i.val < renderPass.numColorAttachments then renderPass.rtvFormats i
            else DXGI_FORMAT_UNKNOWN)) := by
  have hmem : ∀ i ∈ List.range LLGL_MAX_NUM_COLOR_ATTACHMENTS, i < 8 := by
    intro i hi
    rw [List.mem_range] at hi
    exact hi
  have hconv : ∀ t : BlendTargetDescriptor, ConvertTargetBlendDesc T t
      = { BlendEnable := (t).blendEnabled,
            LogicOpEnable := false,
            SrcBlend := T.MapBlendOp (t).srcColor,
            DestBlend := T.MapBlendOp (t).dstColor,
            BlendOp := T.MapBlendArithmetic
              (t).colorArithmetic,
            SrcBlendAlpha := T.MapBlendOp (t).srcAlpha,
            DestBlendAlpha := T.MapBlendOp (t).dstAlpha,
            BlendOpAlpha := T.MapBlendArithmetic
              (t).alphaArithmetic,
            LogicOp := D3D12_LOGIC_OP_NOOP,
            RenderTargetWriteMask := specColorWriteMask T
              (t).colorMask } := by
    intro t
    unfold ConvertTargetBlendDesc
    rw [GetColorWriteMask_spec]
  refine ⟨?_, ?_, ?_, ?_, ?_⟩
  · obtain ⟨rt, fmt, hfold, hl1, hl2, h1, h2⟩ :=
      foldlM_storeAt (ConvertBlendDescStep T src numAttachments) _ _ 8
        (fun arrays i hi ha hb => ConvertBlendDescStep_eq T src numAttachments arrays i hi ha hb)
        (List.range LLGL_MAX_NUM_COLOR_ATTACHMENTS) renderTarget dstColorFormats hrt hfmt hmem
    refine ⟨rt, fmt, hfold, hl1, hl2, ?_⟩
    intro i
    have hi : i.val ∈ List.range LLGL_MAX_NUM_COLOR_ATTACHMENTS := List.mem_range.mpr i.isLt
    rw [h1 i.val, h2 i.val, if_pos hi, if_pos hi]
    simp only [ConvertBlendDesc, if_pos h]
    by_cases hn : i.val < numAttachments
    · simp [hn, i.isLt]
    · simp [hn]
  · obtain ⟨rt, fmt, hfold, hl1, hl2, h1, h2⟩ :=
      foldlM_storeAt (ConvertBlendDescRenderPassStep T src renderPass) _ _ 8
        (fun arrays i hi ha hb =>
          ConvertBlendDescRenderPassStep_eq T src renderPass arrays i hi ha hb)
        (List.range LLGL_MAX_NUM_COLOR_ATTACHMENTS) renderTarget dstColorFormats hrt hfmt hmem
    refine ⟨rt, fmt, hfold, hl1, hl2, ?_⟩
    intro i
    have hi : i.val ∈ List.range LLGL_MAX_NUM_COLOR_ATTACHMENTS := List.mem_range.mpr i.isLt
    rw [h1 i.val, h2 i.val, if_pos hi, if_pos hi]
    simp only [ConvertBlendDescRenderPass, if_pos h]
    by_cases hn : i.val < renderPass.numColorAttachments
    · simp [hn, i.isLt]
    · simp [hn]
  · simp only [ConvertBlendDesc, if_pos h]
  · simp only [ConvertBlendDescRenderPass, if_pos h]
  · intro i
    refine ⟨?_, ?_, ?_, ?_⟩
    · simp only [ConvertBlendDesc, if_pos h, hconv]
      rfl
    · simp only [ConvertBlendDesc, if_pos h]
    · simp only [ConvertBlendDescRenderPass, if_pos h, hconv]
      rfl
    · simp only [ConvertBlendDescRenderPass, if_pos h]

/-- Witness for C25: ten attachments requested, and the example render pass with two. -/
theorem ConvertBlendDesc_disabled_slots_witness :
    (∃ rt fmt,
      ConvertBlendDescLoop exampleTypes (exampleBlend LogicOp.Disabled) 10
        (List.replicate 8 SetBlendDescToDefault, List.replicate 8 0) = .ok (rt, fmt) ∧
      rt.length = 8 ∧ fmt.length = 8 ∧
      ∀ i : Fin 8,
        rt[i.val]? = some ((ConvertBlendDesc exampleTypes (exampleBlend LogicOp.Disabled)
          10).1.RenderTarget i) ∧
        fmt[i.val]? = some ((ConvertBlendDesc exampleTypes (exampleBlend LogicOp.Disabled)
          10).2 i)) ∧
    (∃ rt fmt,
      ConvertBlendDescRenderPassLoop exampleTypes (exampleBlend LogicOp.Disabled) exampleRenderPass
        (List.replicate 8 SetBlendDescToDefault, List.replicate 8 0) = .ok (rt, fmt) ∧
      rt.length = 8 ∧ fmt.length = 8 ∧
      ∀ i : Fin 8,
        rt[i.val]? = some ((ConvertBlendDescRenderPass exampleTypes (exampleBlend LogicOp.Disabled)
          exampleRenderPass).1.RenderTarget i) ∧
        fmt[i.val]? = some ((ConvertBlendDescRenderPass exampleTypes (exampleBlend LogicOp.Disabled)
          exampleRenderPass).2 i)) ∧
    (ConvertBlendDesc exampleTypes (exampleBlend LogicOp.Disabled) 10).1.IndependentBlendEnable
      = (exampleBlend LogicOp.Disabled).independentBlendEnabled ∧
    (ConvertBlendDescRenderPass exampleTypes (exampleBlend LogicOp.Disabled)
      exampleRenderPass).1.IndependentBlendEnable
      = (exampleBlend LogicOp.Disabled).independentBlendEnabled ∧
    (∀ i : Fin 8,
      (ConvertBlendDesc exampleTypes (exampleBlend LogicOp.Disabled) 10).1.RenderTarget i
        = (if i.val < 10 then
            { BlendEnable := ((exampleBlend LogicOp.Disabled).targets i).blendEnabled,
              LogicOpEnable := false,
              SrcBlend := exampleTypes.MapBlendOp ((exampleBlend LogicOp.Disabled).targets i).srcColor,
              DestBlend := exampleTypes.MapBlendOp ((exampleBlend LogicOp.Disabled).targets i).dstColor,
              BlendOp := exampleTypes.MapBlendArithmetic
                ((exampleBlend LogicOp.Disabled).targets i).colorArithmetic,
              SrcBlendAlpha := exampleTypes.MapBlendOp ((exampleBlend LogicOp.Disabled).targets i).srcAlpha,
              DestBlendAlpha := exampleTypes.MapBlendOp ((exampleBlend LogicOp.Disabled).targets i).dstAlpha,
              BlendOpAlpha := exampleTypes.MapBlendArithmetic
                ((exampleBlend LogicOp.Disabled).targets i).alphaArithmetic,
              LogicOp := D3D12_LOGIC_OP_NOOP,
              RenderTargetWriteMask := specColorWriteMask exampleTypes
                ((exampleBlend LogicOp.Disabled).targets i).colorMask }
          else
            { BlendEnable := false,
              LogicOpEnable := false,
              SrcBlend := D3D12_BLEND_ONE,
              DestBlend := D3D12_BLEND_ZERO,
              BlendOp := D3D12_BLEND_OP_ADD,
              SrcBlendAlpha := D3D12_BLEND_ONE,
              DestBlendAlpha := D3D12_BLEND_ZERO,
              BlendOpAlpha := D3D12_BLEND_OP_ADD,
              LogicOp := D3D12_LOGIC_OP_NOOP,
              RenderTargetWriteMask := D3D12_COLOR_WRITE_ENABLE_ALL }) ∧
      (ConvertBlendDesc exampleTypes (exampleBlend LogicOp.Disabled) 10).2 i
        = (if i.val < 10 then DXGI_FORMAT_B8G8R8A8_UNORM
            else DXGI_FORMAT_UNKNOWN) ∧
      (ConvertBlendDescRenderPass exampleTypes (exampleBlend LogicOp.Disabled)
        exampleRenderPass).1.RenderTarget i
        = (if i.val < exampleRenderPass.numColorAttachments then
            { BlendEnable := ((exampleBlend LogicOp.Disabled).targets i).blendEnabled,
              LogicOpEnable := false,
              SrcBlend := exampleTypes.MapBlendOp ((exampleBlend LogicOp.Disabled).targets i).srcColor,
              DestBlend := exampleTypes.MapBlendOp ((exampleBlend LogicOp.Disabled).targets i).dstColor,
              BlendOp := exampleTypes.MapBlendArithmetic
                ((exampleBlend LogicOp.Disabled).targets i).colorArithmetic,
              SrcBlendAlpha := exampleTypes.MapBlendOp ((exampleBlend LogicOp.Disabled).targets i).srcAlpha,
              DestBlendAlpha := exampleTypes.MapBlendOp ((exampleBlend LogicOp.Disabled).targets i).dstAlpha,
              BlendOpAlpha := exampleTypes.MapBlendArithmetic
                ((exampleBlend LogicOp.Disabled).targets i).alphaArithmetic,
              LogicOp := D3D12_LOGIC_OP_NOOP,
              RenderTargetWriteMask := specColorWriteMask exampleTypes
                ((exampleBlend LogicOp.Disabled).targets i).colorMask }
          else
            { BlendEnable := false,
              LogicOpEnable := false,
              SrcBlend := D3D12_BLEND_ONE,
              DestBlend := D3D12_BLEND_ZERO,
              BlendOp := D3D12_BLEND_OP_ADD,
              SrcBlendAlpha := D3D12_BLEND_ONE,
              DestBlendAlpha := D3D12_BLEND_ZERO,
              BlendOpAlpha := D3D12_BLEND_OP_ADD,
              LogicOp := D3D12_LOGIC_OP_NOOP,
              RenderTargetWriteMask := D3D12_COLOR_WRITE_ENABLE_ALL }) ∧
      (ConvertBlendDescRenderPass exampleTypes (exampleBlend LogicOp.Disabled)
        exampleRenderPass).2 i
        = (if i.val < exampleRenderPass.numColorAttachments then exampleRenderPass.rtvFormats i
            else DXGI_FORMAT_UNKNOWN)) :=
  ConvertBlendDesc_disabled_slots exampleTypes (exampleBlend LogicOp.Disabled) 10
    exampleRenderPass (List.replicate 8 SetBlendDescToDefault) (List.replicate 8 0) rfl rfl rfl

/-! ## Theorems: OpenGL opcodes and render state -/

/-- C22: the values of the enumerators of `GLOpcode` are, in declaration order, the
contiguous range 1..60, hence pairwise distinct, with `GLOpcodeBufferSubData = 1` and
`GLOpcodePopDebugGroup = 60`; every enumerator is declared once, and every value fits
the 8-bit underlying type. -/
theorem GLOpcode_values_contiguous :
    GLOpcode.values.map Prod.snd = List.range' 1 60 ∧
    (GLOpcode.values.map Prod.snd).Nodup ∧
    (GLOpcode.values.map Prod.fst).Nodup ∧
    (∀ op : GLOpcode, op ∈ GLOpcode.values.map Prod.fst) ∧
    (∀ v ∈ GLOpcode.values.map Prod.snd, 1 ≤ v ∧ v ≤ 60 ∧ v < 2 ^ 8) ∧
    GLOpcode.values.head? = some (GLOpcode.GLOpcodeBufferSubData, 1) ∧
    GLOpcode.values.getLast? = some (GLOpcode.GLOpcodePopDebugGroup, 60) := by
  have hv : GLOpcode.values.map Prod.snd = List.range' 1 60 := by decide
  refine ⟨hv, ?_, by decide, ?_, ?_, rfl, rfl⟩
  · rw [hv]; exact List.nodup_range' 1 60
  · intro op; cases op <;> decide
  · intro v hvm
    rw [hv, List.mem_range'_1] at hvm
    omega

/-- C23, counterexample: two command buffers that differ only by an earlier call of
`SetIndexFormat` (16-bit indices at offset 6, and 32-bit indices at offset 0) still
differ after `ResetRenderState`: the index-buffer strides remain 2 and 4. -/
theorem ResetRenderState_keeps_index_format :
    (exampleGLCommandBuffer.SetIndexFormat ⟨64⟩ true 6).ResetRenderState
      ≠ (exampleGLCommandBuffer.SetIndexFormat ⟨64⟩ false 0).ResetRenderState ∧
    ((exampleGLCommandBuffer.SetIndexFormat ⟨64⟩ true 6).ResetRenderState).renderState_.indexBufferStride
      = 2 ∧
    ((exampleGLCommandBuffer.SetIndexFormat ⟨64⟩ false 0).ResetRenderState).renderState_.indexBufferStride
      = 4 := by
  decide

/-- C23, amended: `ResetRenderState` sets the bound pipeline layout and the bound
pipeline state to null and leaves the index-buffer data type, stride and offset and the
draw and primitive mode as they were; the states after the reset of two command buffers
are equal exactly when these five members were equal before. -/
theorem ResetRenderState_effect (a b : GLCommandBuffer) :
    a.ResetRenderState.renderState_.boundPipelineLayout = none ∧
    a.ResetRenderState.renderState_.boundPipelineState = none ∧
    a.ResetRenderState.renderState_.indexBufferDataType = a.renderState_.indexBufferDataType ∧
    a.ResetRenderState.renderState_.indexBufferStride = a.renderState_.indexBufferStride ∧
    a.ResetRenderState.renderState_.indexBufferOffset = a.renderState_.indexBufferOffset ∧
    a.ResetRenderState.renderState_.drawMode = a.renderState_.drawMode ∧
    a.ResetRenderState.renderState_.primitiveMode = a.renderState_.primitiveMode ∧
    (a.ResetRenderState = b.ResetRenderState ↔
      a.renderState_.indexBufferDataType = b.renderState_.indexBufferDataType ∧
      a.renderState_.indexBufferStride = b.renderState_.indexBufferStride ∧
      a.renderState_.indexBufferOffset = b.renderState_.indexBufferOffset ∧
      a.renderState_.drawMode = b.renderState_.drawMode ∧
      a.renderState_.primitiveMode = b.renderState_.primitiveMode) := by
  refine ⟨rfl, rfl, rfl, rfl, rfl, rfl, rfl, ?_⟩
  obtain ⟨⟨a1, a2, a3, a4, a5, a6, a7⟩⟩ := a
  obtain ⟨⟨b1, b2, b3, b4, b5, b6, b7⟩⟩ := b
  simp only [GLCommandBuffer.ResetRenderState, GLCommandBuffer.mk.injEq, GLRenderState.mk.injEq,
    and_true]
  tauto

/-- A value inside the range of the type is its own two's complement value. -/
theorem wrapInt_of_range (bits : Nat) (v : Int) (h1 : -2 ^ (bits - 1) ≤ v)
    (h2 : v < 2 ^ (bits - 1)) (hb : 0 < bits) : wrapInt bits v = v := by
  unfold wrapInt
  have hp : (2 : Int) ^ bits = 2 * 2 ^ (bits - 1) := by
    rw [← pow_succ']
    congr 1
    omega
  rw [Int.emod_eq_of_lt (by omega) (by omega)]
  omega

/-- C27: after `SetIndexFormat(indexType16Bits, offset)` the index data type is
`GL_UNSIGNED_SHORT` with stride 2 when `indexType16Bits` holds and `GL_UNSIGNED_INT` with
stride 4 otherwise; `GetIndicesOffset(firstIndex)` is `offset + firstIndex * stride`
whenever that value fits the pointer-sized integer; and the bound pipeline layout, the
bound pipeline state and the draw and primitive mode are unchanged. -/
theorem SetIndexFormat_GetIndicesOffset (P : GLPlatform) (self : GLCommandBuffer)
    (indexType16Bits : Bool) (offset firstIndex : Nat)
    (hP : P.ptrBits = 32 ∨ P.ptrBits = 64)
    (hfirst : firstIndex < 2 ^ 32)
    (hfits : (offset : Int) + firstIndex * (if indexType16Bits then 2 else 4)
      < 2 ^ (P.ptrBits - 1)) :
    (self.SetIndexFormat P indexType16Bits offset).renderState_.indexBufferDataType
      = (if indexType16Bits then GL_UNSIGNED_SHORT else GL_UNSIGNED_INT) ∧
    (self.SetIndexFormat P indexType16Bits offset).renderState_.indexBufferStride
      = (if indexType16Bits then 2 else 4) ∧
    (self.SetIndexFormat P indexType16Bits offset).GetIndicesOffset P firstIndex
      = (offset : Int) + firstIndex * (if indexType16Bits then 2 else 4) ∧
    (self.SetIndexFormat P indexType16Bits offset).renderState_.boundPipelineLayout
      = self.renderState_.boundPipelineLayout ∧
    (self.SetIndexFormat P indexType16Bits offset).renderState_.boundPipelineState
      = self.renderState_.boundPipelineState ∧
    (self.SetIndexFormat P indexType16Bits offset).renderState_.drawMode
      = self.renderState_.drawMode ∧
    (self.SetIndexFormat P indexType16Bits offset).renderState_.primitiveMode
      = self.renderState_.primitiveMode := by
  refine ⟨?_, ?_, ?_, ?_, ?_, ?_, ?_⟩
  · cases indexType16Bits <;> rfl
  · cases indexType16Bits <;> rfl
  · obtain ⟨w⟩ := P
    simp only at hP hfits
    rcases hP with rfl | rfl
    · have hoff : wrapInt 32 (offset : Int) = offset := by
        apply wrapInt_of_range 32 _ _ _ (by norm_num)
        · norm_num; omega
        · cases indexType16Bits <;>
            simp only [Bool.false_eq_true, if_false, if_true] at hfits <;> norm_num at hfits ⊢ <;>
            omega
      cases indexType16Bits
      · simp only [GLCommandBuffer.GetIndicesOffset, GLCommandBuffer.SetIndexFormat,
          le_refl, if_true, Bool.false_eq_true, if_false, hoff] at hfits ⊢
        norm_num at hfits ⊢
        rw [wrapInt_of_range 32 _ (by norm_num; omega) (by norm_num; omega) (by norm_num)]
        omega
      · simp only [GLCommandBuffer.GetIndicesOffset, GLCommandBuffer.SetIndexFormat,
          le_refl, if_true, hoff] at hfits ⊢
        norm_num at hfits ⊢
        rw [wrapInt_of_range 32 _ (by norm_num; omega) (by norm_num; omega) (by norm_num)]
        omega
    · have hoff : wrapInt 64 (offset : Int) = offset := by
        apply wrapInt_of_range 64 _ _ _ (by norm_num)
        · norm_num; omega
        · cases indexType16Bits <;>
            simp only [Bool.false_eq_true, if_false, if_true] at hfits <;> norm_num at hfits ⊢ <;>
            omega
      cases indexType16Bits
      · simp only [GLCommandBuffer.GetIndicesOffset, GLCommandBuffer.SetIndexFormat,
          Bool.false_eq_true, if_false, hoff, show ¬ (64 ≤ 32) by omega] at hfits ⊢
        norm_num at hfits
        rw [wrapInt_of_range 64 (firstIndex * 4) (by norm_num; omega) (by norm_num; omega)
          (by norm_num),
          wrapInt_of_range 64 _ (by norm_num; omega) (by norm_num; omega) (by norm_num)]
      · simp only [GLCommandBuffer.GetIndicesOffset, GLCommandBuffer.SetIndexFormat,
          if_true, hoff, show ¬ (64 ≤ 32) by omega, if_false] at hfits ⊢
        norm_num at hfits
        rw [wrapInt_of_range 64 (firstIndex * 2) (by norm_num; omega) (by norm_num; omega)
          (by norm_num),
          wrapInt_of_range 64 _ (by norm_num; omega) (by norm_num; omega) (by norm_num)]
  · cases indexType16Bits <;> rfl
  · cases indexType16Bits <;> rfl
  · cases indexType16Bits <;> rfl
  · cases indexType16Bits <;> rfl

/-- Witness for C27: 16-bit indices at offset 6, first index 3, 64-bit pointers. -/
theorem SetIndexFormat_GetIndicesOffset_witness :
    (exampleGLCommandBuffer.SetIndexFormat ⟨64⟩ true 6).renderState_.indexBufferDataType
      = (if true then GL_UNSIGNED_SHORT else GL_UNSIGNED_INT) ∧
    (exampleGLCommandBuffer.SetIndexFormat ⟨64⟩ true 6).renderState_.indexBufferStride
      = (if true then 2 else 4) ∧
    (exampleGLCommandBuffer.SetIndexFormat ⟨64⟩ true 6).GetIndicesOffset ⟨64⟩ 3
      = ((6 : Nat) : Int) + (3 : Nat) * (if true then 2 else 4) ∧
    (exampleGLCommandBuffer.SetIndexFormat ⟨64⟩ true 6).renderState_.boundPipelineLayout
      = exampleGLCommandBuffer.renderState_.boundPipelineLayout ∧
    (exampleGLCommandBuffer.SetIndexFormat ⟨64⟩ true 6).renderState_.boundPipelineState
      = exampleGLCommandBuffer.renderState_.boundPipelineState ∧
    (exampleGLCommandBuffer.SetIndexFormat ⟨64⟩ true 6).renderState_.drawMode
      = exampleGLCommandBuffer.renderState_.drawMode ∧
    (exampleGLCommandBuffer.SetIndexFormat ⟨64⟩ true 6).renderState_.primitiveMode
      = exampleGLCommandBuffer.renderState_.primitiveMode :=
  SetIndexFormat_GetIndicesOffset ⟨64⟩ exampleGLCommandBuffer true 6 3 (Or.inr rfl)
    (by decide) (by decide)

/-! ## Theorems: termination of the Null replay -/

theorem longBits_lt (v : Int) : longBits v < 256 ^ 4 := by
  unfold longBits
  have h := Int.emod_lt_of_pos v (show (0 : Int) < 2 ^ 32 by norm_num)
  have h0 := Int.emod_nonneg v (show (2 : Int) ^ 32 ≠ 0 by norm_num)
  omega

/-- Value of the `LONG` that stores a `std::int32_t` value. -/
theorem longValue_longBits (v : Int) (hv : IsInt32 v) : longValue (longBits v) = v := by
  obtain ⟨h1, h2⟩ := hv
  unfold longValue longBits wrapInt
  have h0 := Int.emod_nonneg v (show (2 : Int) ^ 32 ≠ 0 by norm_num)
  rw [Int.toNat_of_nonneg h0]
  norm_num
  omega

/-- The members of a stored `D3D12_RECT`. -/
theorem D3D12_RECT_members (sc : Scissor) :
    leValue ((D3D12_RECT_bytes sc).take 4) = longBits sc.x ∧
    leValue (((D3D12_RECT_bytes sc).drop 4).take 4) = longBits sc.y ∧
    leValue (((D3D12_RECT_bytes sc).drop 8).take 4) = longBits (sc.x + sc.width) ∧
    leValue (((D3D12_RECT_bytes sc).drop 12).take 4) = longBits (sc.y + sc.height) := by
  unfold D3D12_RECT_bytes
  simp only [List.append_assoc]
  refine ⟨?_, ?_, ?_, ?_⟩
  · rw [take_append_of_length _ _ _ (leBytes_length _ _),
      leValue_leBytes_of_lt (longBits_lt _)]
  · rw [drop_append_of_length _ _ _ (leBytes_length _ _),
      take_append_of_length _ _ _ (leBytes_length _ _),
      leValue_leBytes_of_lt (longBits_lt _)]
  · rw [show (8 : Nat) = 4 + 4 from rfl, ← List.drop_drop,
      drop_append_of_length _ _ _ (leBytes_length _ _),
      drop_append_of_length _ _ _ (leBytes_length _ _),
      take_append_of_length _ _ _ (leBytes_length _ _),
      leValue_leBytes_of_lt (longBits_lt _)]
  · rw [show (12 : Nat) = 4 + (4 + 4) from rfl, ← List.drop_drop, ← List.drop_drop,
      drop_append_of_length _ _ _ (leBytes_length _ _),
      drop_append_of_length _ _ _ (leBytes_length _ _),
      drop_append_of_length _ _ _ (leBytes_length _ _),
      List.take_of_length_le (by rw [leBytes_length]),
      leValue_leBytes_of_lt (longBits_lt _)]

/-- C26: for at most 16 static scissors, and for scissor `j` with members `x`, `y`,
`width`, `height` such that `x + width` and `y + height` are `std::int32_t` values,
`BuildStaticScissors` stores at `j * sizeof(D3D12_RECT)` behind the bytes written so far
the rectangle `left = x`, `top = y`, `right = x + width`, `bottom = y + height`, so that
`right - left = width` and `bottom - top = height`. -/
theorem BuildStaticScissors_rect (pso : D3D12GraphicsPSO) (scissors : List Scissor)
    (written : List Nat) (j : Nat) (sc : Scissor)
    (hn : scissors.length ≤ 16) (hsc : scissors[j]? = some sc)
    (hx : IsInt32 sc.x) (hy : IsInt32 sc.y)
    (hr : IsInt32 (sc.x + sc.width)) (hb : IsInt32 (sc.y + sc.height)) :
    ∃ pso' buf rect,
      pso.BuildStaticScissors scissors written = .ok (pso', buf) ∧
      rect = (buf.drop (written.length + j * sizeofD3D12_RECT)).take sizeofD3D12_RECT ∧
      D3D12_RECT_left rect = sc.x ∧
      D3D12_RECT_top rect = sc.y ∧
      D3D12_RECT_right rect = sc.x + sc.width ∧
      D3D12_RECT_bottom rect = sc.y + sc.height ∧
      D3D12_RECT_right rect - D3D12_RECT_left rect = sc.width ∧
      D3D12_RECT_bottom rect - D3D12_RECT_top rect = sc.height := by
  obtain ⟨hj, hget⟩ := List.getElem?_eq_some_iff.mp hsc
  have hmod : scissors.length % UINT_SIZE = scissors.length :=
    Nat.mod_eq_of_lt (by unfold UINT_SIZE; omega)
  have h16 : ¬ scissors.length > 16 := by omega
  have hbuild : pso.BuildStaticScissors scissors written
      = .ok ({ pso with numStaticScissors_ := scissors.length },
          written ++ scissors.flatMap D3D12_RECT_bytes) := by
    simp only [D3D12GraphicsPSO.BuildStaticScissors, hmod,
      D3D12_VIEWPORT_AND_SCISSORRECT_OBJECT_COUNT_PER_PIPELINE, if_neg h16]
  have hrect : ((written ++ scissors.flatMap D3D12_RECT_bytes).drop
      (written.length + j * sizeofD3D12_RECT)).take sizeofD3D12_RECT
        = D3D12_RECT_bytes sc := by
    rw [← List.drop_drop, drop_append_of_length _ _ _ rfl]
    have := drop_take_flatMap_uniform _ _ D3D12_RECT_bytes_length scissors [] j hj
    rw [List.append_nil, List.get_eq_getElem, hget] at this
    exact this
  obtain ⟨m1, m2, m3, m4⟩ := D3D12_RECT_members sc
  have hl : D3D12_RECT_left (D3D12_RECT_bytes sc) = sc.x := by
    unfold D3D12_RECT_left; rw [m1, longValue_longBits _ hx]
  have ht : D3D12_RECT_top (D3D12_RECT_bytes sc) = sc.y := by
    unfold D3D12_RECT_top; rw [m2, longValue_longBits _ hy]
  have hri : D3D12_RECT_right (D3D12_RECT_bytes sc) = sc.x + sc.width := by
    unfold D3D12_RECT_right; rw [m3, longValue_longBits _ hr]
  have hbo : D3D12_RECT_bottom (D3D12_RECT_bytes sc) = sc.y + sc.height := by
    unfold D3D12_RECT_bottom; rw [m4, longValue_longBits _ hb]
  refine ⟨_, _, _, hbuild, hrect.symm, hl, ht, hri, hbo, ?_, ?_⟩
  · rw [hri, hl]; ring
  · rw [hbo, ht]; ring

/-- Witness for C26: the second of two scissors, with a negative `y`. -/
theorem BuildStaticScissors_rect_witness :
    ∃ pso' buf rect,
      (D3D12GraphicsPSO.initial 1).BuildStaticScissors [⟨0, 0, 640, 480⟩, ⟨10, -10, 20, 30⟩] []
        = .ok (pso', buf) ∧
      rect = (buf.drop (([] : List Nat).length + 1 * sizeofD3D12_RECT)).take sizeofD3D12_RECT ∧
      D3D12_RECT_left rect = (⟨10, -10, 20, 30⟩ : Scissor).x ∧
      D3D12_RECT_top rect = (⟨10, -10, 20, 30⟩ : Scissor).y ∧
      D3D12_RECT_right rect
        = (⟨10, -10, 20, 30⟩ : Scissor).x + (⟨10, -10, 20, 30⟩ : Scissor).width ∧
      D3D12_RECT_bottom rect
        = (⟨10, -10, 20, 30⟩ : Scissor).y + (⟨10, -10, 20, 30⟩ : Scissor).height ∧
      D3D12_RECT_right rect - D3D12_RECT_left rect = (⟨10, -10, 20, 30⟩ : Scissor).width ∧
      D3D12_RECT_bottom rect - D3D12_RECT_top rect = (⟨10, -10, 20, 30⟩ : Scissor).height :=
  BuildStaticScissors_rect (D3D12GraphicsPSO.initial 1) [⟨0, 0, 640, 480⟩, ⟨10, -10, 20, 30⟩] []
    1 ⟨10, -10, 20, 30⟩ (by decide) rfl (by decide) (by decide) (by decide) (by decide)

/-! ## Theorems: clamped arithmetic of extents and offsets -/

theorem AddUInt32Clamped_spec (a b : Nat) (ha : a < 2 ^ 32) (hb : b < 2 ^ 32) :
    AddUInt32Clamped a b = specAddUInt32 a b := by
  unfold AddUInt32Clamped specAddUInt32 UINT_MAX
  norm_num at ha hb ⊢
  rw [Nat.mod_eq_of_lt (show a + b < 18446744073709551616 by omega)]
  by_cases h : 4294967295 < a + b
  · rw [if_pos h]; omega
  · rw [if_neg h, Nat.mod_eq_of_lt (by omega)]; omega

theorem SubUInt32Clamped_spec (a b : Nat) (ha : a < 2 ^ 32) (hb : b < 2 ^ 32) :
    SubUInt32Clamped a b = specSubUInt32 a b := by
  unfold SubUInt32Clamped specSubUInt32
  norm_num at ha hb ⊢
  by_cases h : b < a
  · rw [if_pos h, if_pos h]; omega
  · rw [if_neg h, if_neg h]

theorem ClampToInt32_spec (x : Int) : ClampToInt32 x = specClampInt32 x := by
  unfold ClampToInt32 specClampInt32 INT_MIN INT_MAX
  simp only []
  rw [wrapInt_of_range 32 _ (by norm_num) (by norm_num) (by norm_num)]
  norm_num

theorem AddInt32Clamped_spec (a b : Int) (ha : IsInt32 a) (hb : IsInt32 b) :
    AddInt32Clamped a b = specClampInt32 (a + b) := by
  obtain ⟨ha1, ha2⟩ := ha
  obtain ⟨hb1, hb2⟩ := hb
  unfold AddInt32Clamped
  simp only []
  rw [wrapInt_of_range 64 a (by norm_num; omega) (by norm_num; omega) (by norm_num),
    wrapInt_of_range 64 (a + b) (by norm_num; omega) (by norm_num; omega) (by norm_num),
    ClampToInt32_spec]

theorem SubInt32Clamped_spec (a b : Int) (ha : IsInt32 a) (hb : IsInt32 b) :
    SubInt32Clamped a b = specClampInt32 (a - b) := by
  obtain ⟨ha1, ha2⟩ := ha
  obtain ⟨hb1, hb2⟩ := hb
  unfold SubInt32Clamped
  simp only []
  rw [wrapInt_of_range 64 a (by norm_num; omega) (by norm_num; omega) (by norm_num),
    wrapInt_of_range 64 (a - b) (by norm_num; omega) (by norm_num; omega) (by norm_num),
    ClampToInt32_spec]

/-- C28: the operators `+` and `-` of `Extent2D`, `Extent3D`, `Offset2D` and `Offset3D`
saturate per component: for unsigned 32-bit members the sum is `min(a + b, 2^32 - 1)`
and the difference is `a - b` when `b < a` and 0 otherwise; for signed 32-bit members
sum and difference are the exact values clamped to `[-2^31, 2^31 - 1]`. -/
theorem Extent_Offset_operators_saturate
    (e2 f2 : Extent2D) (e3 f3 : Extent3D) (o2 p2 : Offset2D) (o3 p3 : Offset3D)
    (he2 : e2.width < 2 ^ 32 ∧ e2.height < 2 ^ 32) (hf2 : f2.width < 2 ^ 32 ∧ f2.height < 2 ^ 32)
    (he3 : e3.width < 2 ^ 32 ∧ e3.height < 2 ^ 32 ∧ e3.depth < 2 ^ 32)
    (hf3 : f3.width < 2 ^ 32 ∧ f3.height < 2 ^ 32 ∧ f3.depth < 2 ^ 32)
    (ho2 : IsInt32 o2.x ∧ IsInt32 o2.y) (hp2 : IsInt32 p2.x ∧ IsInt32 p2.y)
    (ho3 : IsInt32 o3.x ∧ IsInt32 o3.y ∧ IsInt32 o3.z)
    (hp3 : IsInt32 p3.x ∧ IsInt32 p3.y ∧ IsInt32 p3.z) :
    e2 + f2 = ⟨specAddUInt32 e2.width f2.width, specAddUInt32 e2.height f2.height⟩ ∧
    e2 - f2 = ⟨specSubUInt32 e2.width f2.width, specSubUInt32 e2.height f2.height⟩ ∧
    e3 + f3 = ⟨specAddUInt32 e3.width f3.width, specAddUInt32 e3.height f3.height,
      specAddUInt32 e3.depth f3.depth⟩ ∧
    e3 - f3 = ⟨specSubUInt32 e3.width f3.width, specSubUInt32 e3.height f3.height,
      specSubUInt32 e3.depth f3.depth⟩ ∧
    o2 + p2 = ⟨specClampInt32 (o2.x + p2.x), specClampInt32 (o2.y + p2.y)⟩ ∧
    o2 - p2 = ⟨specClampInt32 (o2.x - p2.x), specClampInt32 (o2.y - p2.y)⟩ ∧
    o3 + p3 = ⟨specClampInt32 (o3.x + p3.x), specClampInt32 (o3.y + p3.y),
      specClampInt32 (o3.z + p3.z)⟩ ∧
    o3 - p3 = ⟨specClampInt32 (o3.x - p3.x), specClampInt32 (o3.y - p3.y),
      specClampInt32 (o3.z - p3.z)⟩ := by
  refine ⟨?_, ?_, ?_, ?_, ?_, ?_, ?_, ?_⟩
  · show Extent2D.mk _ _ = _
    rw [AddUInt32Clamped_spec _ _ he2.1 hf2.1, AddUInt32Clamped_spec _ _ he2.2 hf2.2]
  · show Extent2D.mk _ _ = _
    rw [SubUInt32Clamped_spec _ _ he2.1 hf2.1, SubUInt32Clamped_spec _ _ he2.2 hf2.2]
  · show Extent3D.mk _ _ _ = _
    rw [AddUInt32Clamped_spec _ _ he3.1 hf3.1, AddUInt32Clamped_spec _ _ he3.2.1 hf3.2.1,
      AddUInt32Clamped_spec _ _ he3.2.2 hf3.2.2]
  · show Extent3D.mk _ _ _ = _
    rw [SubUInt32Clamped_spec _ _ he3.1 hf3.1, SubUInt32Clamped_spec _ _ he3.2.1 hf3.2.1,
      SubUInt32Clamped_spec _ _ he3.2.2 hf3.2.2]
  · show Offset2D.mk _ _ = _
    rw [AddInt32Clamped_spec _ _ ho2.1 hp2.1, AddInt32Clamped_spec _ _ ho2.2 hp2.2]
  · show Offset2D.mk _ _ = _
    rw [SubInt32Clamped_spec _ _ ho2.1 hp2.1, SubInt32Clamped_spec _ _ ho2.2 hp2.2]
  · show Offset3D.mk _ _ _ = _
    rw [AddInt32Clamped_spec _ _ ho3.1 hp3.1, AddInt32Clamped_spec _ _ ho3.2.1 hp3.2.1,
      AddInt32Clamped_spec _ _ ho3.2.2 hp3.2.2]
  · show Offset3D.mk _ _ _ = _
    rw [SubInt32Clamped_spec _ _ ho3.1 hp3.1, SubInt32Clamped_spec _ _ ho3.2.1 hp3.2.1,
      SubInt32Clamped_spec _ _ ho3.2.2 hp3.2.2]

/-- Witness for C28: operands at the ends of the ranges. -/
theorem Extent_Offset_operators_saturate_witness :
    (⟨4294967295, 5⟩ : Extent2D) + ⟨1, 7⟩
      = ⟨specAddUInt32 (⟨4294967295, 5⟩ : Extent2D).width (⟨1, 7⟩ : Extent2D).width,
        specAddUInt32 (⟨4294967295, 5⟩ : Extent2D).height (⟨1, 7⟩ : Extent2D).height⟩ ∧
    (⟨4294967295, 5⟩ : Extent2D) - ⟨1, 7⟩
      = ⟨specSubUInt32 (⟨4294967295, 5⟩ : Extent2D).width (⟨1, 7⟩ : Extent2D).width,
        specSubUInt32 (⟨4294967295, 5⟩ : Extent2D).height (⟨1, 7⟩ : Extent2D).height⟩ ∧
    (⟨1, 2, 3⟩ : Extent3D) + ⟨4294967295, 0, 9⟩
      = ⟨specAddUInt32 (⟨1, 2, 3⟩ : Extent3D).width (⟨4294967295, 0, 9⟩ : Extent3D).width,
        specAddUInt32 (⟨1, 2, 3⟩ : Extent3D).height (⟨4294967295, 0, 9⟩ : Extent3D).height,
        specAddUInt32 (⟨1, 2, 3⟩ : Extent3D).depth (⟨4294967295, 0, 9⟩ : Extent3D).depth⟩ ∧
    (⟨1, 2, 3⟩ : Extent3D) - ⟨4294967295, 0, 9⟩
      = ⟨specSubUInt32 (⟨1, 2, 3⟩ : Extent3D).width (⟨4294967295, 0, 9⟩ : Extent3D).width,
        specSubUInt32 (⟨1, 2, 3⟩ : Extent3D).height (⟨4294967295, 0, 9⟩ : Extent3D).height,
        specSubUInt32 (⟨1, 2, 3⟩ : Extent3D).depth (⟨4294967295, 0, 9⟩ : Extent3D).depth⟩ ∧
    (⟨2147483647, -5⟩ : Offset2D) + ⟨1, -2147483648⟩
      = ⟨specClampInt32 ((⟨2147483647, -5⟩ : Offset2D).x + (⟨1, -2147483648⟩ : Offset2D).x),
        specClampInt32 ((⟨2147483647, -5⟩ : Offset2D).y + (⟨1, -2147483648⟩ : Offset2D).y)⟩ ∧
    (⟨2147483647, -5⟩ : Offset2D) - ⟨1, -2147483648⟩
      = ⟨specClampInt32 ((⟨2147483647, -5⟩ : Offset2D).x - (⟨1, -2147483648⟩ : Offset2D).x),
        specClampInt32 ((⟨2147483647, -5⟩ : Offset2D).y - (⟨1, -2147483648⟩ : Offset2D).y)⟩ ∧
    (⟨1, 2, 3⟩ : Offset3D) + ⟨-1, 2147483647, 0⟩
      = ⟨specClampInt32 ((⟨1, 2, 3⟩ : Offset3D).x + (⟨-1, 2147483647, 0⟩ : Offset3D).x),
        specClampInt32 ((⟨1, 2, 3⟩ : Offset3D).y + (⟨-1, 2147483647, 0⟩ : Offset3D).y),
        specClampInt32 ((⟨1, 2, 3⟩ : Offset3D).z + (⟨-1, 2147483647, 0⟩ : Offset3D).z)⟩ ∧
    (⟨1, 2, 3⟩ : Offset3D) - ⟨-1, 2147483647, 0⟩
      = ⟨specClampInt32 ((⟨1, 2, 3⟩ : Offset3D).x - (⟨-1, 2147483647, 0⟩ : Offset3D).x),
        specClampInt32 ((⟨1, 2, 3⟩ : Offset3D).y - (⟨-1, 2147483647, 0⟩ : Offset3D).y),
        specClampInt32 ((⟨1, 2, 3⟩ : Offset3D).z - (⟨-1, 2147483647, 0⟩ : Offset3D).z)⟩ :=
  Extent_Offset_operators_saturate ⟨4294967295, 5⟩ ⟨1, 7⟩ ⟨1, 2, 3⟩ ⟨4294967295, 0, 9⟩
    ⟨2147483647, -5⟩ ⟨1, -2147483648⟩ ⟨1, 2, 3⟩ ⟨-1, 2147483647, 0⟩
    (by decide) (by decide) (by decide) (by decide) (by decide) (by decide) (by decide)
    (by decide)

/-! ## Theorems: Direct3D 11 staging buffer -/

/-- C29, counterexample: a staging buffer of 16 bytes with write offset 8 has capacity for
4 bytes, and `WriteAndIncrementOffset` of 4 bytes with stride 16 leaves the write offset
at 24, beyond the size. -/
theorem WriteAndIncrementOffset_exceeds_size :
    exampleStagingBuffer.offset_ ≤ exampleStagingBuffer.size_ ∧
    exampleStagingBuffer.Capacity 4 = true ∧
    (exampleStagingBuffer.WriteAndIncrementOffset [1, 2, 3, 4] 4 16).1.offset_ = 24 ∧
    ¬ (exampleStagingBuffer.WriteAndIncrementOffset [1, 2, 3, 4] 4 16).1.offset_
      ≤ (exampleStagingBuffer.WriteAndIncrementOffset [1, 2, 3, 4] 4 16).1.size_ := by
  decide

/-- C29, amended: if `Capacity(max(dataSize, stride))` holds before
`WriteAndIncrementOffset(data, dataSize, stride)`, then the write offset is at most the
size afterwards, and the size is unchanged; `Reset` sets the write offset to 0. -/
theorem WriteAndIncrementOffset_within_size (self : D3D11StagingBuffer) (data : List Nat)
    (dataSize stride : Nat)
    (hcap : self.Capacity (max dataSize stride) = true) :
    (self.WriteAndIncrementOffset data dataSize stride).1.offset_
      ≤ (self.WriteAndIncrementOffset data dataSize stride).1.size_ ∧
    (self.WriteAndIncrementOffset data dataSize stride).1.size_ = self.size_ ∧
    self.Reset.offset_ = 0 ∧ self.Reset.size_ = self.size_ := by
  unfold D3D11StagingBuffer.Capacity at hcap
  simp only [decide_eq_true_eq] at hcap
  exact ⟨hcap, rfl, rfl, rfl⟩

/-- Witness for the amended C29: 4 bytes with stride 8 into 16 bytes at offset 8. -/
theorem WriteAndIncrementOffset_within_size_witness :
    (exampleStagingBuffer.WriteAndIncrementOffset [1, 2, 3, 4] 4 8).1.offset_
      ≤ (exampleStagingBuffer.WriteAndIncrementOffset [1, 2, 3, 4] 4 8).1.size_ ∧
    (exampleStagingBuffer.WriteAndIncrementOffset [1, 2, 3, 4] 4 8).1.size_
      = exampleStagingBuffer.size_ ∧
    exampleStagingBuffer.Reset.offset_ = 0 ∧
    exampleStagingBuffer.Reset.size_ = exampleStagingBuffer.size_ :=
  WriteAndIncrementOffset_within_size exampleStagingBuffer [1, 2, 3, 4] 4 8 (by decide)

/-- C30, divergence: the move constructor and the move assignment of
`D3D11StagingBuffer` transfer the native buffer, the size and the write offset, but not
the usage: the destination has the usage the header initialises it with, respectively
the usage it had before. For a source with dynamic usage and a destination initialised
with `D3D11_USAGE_DEFAULT`, `Write` maps and copies on the source and updates the
sub-resource on the destination. -/
theorem D3D11StagingBuffer_move_drops_usage :
    (∀ init rhs : D3D11StagingBuffer,
      (D3D11StagingBuffer.moveCtor init rhs).1.usage_ = init.usage_ ∧
      (D3D11StagingBuffer.moveCtor init rhs).1.size_ = rhs.size_ ∧
      (D3D11StagingBuffer.moveCtor init rhs).1.offset_ = rhs.offset_ ∧
      (D3D11StagingBuffer.moveCtor init rhs).1.native_ = rhs.native_) ∧
    (∀ self rhs : D3D11StagingBuffer,
      (self.moveAssign rhs).1.usage_ = self.usage_ ∧
      (self.moveAssign rhs).1.size_ = rhs.size_ ∧
      (self.moveAssign rhs).1.offset_ = rhs.offset_ ∧
      (self.moveAssign rhs).1.native_ = rhs.native_) ∧
    (D3D11StagingBuffer.moveCtor exampleStagingInit exampleStagingBuffer).1.usage_
      ≠ exampleStagingBuffer.usage_ ∧
    exampleStagingBuffer.Write [1, 2, 3, 4] 4
      = [D3D11Call.Map (some 1) false, D3D11Call.memcpy 8 [1, 2, 3, 4],
          D3D11Call.Unmap (some 1)] ∧
    (D3D11StagingBuffer.moveCtor exampleStagingInit exampleStagingBuffer).1.Write [1, 2, 3, 4] 4
      = [D3D11Call.UpdateSubresource (some 1) 8 12 [1, 2, 3, 4]] := by
  refine ⟨fun _ _ => ⟨rfl, rfl, rfl, rfl⟩, fun _ _ => ⟨rfl, rfl, rfl, rfl⟩, ?_, ?_, ?_⟩
  · decide
  · decide
  · decide

/-! ## Theorems: Direct3D 12 layout of the static-state buffer -/

/-- Value of the `LONG` that a value is converted to. -/
theorem longValue_longBits_wrap (v : Int) : longValue (longBits v) = wrapInt 32 v := by
  unfold longValue longBits wrapInt
  have h0 := Int.emod_nonneg v (show (2 : Int) ^ 32 ≠ 0 by norm_num)
  rw [Int.toNat_of_nonneg h0]
  norm_num

/-- The members of a stored `D3D12_VIEWPORT`. -/
theorem D3D12_VIEWPORT_members (v : Viewport) (hv : v.IsFloat32) :
    D3D12_VIEWPORT_TopLeftX (D3D12_VIEWPORT_bytes v) = v.x ∧
    D3D12_VIEWPORT_TopLeftY (D3D12_VIEWPORT_bytes v) = v.y ∧
    D3D12_VIEWPORT_Width (D3D12_VIEWPORT_bytes v) = v.width ∧
    D3D12_VIEWPORT_Height (D3D12_VIEWPORT_bytes v) = v.height ∧
    D3D12_VIEWPORT_MinDepth (D3D12_VIEWPORT_bytes v) = v.minDepth ∧
    D3D12_VIEWPORT_MaxDepth (D3D12_VIEWPORT_bytes v) = v.maxDepth := by
  obtain ⟨h1, h2, h3, h4, h5, h6⟩ := hv
  have e : UINT_SIZE = 256 ^ 4 := by unfold UINT_SIZE; norm_num
  rw [e] at h1 h2 h3 h4 h5 h6
  unfold D3D12_VIEWPORT_TopLeftX D3D12_VIEWPORT_TopLeftY D3D12_VIEWPORT_Width
    D3D12_VIEWPORT_Height D3D12_VIEWPORT_MinDepth D3D12_VIEWPORT_MaxDepth D3D12_VIEWPORT_bytes
  simp only [List.append_assoc]
  refine ⟨?_, ?_, ?_, ?_, ?_, ?_⟩
  · rw [take_append_of_length _ _ _ (leBytes_length _ _), leValue_leBytes_of_lt h1]
  · rw [drop_append_of_length _ _ _ (leBytes_length _ _),
      take_append_of_length _ _ _ (leBytes_length _ _), leValue_leBytes_of_lt h2]
  · rw [show (8 : Nat) = 4 + 4 from rfl, ← List.drop_drop,
      drop_append_of_length _ _ _ (leBytes_length _ _),
      drop_append_of_length _ _ _ (leBytes_length _ _),
      take_append_of_length _ _ _ (leBytes_length _ _), leValue_leBytes_of_lt h3]
  · rw [show (12 : Nat) = 4 + (4 + 4) from rfl, ← List.drop_drop, ← List.drop_drop,
      drop_append_of_length _ _ _ (leBytes_length _ _),
      drop_append_of_length _ _ _ (leBytes_length _ _),
      drop_append_of_length _ _ _ (leBytes_length _ _),
      take_append_of_length _ _ _ (leBytes_length _ _), leValue_leBytes_of_lt h4]
  · rw [show (16 : Nat) = 4 + (4 + (4 + 4)) from rfl, ← List.drop_drop, ← List.drop_drop,
      ← List.drop_drop,
      drop_append_of_length _ _ _ (leBytes_length _ _),
      drop_append_of_length _ _ _ (leBytes_length _ _),
      drop_append_of_length _ _ _ (leBytes_length _ _),
      drop_append_of_length _ _ _ (leBytes_length _ _),
      take_append_of_length _ _ _ (leBytes_length _ _), leValue_leBytes_of_lt h5]
  · rw [show (20 : Nat) = 4 + (4 + (4 + (4 + 4))) from rfl, ← List.drop_drop, ← List.drop_drop,
      ← List.drop_drop, ← List.drop_drop,
      drop_append_of_length _ _ _ (leBytes_length _ _),
      drop_append_of_length _ _ _ (leBytes_length _ _),
      drop_append_of_length _ _ _ (leBytes_length _ _),
      drop_append_of_length _ _ _ (leBytes_length _ _),
      drop_append_of_length _ _ _ (leBytes_length _ _),
      List.take_of_length_le (by rw [leBytes_length]), leValue_leBytes_of_lt h6]

/-- C19: for a descriptor with `v ≤ 16` static viewports and `s ≤ 16` static scissors,
`BuildStaticStateBuffer` on a PSO whose counts are still zero produces a buffer of
exactly `v * sizeof(D3D12_VIEWPORT) + s * sizeof(D3D12_RECT)` bytes in which viewport
`i` is stored at offset `i * sizeof(D3D12_VIEWPORT)`, with the members `TopLeftX`,
`TopLeftY`, `Width`, `Height`, `MinDepth`, `MaxDepth` of the slot equal to `x`, `y`,
`width`, `height`, `minDepth`, `maxDepth` of viewport `i`, and scissor `j` at offset
`v * sizeof(D3D12_VIEWPORT) + j * sizeof(D3D12_RECT)`, with the members `left`, `top`,
`right`, `bottom` of the slot equal to `x`, `y`, `x + width`, `y + height` of scissor `j`
converted to `LONG`, and records the counts `v` and `s` in `numStaticViewports_` and
`numStaticScissors_`. The members of a viewport are `float` values, given as their
32-bit patterns. -/
theorem BuildStaticStateBuffer_layout (pso₀ : D3D12GraphicsPSO)
    (desc : GraphicsPipelineDescriptor)
    (hv : desc.viewports.length ≤ 16) (hs : desc.scissors.length ≤ 16)
    (h0v : pso₀.numStaticViewports_ = 0) (h0s : pso₀.numStaticScissors_ = 0)
    (hfloat : ∀ v ∈ desc.viewports, v.IsFloat32) :
    ∃ pso buf,
      pso₀.BuildStaticStateBuffer desc = .ok pso ∧ pso.staticStateBuffer_ = some buf ∧
      buf.length = desc.viewports.length * sizeofD3D12_VIEWPORT +
        desc.scissors.length * sizeofD3D12_RECT ∧
      (∀ i (hi : i < desc.viewports.length),
        staticViewportSlot buf i = D3D12_VIEWPORT_bytes (desc.viewports.get ⟨i, hi⟩) ∧
        D3D12_VIEWPORT_TopLeftX (staticViewportSlot buf i) = (desc.viewports.get ⟨i, hi⟩).x ∧
        D3D12_VIEWPORT_TopLeftY (staticViewportSlot buf i) = (desc.viewports.get ⟨i, hi⟩).y ∧
        D3D12_VIEWPORT_Width (staticViewportSlot buf i) = (desc.viewports.get ⟨i, hi⟩).width ∧
        D3D12_VIEWPORT_Height (staticViewportSlot buf i) = (desc.viewports.get ⟨i, hi⟩).height ∧
        D3D12_VIEWPORT_MinDepth (staticViewportSlot buf i)
          = (desc.viewports.get ⟨i, hi⟩).minDepth ∧
        D3D12_VIEWPORT_MaxDepth (staticViewportSlot buf i)
          = (desc.viewports.get ⟨i, hi⟩).maxDepth) ∧
      (∀ j (hj : j < desc.scissors.length),
        staticScissorSlot buf desc.viewports.length j
          = D3D12_RECT_bytes (desc.scissors.get ⟨j, hj⟩) ∧
        D3D12_RECT_left (staticScissorSlot buf desc.viewports.length j)
          = wrapInt 32 (desc.scissors.get ⟨j, hj⟩).x ∧
        D3D12_RECT_top (staticScissorSlot buf desc.viewports.length j)
          = wrapInt 32 (desc.scissors.get ⟨j, hj⟩).y ∧
        D3D12_RECT_right (staticScissorSlot buf desc.viewports.length j)
          = wrapInt 32 ((desc.scissors.get ⟨j, hj⟩).x + (desc.scissors.get ⟨j, hj⟩).width) ∧
        D3D12_RECT_bottom (staticScissorSlot buf desc.viewports.length j)
          = wrapInt 32 ((desc.scissors.get ⟨j, hj⟩).y + (desc.scissors.get ⟨j, hj⟩).height)) ∧
      pso.numStaticViewports_ = desc.viewports.length ∧
      pso.numStaticScissors_ = desc.scissors.length := by
  refine ⟨_, _, BuildStaticStateBuffer_eq pso₀ desc hv hs, rfl, ?_, ?_, ?_, ?_, ?_⟩
  · rw [List.length_append, length_flatMap_VIEWPORT, length_flatMap_RECT]
  · intro i hi
    have hslot : staticViewportSlot
        (desc.viewports.flatMap D3D12_VIEWPORT_bytes ++ desc.scissors.flatMap D3D12_RECT_bytes) i
          = D3D12_VIEWPORT_bytes (desc.viewports.get ⟨i, hi⟩) :=
      drop_take_flatMap_uniform _ _ D3D12_VIEWPORT_bytes_length _ _ i hi
    rw [hslot]
    exact ⟨rfl, D3D12_VIEWPORT_members _ (hfloat _ (List.get_mem _ _ _))⟩
  · intro j hj
    have hslot : staticScissorSlot
        (desc.viewports.flatMap D3D12_VIEWPORT_bytes ++ desc.scissors.flatMap D3D12_RECT_bytes)
        desc.viewports.length j = D3D12_RECT_bytes (desc.scissors.get ⟨j, hj⟩) := by
      unfold staticScissorSlot
      rw [← List.drop_drop, drop_append_of_length _ _ _ (length_flatMap_VIEWPORT _)]
      have := drop_take_flatMap_uniform _ _ D3D12_RECT_bytes_length desc.scissors [] j hj
      rw [List.append_nil] at this
      exact this
    rw [hslot]
    obtain ⟨m1, m2, m3, m4⟩ := D3D12_RECT_members (desc.scissors.get ⟨j, hj⟩)
    refine ⟨rfl, ?_, ?_, ?_, ?_⟩
    · unfold D3D12_RECT_left; rw [m1, longValue_longBits_wrap]
    · unfold D3D12_RECT_top; rw [m2, longValue_longBits_wrap]
    · unfold D3D12_RECT_right; rw [m3, longValue_longBits_wrap]
    · unfold D3D12_RECT_bottom; rw [m4, longValue_longBits_wrap]
  · simp only [h0v]
    split
    · rfl
    · rename_i h; simp only [ne_eq, not_not] at h; rw [h]; rfl
  · simp only [h0s]
    split
    · rfl
    · rename_i h; simp only [ne_eq, not_not] at h; rw [h]; rfl

/-- Witness for C19: one static viewport and two static scissors. -/
theorem BuildStaticStateBuffer_layout_witness :
    ∃ pso buf,
      (D3D12GraphicsPSO.initial 1).BuildStaticStateBuffer exampleStaticDesc = .ok pso ∧
      pso.staticStateBuffer_ = some buf ∧
      buf.length = exampleStaticDesc.viewports.length * sizeofD3D12_VIEWPORT +
        exampleStaticDesc.scissors.length * sizeofD3D12_RECT ∧
      (∀ i (hi : i < exampleStaticDesc.viewports.length),
        staticViewportSlot buf i = D3D12_VIEWPORT_bytes (exampleStaticDesc.viewports.get ⟨i, hi⟩) ∧
        D3D12_VIEWPORT_TopLeftX (staticViewportSlot buf i)
          = (exampleStaticDesc.viewports.get ⟨i, hi⟩).x ∧
        D3D12_VIEWPORT_TopLeftY (staticViewportSlot buf i)
          = (exampleStaticDesc.viewports.get ⟨i, hi⟩).y ∧
        D3D12_VIEWPORT_Width (staticViewportSlot buf i)
          = (exampleStaticDesc.viewports.get ⟨i, hi⟩).width ∧
        D3D12_VIEWPORT_Height (staticViewportSlot buf i)
          = (exampleStaticDesc.viewports.get ⟨i, hi⟩).height ∧
        D3D12_VIEWPORT_MinDepth (staticViewportSlot buf i)
          = (exampleStaticDesc.viewports.get ⟨i, hi⟩).minDepth ∧
        D3D12_VIEWPORT_MaxDepth (staticViewportSlot buf i)
          = (exampleStaticDesc.viewports.get ⟨i, hi⟩).maxDepth) ∧
      (∀ j (hj : j < exampleStaticDesc.scissors.length),
        staticScissorSlot buf exampleStaticDesc.viewports.length j
          = D3D12_RECT_bytes (exampleStaticDesc.scissors.get ⟨j, hj⟩) ∧
        D3D12_RECT_left (staticScissorSlot buf exampleStaticDesc.viewports.length j)
          = wrapInt 32 (exampleStaticDesc.scissors.get ⟨j, hj⟩).x ∧
        D3D12_RECT_top (staticScissorSlot buf exampleStaticDesc.viewports.length j)
          = wrapInt 32 (exampleStaticDesc.scissors.get ⟨j, hj⟩).y ∧
        D3D12_RECT_right (staticScissorSlot buf exampleStaticDesc.viewports.length j)
          = wrapInt 32 ((exampleStaticDesc.scissors.get ⟨j, hj⟩).x +
              (exampleStaticDesc.scissors.get ⟨j, hj⟩).width) ∧
        D3D12_RECT_bottom (staticScissorSlot buf exampleStaticDesc.viewports.length j)
          = wrapInt 32 ((exampleStaticDesc.scissors.get ⟨j, hj⟩).y +
              (exampleStaticDesc.scissors.get ⟨j, hj⟩).height)) ∧
      pso.numStaticViewports_ = exampleStaticDesc.viewports.length ∧
      pso.numStaticScissors_ = exampleStaticDesc.scissors.length :=
  BuildStaticStateBuffer_layout (D3D12GraphicsPSO.initial 1) exampleStaticDesc (by decide)
    (by decide) rfl rfl (by decide)

/-! ## Theorems: counts beyond 32 bits -/

end LLGL
